import Mathlib

/-!
# Bibliotheque cooperative: file ingestion and range-addressable delivery

A shallow embedding of the backend of the cooperative library
(`backend/src/controllers/fileController.js`, `backend/src/models/File.js`,
`backend/src/utils/upload.js`, `backend/src/middlewares/validation.js`,
`backend/src/routes/files.js`, `backend/src/config/initDatabase.js`,
`backend/src/app.js`).

Modelling conventions.

* The durable file system is a finite map from absolute paths to byte
  contents, written as a function `String → Option Content`.  Directories are
  implicit.  Every path the backend builds is `path.join(<backend root>,
  "uploads", rel)` or `path.join(<backend root>, "temp", name)`; the backend
  root is the empty prefix here and `path.join` is concatenation with `/`,
  which is what it does on the relative paths the upload handler generates
  (no `.` or `..` segment, no doubled separator).
* The `files` table is a list of rows together with the AUTOINCREMENT
  sequence value.
* A promise that rejects, or a call that throws, is an `Except` error.  The
  failures of the environment (disk full, permission, database busy) are
  decided by explicit boolean fault flags passed to each operation.
* JavaScript numbers are exact integers or `NaN` (`JsNum`); file offsets stay
  far below `2^53`, where the two agree.
-/

namespace Bibliotheque

/-! ## Durable file system (`fs-extra`) -/

/-- A byte of file content. -/
abbrev Byte := Nat

/-- The content of a file. -/
abbrev Content := List Byte

/-- The file system: the content stored at each path, if any. -/
abbrev FileSystem := String → Option Content

/-- The file system without any file. -/
def FileSystem.empty : FileSystem := fun _ => none

/-- The file system `fs` with `c` written at `p`. -/
def FileSystem.write (fs : FileSystem) (p : String) (c : Content) : FileSystem :=
  fun q => if q = p then some c else fs q

/-- The file system `fs` without the file at `p`. -/
def FileSystem.erase (fs : FileSystem) (p : String) : FileSystem :=
  fun q => if q = p then none else fs q

/-- Embedding of `fs.pathExists(p)`: never throws. -/
def pathExists (fs : FileSystem) (p : String) : Bool := (fs p).isSome

/-- Embedding of `fs.stat(p).size`: the length of the file, an error when it is missing. -/
def statSize (fs : FileSystem) (p : String) : Except String Nat :=
  match fs p with
  | some c => .ok c.length
  | none => .error "ENOENT"

/-- Embedding of `fs.ensureDir(dir)`: creates the directory when missing; directories are
implicit in the model, so only the injected failure is visible. -/
def ensureDir (fails : Bool) (fs : FileSystem) : Except String FileSystem :=
  if fails then .error "EACCES" else .ok fs

/-- Embedding of `fs.move(src, dest)` of fs-extra with its default `overwrite: false`:
fails when the source is missing or the destination exists, otherwise the
content is at `dest` and `src` is gone. -/
def move (fails : Bool) (src dest : String) (fs : FileSystem) : Except String FileSystem :=
  if fails then .error "EIO"
  else match fs src with
    | none => .error "ENOENT"
    | some c =>
      if (fs dest).isSome then .error "dest already exists."
      else .ok ((fs.erase src).write dest c)

/-- Embedding of `fs.remove(p)` of fs-extra: removes the file, silently succeeds when
nothing is there. -/
def remove (fails : Bool) (p : String) (fs : FileSystem) : Except String FileSystem :=
  if fails then .error "EPERM" else .ok (fs.erase p)

/-- Embedding of `path.join(__dirname, "../../uploads", rel)`. -/
def uploadsPath (rel : String) : String := "uploads/" ++ rel

/-- Embedding of `path.join(__dirname, "../../temp")` followed by the staged file name. -/
def tempPath (name : String) : String := "temp/" ++ name

/-! ## Metadata store (table `files`, `models/File.js`) -/

/-- The object `fileData` handed to `File.create`. -/
structure FileData where
  title : String
  description : String
  type : String
  theme : String
  file_path : String
  original_name : String
  file_size : Nat
  uploaded_by : Nat
  deriving DecidableEq

/-- A row of the table `files` (the joined `uploader_name` of the users
table is left out). -/
structure FileRow where
  id : Nat
  title : String
  description : String
  type : String
  theme : String
  file_path : String
  original_name : String
  file_size : Nat
  date_added : String
  uploaded_by : Nat
  deriving DecidableEq

/-- The value `File.create` resolves with: `{ id: this.lastID, ...fileData }`. -/
structure NewFile where
  id : Nat
  data : FileData
  deriving DecidableEq

/-- The table `files`: its rows in insertion order and the AUTOINCREMENT
sequence (the largest id ever assigned). -/
structure Database where
  rows : List FileRow
  seq : Nat
  deriving DecidableEq

/-- The table as `initDatabase` creates it. -/
def Database.empty : Database := { rows := [], seq := 0 }

/-- The constraint `CHECK(type IN ('audio', 'video', 'pdf', 'image'))`. -/
def typeCheck (t : String) : Bool :=
  t = "audio" || t = "video" || t = "pdf" || t = "image"

namespace File

/-- The row the INSERT stores for `fileData`: the id is assigned by the
table, `date_added` defaults to `CURRENT_TIMESTAMP`. -/
def rowOf (id : Nat) (now : String) (fileData : FileData) : FileRow :=
  { id := id, title := fileData.title, description := fileData.description,
    type := fileData.type, theme := fileData.theme, file_path := fileData.file_path,
    original_name := fileData.original_name, file_size := fileData.file_size,
    date_added := now, uploaded_by := fileData.uploaded_by }

/-- The table after a successful INSERT of `fileData`. -/
def inserted (now : String) (fileData : FileData) (db : Database) : Database :=
  { rows := db.rows ++ [rowOf (db.seq + 1) now fileData], seq := db.seq + 1 }

/-- Embedding of `File.create(fileData)`: the INSERT.  It rejects when the statement fails
(`fails`) or the CHECK constraint on `type` is violated; otherwise the row
gets the next id and the promise resolves with
`{ id: this.lastID, ...fileData }`. -/
def create (fails : Bool) (now : String) (fileData : FileData) (db : Database) :
    Except String (Database × NewFile) :=
  if fails then .error "SQLITE_ERROR"
  else if !typeCheck fileData.type then .error "SQLITE_CONSTRAINT: CHECK constraint failed"
  else .ok (inserted now fileData db, { id := db.seq + 1, data := fileData })

/-- Embedding of `File.findById(id)`: the SELECT by id; `undefined` (`none`) when no row
matches. -/
def findById (fails : Bool) (id : Nat) (db : Database) : Except String (Option FileRow) :=
  if fails then .error "SQLITE_ERROR" else .ok (db.rows.find? (fun r => r.id = id))

/-- The object `updateData`: every field of the `fileUpdate` schema is
optional. -/
structure UpdateData where
  title : Option String
  description : Option String
  theme : Option String
  deriving DecidableEq

/-- Embedding of `File.update(id, updateData)`: the UPDATE of the three descriptive
columns.  A field that is `undefined` binds NULL, which the NOT NULL
constraint refuses as soon as a row matches.  Resolves with the number of
changed rows. -/
def update (fails : Bool) (id : Nat) (updateData : UpdateData) (db : Database) :
    Except String (Database × Nat) :=
  if fails then .error "SQLITE_ERROR"
  else
    let changes := (db.rows.filter (fun r => r.id = id)).length
    if changes = 0 then .ok (db, 0)
    else match updateData.title, updateData.description, updateData.theme with
      | some title, some description, some theme =>
        .ok ({ db with rows := db.rows.map (fun r =>
                if r.id = id then { r with title := title, description := description,
                                           theme := theme } else r) }, changes)
      | _, _, _ => .error "SQLITE_CONSTRAINT: NOT NULL constraint failed"

/-- The fault flags of one `File.delete`. -/
structure DeleteFaults where
  selectFails : Bool
  removeFails : Bool
  deleteFails : Bool
  deriving DecidableEq

/-- Embedding of `File.delete(id)`: SELECT the stored path, reject when there is no row;
remove the physical file, only warning when that fails; then DELETE the
row.  Returns the new file system and table in every case, and the number of
deleted rows on success. -/
def delete (faults : DeleteFaults) (id : Nat) (fs : FileSystem) (db : Database) :
    FileSystem × Database × Except String Nat :=
  if faults.selectFails then (fs, db, .error "SQLITE_ERROR")
  else match db.rows.find? (fun r => r.id = id) with
    | none => (fs, db, .error "Fichier non trouvé")
    | some row =>
      let filePath := uploadsPath row.file_path
      let fs1 := match remove faults.removeFails filePath fs with
        | .ok fs1 => fs1
        | .error _ => fs
      if faults.deleteFails then (fs1, db, .error "SQLITE_ERROR")
      else
        let kept := db.rows.filter (fun r => !(r.id = id))
        (fs1, { db with rows := kept }, .ok (db.rows.length - kept.length))

end File

/-! ## Responses -/

/-- The body of a response. -/
inductive Body
  | json (success : Bool) (message : String)
  | created (message : String) (file : NewFile)
  | content (bytes : Content)
  | invalid (message : String) (errors : List (String × String))
  | updated (message : String) (file : Option FileRow)
  deriving DecidableEq

/-- What a handler answers: the status, the headers the handler sets (as
they go on the wire) and the body that is delivered. -/
structure Response where
  status : Nat
  contentType : Option String
  contentDisposition : Option String
  contentRange : Option String
  acceptRanges : Option String
  contentLength : Option String
  body : Body
  deriving DecidableEq

/-- A fresh `res`: status 200, no header set by the handler, nothing sent. -/
def Response.fresh : Response :=
  { status := 200, contentType := none, contentDisposition := none, contentRange := none,
    acceptRanges := none, contentLength := none, body := .content [] }

/-- The Content-Type after `res.json`: Express sets `application/json` when
the handler has set none, and `res.send` then puts `; charset=utf-8` on the
type (the types the handlers set carry no parameter). -/
def jsonContentType (contentType : Option String) : String :=
  match contentType with
  | some type => type ++ "; charset=utf-8"
  | none => "application/json; charset=utf-8"

/-- The call `res.status(code).json(body)`.  The Content-Type becomes
`jsonContentType` of the one set before; the other headers already set on
`res` stay, except Content-Length, which Express recomputes for the JSON text
(its value is not modelled). -/
def Response.json (res : Response) (code : Nat) (body : Body) : Response :=
  { res with status := code, contentType := some (jsonContentType res.contentType),
             contentLength := none, body := body }

/-- The answer of every `catch` block of the controller. -/
def serverError (res : Response) : Response :=
  res.json 500 (.json false "Erreur interne du serveur")

/-! ## JavaScript numbers and strings on the read path -/

/-- A JavaScript number as the range code meets it: `NaN` or an integer.
The integer is exact; a JavaScript number is a double, which holds every
integer up to `2^53` exactly, so the two agree on the offsets Node accepts
(up to `2^53 - 1`). -/
inductive JsNum
  | nan
  | int (v : Int)
  deriving DecidableEq

/-- The difference `a - b`. -/
def JsNum.sub : JsNum → JsNum → JsNum
  | .int a, .int b => .int (a - b)
  | _, _ => .nan

/-- The sum `a + b`. -/
def JsNum.add : JsNum → JsNum → JsNum
  | .int a, .int b => .int (a + b)
  | _, _ => .nan

/-- The comparison `a > b`, false as soon as one side is `NaN`. -/
def JsNum.gt : JsNum → JsNum → Bool
  | .int a, .int b => decide (b < a)
  | _, _ => false

/-- The test `isNaN(a)`. -/
def JsNum.isNaN : JsNum → Bool
  | .nan => true
  | .int _ => false

/-- A number inside a template literal or a header value. -/
def JsNum.render : JsNum → String
  | .nan => "NaN"
  | .int v => toString v

/-- The white space `parseInt` skips (WhiteSpace and LineTerminator). -/
def isJsWhitespace (c : Char) : Bool :=
  let n := c.toNat
  n = 9 || n = 10 || n = 11 || n = 12 || n = 13 || n = 32 || n = 0xA0 || n = 0x1680 ||
  (0x2000 ≤ n && n ≤ 0x200A) || n = 0x2028 || n = 0x2029 || n = 0x202F || n = 0x205F ||
  n = 0x3000 || n = 0xFEFF

/-- The value of a run of decimal digits, most significant first. -/
def digitsValue (ds : List Char) : Nat :=
  ds.foldl (fun acc c => 10 * acc + (c.toNat - 48)) 0

/-- Embedding of `parseInt(s, 10)` on a list of characters: leading white space is
skipped, a first character `-` makes the sign negative, a first character `+`
or `-` is removed, and the longest run of decimal digits is read; `NaN` when
that run is empty.  The value is the integer the digits denote, which is the
number `parseInt` returns as long as it does not exceed `2^53`. -/
def parseIntChars (cs : List Char) : JsNum :=
  let cs := cs.dropWhile isJsWhitespace
  let negative : Bool := cs.head? = some '-'
  let unsigned := if cs.head? = some '-' ∨ cs.head? = some '+' then cs.tail else cs
  let ds := unsigned.takeWhile Char.isDigit
  if ds.isEmpty then .nan
  else if negative then .int (-(digitsValue ds : Int)) else .int (digitsValue ds)

/-- Embedding of `s.replace(pat, "")` for a literal pattern: the first occurrence of `pat`
is removed. -/
def removeFirst (pat : List Char) : List Char → List Char
  | [] => []
  | c :: cs =>
    if pat.isPrefixOf (c :: cs) then (c :: cs).drop pat.length
    else c :: removeFirst pat cs

/-- Embedding of `s.split(sep)` for a one-character separator: never empty. -/
def jsSplit (sep : Char) : List Char → List (List Char)
  | [] => [[]]
  | c :: cs =>
    if c = sep then [] :: jsSplit sep cs
    else match jsSplit sep cs with
      | p :: ps => (c :: p) :: ps
      | [] => [[c]]

/-- Embedding of `fs.createReadStream(path, { start, end })` drained to the end: Node
throws when `start` or `end` is not a non-negative integer or when
`start > end`; otherwise the stream yields the bytes at offsets `start` to
`end` inclusive, stopping at the end of the file.  An open error of a
missing file is an error as well.  Node also refuses an offset above
`2^53 - 1`; that test is not part of this definition: wherever a statement
below needs the stream to open, the offsets are inside the file or at most
`2^53 - 1`. -/
def createReadStream (fs : FileSystem) (p : String) (start stop : JsNum) :
    Except String Content :=
  match start, stop with
  | .int s, .int e =>
    if s < 0 ∨ e < 0 ∨ e < s then .error "ERR_OUT_OF_RANGE"
    else match fs p with
      | none => .error "ENOENT"
      | some c => .ok ((c.drop s.toNat).take (e.toNat - s.toNat + 1))
  | _, _ => .error "ERR_OUT_OF_RANGE"

/-! ## Object literals used as tables -/

/-- The property names every object literal inherits from `Object.prototype`. -/
def objectPrototypeKeys : List String :=
  ["constructor", "__proto__", "hasOwnProperty", "isPrototypeOf", "propertyIsEnumerable",
   "toLocaleString", "toString", "valueOf", "__defineGetter__", "__defineSetter__",
   "__lookupGetter__", "__lookupSetter__"]

/-- The text of an inherited member inside a template literal. -/
def inheritedText (key : String) : String :=
  if key = "__proto__" then "[object Object]"
  else "function " ++ (if key = "constructor" then "Object" else key) ++
    "() \x7b [native code] \x7d"

/-- The read `table[key]` on an object literal, as the text the value has in
a template literal: an own key gives its string, a name inherited from
`Object.prototype` gives that member (truthy), anything else is `undefined`
(`none`). -/
def readProperty (table : List (String × String)) (key : String) : Option String :=
  match table.lookup key with
  | some v => some v
  | none => if objectPrototypeKeys.contains key then some (inheritedText key) else none

/-! ## Upload (`FileController.uploadFile`) -/

/-- The object `req.file` that multer leaves after staging. -/
structure UploadedFile where
  path : String
  originalname : String
  mimetype : String
  size : Nat
  deriving DecidableEq

/-- The fields of `req.validatedData` on the upload route. -/
structure ValidatedData where
  title : String
  description : String
  theme : String
  deriving DecidableEq

/-- What `uploadFile` reads from `req`. -/
structure UploadRequest where
  validatedData : ValidatedData
  file : Option UploadedFile
  fileType : String
  userId : Nat
  deriving DecidableEq

/-- The environment of one `uploadFile`: `Date.now()`, the database clock and
the injected failures of each step. -/
structure UploadEnv where
  now : Nat
  dbNow : String
  ensureDirFails : Bool
  moveFails : Bool
  insertFails : Bool
  cleanupFails : Bool
  deriving DecidableEq

/-- The class `[a-zA-Z0-9.-]`. -/
def isSafeChar (c : Char) : Bool :=
  ('a' ≤ c && c ≤ 'z') || ('A' ≤ c && c ≤ 'Z') || ('0' ≤ c && c ≤ '9') || c = '.' || c = '-'

/-- One character under `.replace(/[^a-zA-Z0-9.-]/g, '_')`: the regular
expression works on UTF-16 code units, so a character outside the basic
plane becomes two underscores. -/
def sanitizeChar (c : Char) : List Char :=
  if isSafeChar c then [c] else if 0x10000 ≤ c.val then ['_', '_'] else ['_']

/-- Embedding of `originalname.replace(/[^a-zA-Z0-9.-]/g, '_')`. -/
def sanitizeName (s : String) : String := ⟨(s.data.map sanitizeChar).flatten⟩

/-- The durable file name `${timestamp}_${sanitized original name}`. -/
def fileName (timestamp : Nat) (originalname : String) : String :=
  toString timestamp ++ "_" ++ sanitizeName originalname

/-- The relative path `${fileType}/${timestamp}_${sanitized original name}`. -/
def relativePath (fileType : String) (timestamp : Nat) (originalname : String) : String :=
  fileType ++ "/" ++ (toString timestamp ++ "_" ++ sanitizeName originalname)

/-- The state both pipelines work on. -/
structure World where
  fs : FileSystem
  db : Database

namespace FileController

/-- The `catch` block of `uploadFile`: remove `req.file.path` (the staged
path), ignoring a failure of that removal, and answer 500. -/
def uploadCatch (env : UploadEnv) (uploadedFile : UploadedFile) (fs : FileSystem)
    (db : Database) : World × Response :=
  let fs1 :=
    if uploadedFile.path ≠ "" then
      match remove env.cleanupFails uploadedFile.path fs with
      | .ok fs1 => fs1
      | .error _ => fs
    else fs
  ({ fs := fs1, db := db }, serverError Response.fresh)

/-- The object `fileData` that `uploadFile` builds. -/
def fileDataOf (env : UploadEnv) (req : UploadRequest) (uploadedFile : UploadedFile) :
    FileData :=
  { title := req.validatedData.title, description := req.validatedData.description,
    type := req.fileType, theme := req.validatedData.theme,
    file_path := relativePath req.fileType env.now uploadedFile.originalname,
    original_name := uploadedFile.originalname, file_size := uploadedFile.size,
    uploaded_by := req.userId }

/-- Embedding of `FileController.uploadFile(req, res)`. -/
def uploadFile (env : UploadEnv) (req : UploadRequest) (w : World) : World × Response :=
  match req.file with
  | none => (w, Response.fresh.json 400 (.json false "Aucun fichier fourni"))
  | some uploadedFile =>
    let relPath := relativePath req.fileType env.now uploadedFile.originalname
    let fullPath := uploadsPath relPath
    match ensureDir env.ensureDirFails w.fs with
    | .error _ => uploadCatch env uploadedFile w.fs w.db
    | .ok fs0 =>
      match move env.moveFails uploadedFile.path fullPath fs0 with
      | .error _ => uploadCatch env uploadedFile fs0 w.db
      | .ok fs1 =>
        match File.create env.insertFails env.dbNow (fileDataOf env req uploadedFile) w.db with
        | .error _ => uploadCatch env uploadedFile fs1 w.db
        | .ok (db1, newFile) =>
          ({ fs := fs1, db := db1 },
           Response.fresh.json 201 (.created "Fichier uploadé avec succès" newFile))

end FileController

/-! ## Express `res.sendFile` (library `send` with `range-parser`) -/

/-- One range specification of `range-parser`: `start-end`, `-suffix` or
`start-`, limited to the size; `none` when invalid or unsatisfiable. -/
def parseRangeSpec (size : Int) (spec : List Char) : Option (Int × Int) :=
  let range := jsSplit '-' spec
  let start0 := parseIntChars (range.headD [])
  let stop0 := match range.tail.head? with
    | some r => parseIntChars r
    | none => JsNum.nan
  let bounds : JsNum × JsNum :=
    if start0.isNaN then ((JsNum.int size).sub stop0, .int (size - 1))
    else if stop0.isNaN then (start0, .int (size - 1))
    else (start0, stop0)
  let stop1 := if bounds.2.gt (.int (size - 1)) then JsNum.int (size - 1) else bounds.2
  match bounds.1, stop1 with
  | .int a, .int b => if b < a ∨ a < 0 then none else some (a, b)
  | _, _ => none

/-- Insertion into a list of ranges ordered by start (a stable sort). -/
def insertByStart (r : Int × Int) : List (Int × Int) → List (Int × Int)
  | [] => [r]
  | x :: xs => if r.1 < x.1 then r :: x :: xs else x :: insertByStart r xs

/-- The `combineRanges` of `range-parser`: ranges ordered by start, each one
that overlaps or touches the current one merged into it. -/
def combineRanges (ranges : List (Int × Int)) : List (Int × Int) :=
  let ordered := ranges.foldl (fun acc r => insertByStart r acc) []
  (ordered.foldl (fun (acc : List (Int × Int)) r =>
    match acc with
    | [] => [r]
    | cur :: rest =>
      if cur.2 + 1 < r.1 then r :: cur :: rest
      else if cur.2 < r.2 then (cur.1, r.2) :: rest
      else cur :: rest) []).reverse

/-- What `parseRange(size, header, { combine: true })` returns. -/
inductive RangeResult
  | malformed
  | unsatisfiable
  | ranges (rs : List (Int × Int))
  deriving DecidableEq

/-- The function `parseRange` of `range-parser` with `combine: true`. -/
def parseRange (size : Int) (header : List Char) : RangeResult :=
  if !header.contains '=' then .malformed
  else
    let arr := jsSplit ',' ((header.dropWhile (fun c => c != '=')).drop 1)
    let ranges := arr.filterMap (parseRangeSpec size)
    if ranges.isEmpty then .unsatisfiable else .ranges (combineRanges ranges)

/-- The test of `/^ *bytes=/` on the Range header. -/
def bytesRangeHeader (header : List Char) : Bool :=
  "bytes=".data.isPrefixOf (header.dropWhile (fun c => c = ' '))

/-- Embedding of `res.sendFile(filePath)` for a GET with no conditional header, on a `res`
whose Content-Type the handler has already set.  The library honours byte
ranges (`acceptRanges` defaults to true): one satisfiable range is answered
206, an unsatisfiable header 416 through the application error handler, and
everything else with the whole file.  (The library hides files whose name
starts with a dot; stored names start with the timestamp.) -/
def sendFile (fs : FileSystem) (filePath : String) (range : Option String)
    (res : Response) : Response :=
  match fs filePath with
  | none => res.json 404 (.json false "ENOENT: no such file or directory")
  | some c =>
    let len : Nat := c.length
    let res := { res with acceptRanges := some "bytes" }
    let whole := { res with contentLength := some (toString len), body := .content c }
    match range with
    | none => whole
    | some header =>
      if bytesRangeHeader header.data then
        match parseRange len header.data with
        | .unsatisfiable =>
          { res with contentRange := some ("bytes */" ++ toString len) }.json 416
            (.json false "Range Not Satisfiable")
        | .ranges [r] =>
          { res with
            status := 206,
            contentRange := some ("bytes " ++ toString r.1 ++ "-" ++ toString r.2 ++ "/" ++
              toString len),
            contentLength := some (toString (r.2 - r.1 + 1)),
            body := .content ((c.drop r.1.toNat).take (r.2 - r.1 + 1).toNat) }
        | _ => whole
      else whole

/-! ## Download and streaming (`FileController.downloadFile`, `serveFile`) -/

/-- The object literal `mimeTypes` of `serveFile`. -/
def mimeTypes : List (String × String) :=
  [("pdf", "application/pdf"), ("image", "image/jpeg"), ("audio", "audio/mpeg"),
   ("video", "video/mp4")]

/-- The value `mimeTypes[file.type] || 'application/octet-stream'`. -/
def mimeTypeOf (type : String) : String :=
  match readProperty mimeTypes type with
  | some v => if v = "" then "application/octet-stream" else v
  | none => "application/octet-stream"

namespace FileController

/-- Embedding of `FileController.downloadFile(req, res)`; `range` is `req.headers.range`,
which only `res.sendFile` looks at. -/
def downloadFile (dbFails : Bool) (id : Nat) (range : Option String) (w : World) : Response :=
  match File.findById dbFails id w.db with
  | .error _ => serverError Response.fresh
  | .ok none => Response.fresh.json 404 (.json false "Fichier non trouvé")
  | .ok (some file) =>
    let filePath := uploadsPath file.file_path
    if !pathExists w.fs filePath then
      Response.fresh.json 404 (.json false "Fichier physique non trouvé")
    else
      let res := { Response.fresh with
        contentDisposition := some ("attachment; filename=\"" ++ file.original_name ++ "\""),
        contentType := some "application/octet-stream" }
      sendFile w.fs filePath range res

/-- The array `parts = range.replace(/bytes=/, "").split("-")`. -/
def rangeParts (range : String) : List (List Char) :=
  jsSplit '-' (removeFirst "bytes=".data range.data)

/-- The number `start = parseInt(parts[0], 10)`. -/
def rangeStart (range : String) : JsNum :=
  parseIntChars ((rangeParts range).headD [])

/-- The number `end = parts[1] ? parseInt(parts[1], 10) : fileSize - 1`; a
missing or empty `parts[1]` is falsy. -/
def rangeEnd (fileSize : Nat) (range : String) : JsNum :=
  match (rangeParts range).tail.head? with
  | some p1 => if p1.isEmpty then .int ((fileSize : Int) - 1) else parseIntChars p1
  | none => .int ((fileSize : Int) - 1)

/-- The range branch of `serveFile`: status and headers are set from the
parsed numbers as they are, then the stream is opened on `{ start, end }`; a
throw there lands in the `catch` block. -/
def serveRange (fs : FileSystem) (filePath : String) (fileSize : Nat) (range : String)
    (res : Response) : Response :=
  let start := rangeStart range
  let stop := rangeEnd fileSize range
  let chunksize := (stop.sub start).add (.int 1)
  let res := { res with
    status := 206,
    contentRange := some ("bytes " ++ start.render ++ "-" ++ stop.render ++ "/" ++
      toString fileSize),
    acceptRanges := some "bytes",
    contentLength := some chunksize.render }
  match createReadStream fs filePath start stop with
  | .error _ => serverError res
  | .ok bytes => { res with body := .content bytes }

/-- The branch of `serveFile` without a (non-empty) Range header:
Content-Length is the size and the whole file is piped; nothing is delivered
when the file cannot be opened. -/
def serveWhole (fs : FileSystem) (filePath : String) (fileSize : Nat) (res : Response) :
    Response :=
  { res with contentLength := some (toString fileSize),
             body := .content ((fs filePath).getD []) }

/-- Embedding of `FileController.serveFile(req, res)`; `range` is `req.headers.range`. -/
def serveFile (dbFails : Bool) (id : Nat) (range : Option String) (w : World) : Response :=
  match File.findById dbFails id w.db with
  | .error _ => serverError Response.fresh
  | .ok none => Response.fresh.json 404 (.json false "Fichier non trouvé")
  | .ok (some file) =>
    let filePath := uploadsPath file.file_path
    if !pathExists w.fs filePath then
      Response.fresh.json 404 (.json false "Fichier physique non trouvé")
    else
      let res := { Response.fresh with contentType := some (mimeTypeOf file.type) }
      if file.type = "video" ∨ file.type = "audio" then
        match statSize w.fs filePath with
        | .error _ => serverError res
        | .ok fileSize =>
          match range.filter (fun r => r ≠ "") with
          | some r => serveRange w.fs filePath fileSize r res
          | none => serveWhole w.fs filePath fileSize res
      else sendFile w.fs filePath range res

end FileController

/-! ## Staging (`utils/upload.js`, multer) -/

/-- The array `allowedMimeTypes` of `fileFilter`. -/
def allowedMimeTypes : List String :=
  ["application/pdf",
   "image/jpeg", "image/jpg", "image/png", "image/gif",
   "audio/mpeg", "audio/mp3", "audio/wav", "audio/ogg",
   "video/mp4", "video/avi", "video/mov", "video/wmv"]

/-- The test `allowedMimeTypes.includes(file.mimetype)` of `fileFilter`. -/
def fileFilter (mimetype : String) : Bool := allowedMimeTypes.contains mimetype

/-- The limit `limits.fileSize` of multer: `50 * 1024 * 1024`. -/
def fileSizeLimit : Nat := 50 * 1024 * 1024

/-- Embedding of `path.extname(name)` (POSIX): trailing slashes dropped, the
extension of the last path segment from its last dot on; empty when that
segment has no dot, starts with its only dot, or is `..`. -/
def extname (name : String) : String :=
  let segment := ((name.data.reverse.dropWhile (fun c => c = '/')).takeWhile
    (fun c => c ≠ '/'))
  let ext := segment.takeWhile (fun c => c ≠ '.')
  if !segment.contains '.' then ""
  else if (segment.drop (ext.length + 1)).isEmpty then ""
  else if segment = ['.', '.'] then ""
  else ⟨'.' :: ext.reverse⟩

/-- The name the `filename` callback of the disk storage generates:
`'temp-' + Date.now() + '-' + Math.round(Math.random() * 1E9) + extname`. -/
def tempFileName (now random : Nat) (originalname : String) : String :=
  "temp-" ++ (toString now ++ "-" ++ toString random) ++ extname originalname

/-- The file part of a multipart upload, in the field `file`. -/
structure IncomingFile where
  originalname : String
  mimetype : String
  content : Content
  deriving DecidableEq

/-- The environment of the staging step: the clock and the random number of
the `filename` callback, whether writing the temp file fails, and how the
multipart parser under multer applies `limits.fileSize`: busboy 1.x (multer
1.4.5-lts and later) signals the limit as soon as the file reaches the bound
(`limitAtBound`), busboy 0.x only once the file exceeds it. -/
structure StageEnv where
  now : Nat
  random : Nat
  writeFails : Bool
  limitAtBound : Bool
  deriving DecidableEq

/-- Whether the multipart parser signals `LIMIT_FILE_SIZE` for a file of
`size` bytes. -/
def limitReached (atBound : Bool) (size : Nat) : Bool :=
  decide (fileSizeLimit < size) || (atBound && decide (size = fileSizeLimit))

/-- The errors `upload.single('file')` passes to `handleUploadError`. -/
inductive UploadError
  | limitFileSize
  | limitFileCount
  | limitUnexpectedFile
  | fileType
  | other (message : String)
  deriving DecidableEq

/-- Embedding of `upload.single('file')` on a multipart request with at most
one file, sent in the field `file`.  Without a file `req.file` stays
undefined.  `fileFilter` runs before anything is written.  An accepted file
is streamed to the temp directory; when the parser signals the size limit
multer removes what was written and fails with `LIMIT_FILE_SIZE`.  (A write
that fails is taken to leave nothing behind.) -/
def multerSingle (stage : StageEnv) (file : Option IncomingFile) (fs : FileSystem) :
    FileSystem × Except UploadError (Option UploadedFile) :=
  match file with
  | none => (fs, .ok none)
  | some f =>
    if !fileFilter f.mimetype then (fs, .error .fileType)
    else
      let path := tempPath (tempFileName stage.now stage.random f.originalname)
      if stage.writeFails then (fs, .error (.other "EIO"))
      else if limitReached stage.limitAtBound f.content.length then
        (fs.erase path, .error .limitFileSize)
      else (fs.write path f.content,
            .ok (some { path := path, originalname := f.originalname, mimetype := f.mimetype,
                        size := f.content.length }))

/-- The message both type rejections answer with. -/
def unsupportedTypeMessage : String :=
  "Type de fichier non autorisé. Types acceptés: PDF, images (JPEG, PNG, GIF), " ++
  "audio (MP3, WAV, OGG), vidéo (MP4, AVI, MOV, WMV)"

/-- The message both size rejections answer with. -/
def tooLargeMessage : String := "Le fichier est trop volumineux. Taille maximale: 50MB"

/-- Embedding of `handleUploadError(err, req, res, next)`: the three multer
codes and the type rejection are answered 400; any other error goes on to the
global error handler of `app.js`, which answers `err.status || 500` (the
errors of multer and of the disk carry no status) with
`err.message || 'Erreur interne du serveur'`. -/
def handleUploadError : UploadError → Response
  | .limitFileSize => Response.fresh.json 400 (.json false tooLargeMessage)
  | .limitFileCount =>
    Response.fresh.json 400 (.json false "Trop de fichiers. Un seul fichier autorisé à la fois")
  | .limitUnexpectedFile => Response.fresh.json 400 (.json false "Champ de fichier inattendu")
  | .fileType => Response.fresh.json 400 (.json false unsupportedTypeMessage)
  | .other message =>
    Response.fresh.json 500
      (.json false (if message = "" then "Erreur interne du serveur" else message))

/-! ## Request validation (`middlewares/validation.js`) -/

/-- The object literal `allowedTypes` of `validateFileType`. -/
def allowedTypes : List (String × String) :=
  [("application/pdf", "pdf"),
   ("image/jpeg", "image"), ("image/jpg", "image"), ("image/png", "image"),
   ("image/gif", "image"),
   ("audio/mpeg", "audio"), ("audio/mp3", "audio"), ("audio/wav", "audio"),
   ("audio/ogg", "audio"),
   ("video/mp4", "video"), ("video/avi", "video"), ("video/mov", "video"),
   ("video/wmv", "video")]

/-- Embedding of `validateFileType(req, res, next)`: 400 without a file or
when `allowedTypes[req.file.mimetype]` is falsy, otherwise `req.fileType` is
set to the value read. -/
def validateFileType (file : Option UploadedFile) : Except Response String :=
  match file with
  | none => .error (Response.fresh.json 400 (.json false "Aucun fichier fourni"))
  | some f =>
    match readProperty allowedTypes f.mimetype with
    | none => .error (Response.fresh.json 400 (.json false unsupportedTypeMessage))
    | some fileType =>
      if fileType = "" then .error (Response.fresh.json 400 (.json false unsupportedTypeMessage))
      else .ok fileType

/-- Embedding of `validateFileSize(req, res, next)`: 400 when a file is
present and `req.file.size > 50 * 1024 * 1024`. -/
def validateFileSize (file : Option UploadedFile) : Except Response Unit :=
  match file with
  | some f =>
    if 50 * 1024 * 1024 < f.size then .error (Response.fresh.json 400 (.json false tooLargeMessage))
    else .ok ()
  | none => .ok ()

/-- A value of `req.body`: a text field, or what a repeated or bracketed
field name makes of it (an array or a nested object). -/
inductive BodyField
  | text (value : String)
  | nonText
  deriving DecidableEq

/-- The object `req.body` of the upload route: the three descriptive fields
and the names of the other fields present. -/
structure UploadBody where
  title : Option BodyField
  description : Option BodyField
  theme : Option BodyField
  extra : List String
  deriving DecidableEq

/-- The length of a JavaScript string: UTF-16 code units. -/
def jsLength (s : String) : Nat :=
  (s.data.map (fun c => if 0x10000 ≤ c.val then 2 else 1)).sum

/-- One key `Joi.string().min(lo).max(hi).required()` with its custom
messages: the error of the field, if any. -/
def checkField (key : String) (lo hi : Nat) (minMessage maxMessage requiredMessage : String)
    (value : Option BodyField) : Option (String × String) :=
  match value with
  | none => some (key, requiredMessage)
  | some .nonText => some (key, "\"" ++ key ++ "\" must be a string")
  | some (.text s) =>
    if s = "" then some (key, "\"" ++ key ++ "\" is not allowed to be empty")
    else if jsLength s < lo then some (key, minMessage)
    else if hi < jsLength s then some (key, maxMessage)
    else none

/-- The errors `schemas.fileUpload.validate(req.body, { abortEarly: false })`
reports: one per failing key, then one per key the schema does not know. -/
def fileUploadErrors (body : UploadBody) : List (String × String) :=
  (checkField "title" 2 100 "Le titre doit contenir au moins 2 caractères"
      "Le titre ne peut pas dépasser 100 caractères" "Le titre est requis" body.title).toList ++
  (checkField "description" 10 500 "La description doit contenir au moins 10 caractères"
      "La description ne peut pas dépasser 500 caractères" "La description est requise"
      body.description).toList ++
  (checkField "theme" 2 50 "La thématique doit contenir au moins 2 caractères"
      "La thématique ne peut pas dépasser 50 caractères" "La thématique est requise"
      body.theme).toList ++
  body.extra.map (fun key => (key, "\"" ++ key ++ "\" is not allowed"))

/-- The text of a field that passed the schema. -/
def BodyField.get : Option BodyField → String
  | some (.text s) => s
  | _ => ""

/-- Embedding of `validate('fileUpload')`: 400 with the list of errors, or
`req.validatedData` set to the validated value. -/
def validate (body : UploadBody) : Except Response ValidatedData :=
  if fileUploadErrors body = [] then
    .ok { title := BodyField.get body.title, description := BodyField.get body.description,
          theme := BodyField.get body.theme }
  else .error (Response.fresh.json 400 (.invalid "Données invalides" (fileUploadErrors body)))

/-! ## Upload route (`routes/files.js`) -/

/-- A multipart request to `POST /upload` of an authenticated administrator:
the file part, the text fields, and `req.user.id`. -/
structure Submission where
  file : Option IncomingFile
  body : UploadBody
  userId : Nat
  deriving DecidableEq

/-- The chain `upload.single('file')`, `handleUploadError`, `validateFileType`,
`validateFileSize`, `validate('fileUpload')`, `FileController.uploadFile` of
the upload route: each middleware either answers or hands over to the next
one. -/
def uploadPipeline (stage : StageEnv) (env : UploadEnv) (sub : Submission) (w : World) :
    World × Response :=
  match multerSingle stage sub.file w.fs with
  | (fs1, .error err) => ({ w with fs := fs1 }, handleUploadError err)
  | (fs1, .ok file) =>
    match validateFileType file with
    | .error res => ({ w with fs := fs1 }, res)
    | .ok fileType =>
      match validateFileSize file with
      | .error res => ({ w with fs := fs1 }, res)
      | .ok _ =>
        match validate sub.body with
        | .error res => ({ w with fs := fs1 }, res)
        | .ok validatedData =>
          FileController.uploadFile env
            { validatedData := validatedData, file := file, fileType := fileType,
              userId := sub.userId }
            { w with fs := fs1 }

/-- The classification an upload goes through on the route: the `fileFilter`
of multer, answered by `handleUploadError`, then `validateFileType`. -/
def classify (file : UploadedFile) : Except Response String :=
  if !fileFilter file.mimetype then .error (handleUploadError .fileType)
  else validateFileType (some file)

/-! ## Deletion (`FileController.deleteFile`) -/

namespace FileController

/-- Embedding of `FileController.deleteFile(req, res)`: 404 when `findById`
finds no row, otherwise `File.delete`; any rejection is answered 500. -/
def deleteFile (findFails : Bool) (faults : File.DeleteFaults) (id : Nat) (w : World) :
    World × Response :=
  match File.findById findFails id w.db with
  | .error _ => (w, serverError Response.fresh)
  | .ok none => (w, Response.fresh.json 404 (.json false "Fichier non trouvé"))
  | .ok (some _) =>
    match File.delete faults id w.fs w.db with
    | (fs1, db1, .error _) => ({ fs := fs1, db := db1 }, serverError Response.fresh)
    | (fs1, db1, .ok _) =>
      ({ fs := fs1, db := db1 }, Response.fresh.json 200 (.json true "Fichier supprimé avec succès"))

end FileController

/-! ## The classification helper of `utils/upload.js` -/

/-- The object literal `typeMap` of `getFileTypeFromMime`. -/
def typeMap : List (String × String) :=
  [("application/pdf", "pdf"),
   ("image/jpeg", "image"), ("image/jpg", "image"), ("image/png", "image"),
   ("image/gif", "image"),
   ("audio/mpeg", "audio"), ("audio/mp3", "audio"), ("audio/wav", "audio"),
   ("audio/ogg", "audio"),
   ("video/mp4", "video"), ("video/avi", "video"), ("video/mov", "video"),
   ("video/wmv", "video")]

/-- Embedding of `getFileTypeFromMime(mimetype)`: `typeMap[mimetype] || 'unknown'`. -/
def getFileTypeFromMime (mimetype : String) : String :=
  match readProperty typeMap mimetype with
  | some v => if v = "" then "unknown" else v
  | none => "unknown"

/-! ## Update (`validate('fileUpdate')`, `FileController.updateFile`) -/

/-- One optional key `Joi.string().min(lo).max(hi)` of `schemas.fileUpdate`:
an absent key is fine, a present one is checked like a required one. -/
def checkOptionalField (key : String) (lo hi : Nat) (minMessage maxMessage : String)
    (value : Option BodyField) : Option (String × String) :=
  match value with
  | none => none
  | some v => checkField key lo hi minMessage maxMessage "" (some v)

/-- The errors `schemas.fileUpdate.validate(req.body, { abortEarly: false })`
reports. -/
def fileUpdateErrors (body : UploadBody) : List (String × String) :=
  (checkOptionalField "title" 2 100 "Le titre doit contenir au moins 2 caractères"
      "Le titre ne peut pas dépasser 100 caractères" body.title).toList ++
  (checkOptionalField "description" 10 500
      "La description doit contenir au moins 10 caractères"
      "La description ne peut pas dépasser 500 caractères" body.description).toList ++
  (checkOptionalField "theme" 2 50 "La thématique doit contenir au moins 2 caractères"
      "La thématique ne peut pas dépasser 50 caractères" body.theme).toList ++
  body.extra.map (fun key => (key, "\"" ++ key ++ "\" is not allowed"))

/-- The text of an optional field that passed the schema, `undefined` when
the key is absent. -/
def BodyField.text? : Option BodyField → Option String
  | some (.text s) => some s
  | _ => none

/-- Embedding of `validate('fileUpdate')`. -/
def validateUpdate (body : UploadBody) : Except Response File.UpdateData :=
  if fileUpdateErrors body = [] then
    .ok { title := BodyField.text? body.title, description := BodyField.text? body.description,
          theme := BodyField.text? body.theme }
  else .error (Response.fresh.json 400 (.invalid "Données invalides" (fileUpdateErrors body)))

/-- The fault flags of one `updateFile`: the first lookup, the UPDATE, the
second lookup. -/
structure UpdateFaults where
  findFails : Bool
  updateFails : Bool
  refindFails : Bool
  deriving DecidableEq

namespace FileController

/-- Embedding of `FileController.updateFile(req, res)`: 404 when `findById`
finds no row; otherwise `File.update`, a second `findById`, and the row it
finds in a 200 answer; any rejection is answered 500. -/
def updateFile (faults : UpdateFaults) (id : Nat) (updateData : File.UpdateData) (w : World) :
    World × Response :=
  match File.findById faults.findFails id w.db with
  | .error _ => (w, serverError Response.fresh)
  | .ok none => (w, Response.fresh.json 404 (.json false "Fichier non trouvé"))
  | .ok (some _) =>
    match File.update faults.updateFails id updateData w.db with
    | .error _ => (w, serverError Response.fresh)
    | .ok (db1, _) =>
      match File.findById faults.refindFails id db1 with
      | .error _ => ({ w with db := db1 }, serverError Response.fresh)
      | .ok updatedFile =>
        ({ w with db := db1 },
         Response.fresh.json 200 (.updated "Fichier mis à jour avec succès" updatedFile))

end FileController

/-! ## Routes and their gates (`routes/files.js`, `app.js`) -/

/-- Modelled from the spec: the elevated-rights gate `requireAdmin` of
`middlewares/auth.js`, whose code is not among the sources.  The
specification gives every caller a role, `admin` or `user` (the values the
table `users` admits), and requires the elevated role for commit, update and
delete: a caller whose role is `admin` is handed over to the next step of the
route; any other caller is answered by the gate itself with `refusal`, the
Unauthorized answer of the collaborator, and nothing after the gate runs. -/
def requireAdmin (refusal : Response) (role : String) : Except Response Unit :=
  if role = "admin" then .ok () else .error refusal

/-- The route `POST /upload`: `authenticateToken`, `requireAdmin`, then the
chain of the upload middlewares.  The two gates come from
`middlewares/auth.js`, whose code is not embedded here: the outcome of each
gate is an argument, a gate either answering itself (`error`) or handing over
(`ok`, `authenticateToken` with the id of `req.user`). -/
def uploadRoute (auth : Except Response Nat) (admin : Except Response Unit) (stage : StageEnv)
    (env : UploadEnv) (sub : Submission) (w : World) : World × Response :=
  match auth with
  | .error res => (w, res)
  | .ok userId =>
    match admin with
    | .error res => (w, res)
    | .ok _ => uploadPipeline stage env { sub with userId := userId } w

/-- The route `PUT /:id`: `authenticateToken`, `requireAdmin`,
`validate('fileUpdate')`, `updateFile`. -/
def updateRoute (auth : Except Response Nat) (admin : Except Response Unit)
    (faults : UpdateFaults) (id : Nat) (body : UploadBody) (w : World) : World × Response :=
  match auth with
  | .error res => (w, res)
  | .ok _ =>
    match admin with
    | .error res => (w, res)
    | .ok _ =>
      match validateUpdate body with
      | .error res => (w, res)
      | .ok updateData => FileController.updateFile faults id updateData w

/-- The route `DELETE /:id`: `authenticateToken`, `requireAdmin`, `deleteFile`. -/
def deleteRoute (auth : Except Response Nat) (admin : Except Response Unit) (findFails : Bool)
    (faults : File.DeleteFaults) (id : Nat) (w : World) : World × Response :=
  match auth with
  | .error res => (w, res)
  | .ok _ =>
    match admin with
    | .error res => (w, res)
    | .ok _ => FileController.deleteFile findFails faults id w

/-- Embedding of `app.use('/uploads', express.static(<uploads root>))`, mounted
in `app.js` before the routers and behind no gate, for a GET without Range or
conditional header of the path `rel` below the mount (decoded, without `..`
segment or dot file): the file is sent when it exists, otherwise the request
falls through to the 404 of `app.use('*')`.  (The Content-Type the library
derives from the file extension is not modelled.) -/
def staticUploads (rel : String) (w : World) : Response :=
  match w.fs (uploadsPath rel) with
  | none => Response.fresh.json 404 (.json false "Route non trouvée")
  | some _ => sendFile w.fs (uploadsPath rel) none Response.fresh

/-- A GET request for the bytes of a stored file: the two routes of
`routes/files.js`, with the Range header sent, and the static mount. -/
inductive ContentRequest
  | download (id : Nat) (range : Option String)
  | serve (id : Nat) (range : Option String)
  | uploads (rel : String)
  deriving DecidableEq

/-- The three ways `app.js` and `routes/files.js` deliver stored bytes:
`GET /api/files/:id/download` and `GET /api/files/:id/serve` behind
`authenticateToken`, whose outcome is `auth`, and `GET /uploads/<rel>` through
the static mount, which is reached before any gate. -/
def deliver (auth : Except Response Nat) (dbFails : Bool) (req : ContentRequest) (w : World) :
    Response :=
  match req with
  | .uploads rel => staticUploads rel w
  | .download id range =>
    match auth with
    | .error res => res
    | .ok _ => FileController.downloadFile dbFails id range w
  | .serve id range =>
    match auth with
    | .error res => res
    | .ok _ => FileController.serveFile dbFails id range w

/-! ## Listing (`File.getAll`) -/

/-- The object `filters` that `getAllFiles` builds from `req.query`. -/
structure Filters where
  type : Option String
  theme : Option String
  search : Option String
  sortBy : Option String
  sortOrder : Option String
  limit : Option String
  offset : Option String
  deriving DecidableEq

/-- A value bound to a `?` of a statement. -/
inductive SqlValue
  | text (value : String)
  | number (value : JsNum)
  deriving DecidableEq

/-- The truthiness of a query value: present and not the empty string. -/
def truthy (value : Option String) : Bool :=
  match value with
  | some v => v ≠ ""
  | none => false

/-- The value of a hexadecimal digit. -/
def hexDigit (c : Char) : Option Nat :=
  if c.isDigit then some (c.toNat - 48)
  else if 'a' ≤ c ∧ c ≤ 'f' then some (c.toNat - 87)
  else if 'A' ≤ c ∧ c ≤ 'F' then some (c.toNat - 55)
  else none

/-- Embedding of `parseInt(s)` without radix: as `parseInt(s, 10)`, except
that a leading `0x` or `0X` selects base 16. -/
def parseIntAuto (cs : List Char) : JsNum :=
  let trimmed := cs.dropWhile isJsWhitespace
  let negative : Bool := trimmed.head? = some '-'
  let unsigned :=
    if trimmed.head? = some '-' ∨ trimmed.head? = some '+' then trimmed.tail else trimmed
  if unsigned.take 2 = ['0', 'x'] ∨ unsigned.take 2 = ['0', 'X'] then
    let ds := (unsigned.drop 2).takeWhile (fun c => (hexDigit c).isSome)
    let value := ds.foldl (fun acc c => 16 * acc + (hexDigit c).getD 0) 0
    if ds.isEmpty then .nan
    else if negative then .int (-(value : Int)) else .int value
  else parseIntChars cs

namespace File

/-- The text `query` starts with. -/
def baseQuery : String :=
  "\n        SELECT f.*, u.name as uploader_name \n        FROM files f \n" ++
  "        LEFT JOIN users u ON f.uploaded_by = u.id \n        WHERE 1=1\n      "

/-- Embedding of the statement `File.getAll(filters)` builds: the SQL text and
the list of bound parameters.  The three filters and the pagination add a
placeholder to the text and their value to the parameters; `sortBy` and
`sortOrder` are written into the text. -/
def getAllQuery (filters : Filters) : String × List SqlValue :=
  let q1 := if truthy filters.type then " AND f.type = ?" else ""
  let p1 := if truthy filters.type then [SqlValue.text (filters.type.getD "")] else []
  let q2 := if truthy filters.theme then " AND f.theme LIKE ?" else ""
  let p2 :=
    if truthy filters.theme then [SqlValue.text ("%" ++ filters.theme.getD "" ++ "%")] else []
  let q3 :=
    if truthy filters.search then " AND (f.title LIKE ? OR f.description LIKE ?)" else ""
  let p3 :=
    if truthy filters.search then
      [SqlValue.text ("%" ++ filters.search.getD "" ++ "%"),
       SqlValue.text ("%" ++ filters.search.getD "" ++ "%")]
    else []
  let sortBy := if truthy filters.sortBy then filters.sortBy.getD "" else "date_added"
  let sortOrder := if truthy filters.sortOrder then filters.sortOrder.getD "" else "DESC"
  let q4 := " ORDER BY f." ++ sortBy ++ " " ++ sortOrder
  let q5 := if truthy filters.limit then " LIMIT ?" else ""
  let p5 :=
    if truthy filters.limit then [SqlValue.number (parseIntAuto (filters.limit.getD "").data)]
    else []
  let q6 := if truthy filters.limit && truthy filters.offset then " OFFSET ?" else ""
  let p6 :=
    if truthy filters.limit && truthy filters.offset then
      [SqlValue.number (parseIntAuto (filters.offset.getD "").data)]
    else []
  (baseQuery ++ q1 ++ q2 ++ q3 ++ q4 ++ q5 ++ q6, p1 ++ p2 ++ p3 ++ p5 ++ p6)

end File

/-- The object `filters` of `FileController.getAllFiles`: the query values,
`sortBy` and `sortOrder` defaulted. -/
def filtersOfQuery (query : Filters) : Filters :=
  { query with
    sortBy := some (if truthy query.sortBy then query.sortBy.getD "" else "date_added"),
    sortOrder := some (if truthy query.sortOrder then query.sortOrder.getD "" else "DESC") }

/-! ## The conditions of the specification on the descriptive fields -/

/-- The condition of the specification on one descriptive field: a present
string whose length lies between `lo` and `hi`. -/
def fieldValid (lo hi : Nat) (value : Option BodyField) : Bool :=
  match value with
  | some (.text s) => decide (lo ≤ jsLength s) && decide (jsLength s ≤ hi)
  | _ => false

/-! ## Well-formed tables and reachable states -/

/-- What `INTEGER PRIMARY KEY AUTOINCREMENT` guarantees of the table: ids are
pairwise distinct and none exceeds the sequence value. -/
def Database.Valid (db : Database) : Prop :=
  (∀ r ∈ db.rows, r.id ≤ db.seq) ∧ (db.rows.map (fun r => r.id)).Nodup

instance (db : Database) : Decidable db.Valid := by
  unfold Database.Valid; infer_instance

/-- The file `req.file` describes is staged with content `c`: the content is
at `req.file.path` and `req.file.size` is its byte count, as multer reports
it. -/
def Staged (fs : FileSystem) (file : UploadedFile) (c : Content) : Prop :=
  fs file.path = some c ∧ file.size = c.length

instance (fs : FileSystem) (file : UploadedFile) (c : Content) : Decidable (Staged fs file c) := by
  unfold Staged; infer_instance

/-- One request that changes the state.  `allowed` restricts the fault
combinations of `File.delete`.
* `stage`: multer writes the uploaded stream to a file of the temp
  directory;
* `commit`: `uploadFile` runs on a request whose file, if any, lies in the
  temp directory;
* `update`: `File.update`;
* `delete`: `File.delete`. -/
inductive Step (allowed : File.DeleteFaults → Prop) : World → World → Prop
  | stage (w : World) (name : String) (c : Content) :
      Step allowed w { w with fs := w.fs.write (tempPath name) c }
  | commit (w : World) (env : UploadEnv) (req : UploadRequest)
      (h : ∀ f, req.file = some f → ∃ name, f.path = tempPath name) :
      Step allowed w (FileController.uploadFile env req w).1
  | update (w : World) (fails : Bool) (id : Nat) (updateData : File.UpdateData) :
      Step allowed w
        { w with db := match File.update fails id updateData w.db with
                       | .ok r => r.1
                       | .error _ => w.db }
  | delete (w : World) (faults : File.DeleteFaults) (id : Nat) (h : allowed faults) :
      Step allowed w
        { fs := (File.delete faults id w.fs w.db).1, db := (File.delete faults id w.fs w.db).2.1 }

/-- The states reachable from an empty table (and any file system) through
the steps above. -/
inductive Reachable (allowed : File.DeleteFaults → Prop) : World → Prop
  | init (fs0 : FileSystem) : Reachable allowed { fs := fs0, db := Database.empty }
  | step {w w2 : World} : Reachable allowed w → Step allowed w w2 → Reachable allowed w2

/-- Every fault combination of `File.delete` may occur. -/
def anyFault : File.DeleteFaults → Prop := fun _ => True

/-- The fault combinations of `File.delete` in which the DELETE statement
does not fail after the physical file has been removed. -/
def noLostDelete : File.DeleteFaults → Prop :=
  fun faults => faults.deleteFails = true → faults.removeFails = true

/-- No record is visible with a dangling stored path: whatever `findById`
returns resolves to an existing file. -/
def NoDangling (w : World) : Prop :=
  ∀ id row, File.findById false id w.db = .ok (some row) →
    pathExists w.fs (uploadsPath row.file_path) = true

/-- The store invariant behind `NoDangling`: every row's stored path resolves
to an existing file, and no two rows resolve to the same file. -/
def StoreInv (w : World) : Prop :=
  (∀ r ∈ w.db.rows, (w.fs (uploadsPath r.file_path)).isSome = true) ∧
  (w.db.rows.map (fun r => uploadsPath r.file_path)).Nodup

/-! ## Sample data -/

/-- A staged four-byte PDF. -/
def sampleFile : UploadedFile :=
  { path := tempPath "temp-1700000000000-123456789.pdf", originalname := "rapport annuel.pdf",
    mimetype := "application/pdf", size := 4 }

/-- The content of the staged sample. -/
def sampleContent : Content := [37, 80, 68, 70]

/-- An upload request for the sample file. -/
def sampleRequest : UploadRequest :=
  { validatedData := { title := "Rapport", description := "Rapport annuel de la coopérative",
                       theme := "Gestion" },
    file := some sampleFile, fileType := "pdf", userId := 1 }

/-- The state at start-up: no file, an empty table. -/
def sampleInit : World := { fs := FileSystem.empty, db := Database.empty }

/-- A state in which the sample file is staged and the table is empty. -/
def sampleStaged : World :=
  { sampleInit with
    fs := sampleInit.fs.write (tempPath "temp-1700000000000-123456789.pdf") sampleContent }

/-- An environment without failure. -/
def sampleEnv : UploadEnv :=
  { now := 1700000000001, dbNow := "2023-11-14 22:13:20", ensureDirFails := false,
    moveFails := false, insertFails := false, cleanupFails := false }

/-- A stored audio file of 120 bytes, byte `i` being `i`. -/
def sampleAudioContent : Content := List.range 120

/-- The row of the stored audio file. -/
def sampleAudioRow : FileRow :=
  { id := 1, title := "Chant", description := "Chant de la récolte",
    type := "audio", theme := "Culture", file_path := "audio/1700000000002_chant.mp3",
    original_name := "chant.mp3", file_size := 120, date_added := "2023-11-14 22:13:20",
    uploaded_by := 1 }

/-- The row of a stored PDF that shares nothing with the audio file. -/
def samplePdfRow : FileRow :=
  { id := 2, title := "Statuts", description := "Statuts de la coopérative",
    type := "pdf", theme := "Gestion", file_path := "pdf/1700000000003_statuts.pdf",
    original_name := "statuts.pdf", file_size := 10, date_added := "2023-11-14 22:13:21",
    uploaded_by := 1 }

/-- A row whose file has been removed from the uploads tree by hand. -/
def sampleOrphanRow : FileRow :=
  { id := 3, title := "Photo", description := "Photo de la récolte",
    type := "image", theme := "Culture", file_path := "image/1700000000004_photo.png",
    original_name := "photo.png", file_size := 5, date_added := "2023-11-14 22:13:22",
    uploaded_by := 1 }

/-- A library holding the audio file, the PDF and the row without file. -/
def sampleLibrary : World :=
  { fs := (FileSystem.empty.write (uploadsPath "audio/1700000000002_chant.mp3")
            sampleAudioContent).write (uploadsPath "pdf/1700000000003_statuts.pdf")
            [37, 80, 68, 70, 45, 49, 46, 52, 10, 37],
    db := { rows := [sampleAudioRow, samplePdfRow, sampleOrphanRow], seq := 3 } }

/-- The state after the sample upload has been committed. -/
def sampleCommitted : World := (FileController.uploadFile sampleEnv sampleRequest sampleStaged).1

/-- A `File.delete` whose DELETE statement fails after the file was removed. -/
def lostDelete : File.DeleteFaults :=
  { selectFails := false, removeFails := false, deleteFails := true }

/-- The state after `File.delete(1)` lost its DELETE statement. -/
def sampleLost : World :=
  { fs := (File.delete lostDelete 1 sampleCommitted.fs sampleCommitted.db).1,
    db := (File.delete lostDelete 1 sampleCommitted.fs sampleCommitted.db).2.1 }

/-- The ten bytes of the scenario document. -/
def scenarioContent : Content := [37, 80, 68, 70, 45, 49, 46, 52, 10, 37]

/-- The 10-byte PDF of the scenario as it arrives. -/
def scenarioFile : IncomingFile :=
  { originalname := "statuts.pdf", mimetype := "application/pdf", content := scenarioContent }

/-- The descriptive fields of the scenario: title `T`, description
`0123456789`, theme `X`. -/
def scenarioBody : UploadBody :=
  { title := some (.text "T"), description := some (.text "0123456789"),
    theme := some (.text "X"), extra := [] }

/-- The scenario upload. -/
def scenarioSubmission : Submission :=
  { file := some scenarioFile, body := scenarioBody, userId := 1 }

/-- The scenario upload with a title and a theme of two characters. -/
def longerSubmission : Submission :=
  { file := some scenarioFile,
    body := { scenarioBody with title := some (.text "Ti"), theme := some (.text "Xy") },
    userId := 1 }

/-- An upload whose declared type is not on the allow-list. -/
def rejectedSubmission : Submission :=
  { file := some { scenarioFile with originalname := "outil.exe",
                                      mimetype := "application/x-msdownload" },
    body := longerSubmission.body, userId := 1 }

/-- A staging step without failure. -/
def sampleStage : StageEnv :=
  { now := 1700000000000, random := 123456789, writeFails := false, limitAtBound := true }

/-- The state after the sample upload was committed and the same file was
staged a second time. -/
def sampleRestaged : World :=
  { sampleCommitted with fs := sampleCommitted.fs.write sampleFile.path sampleContent }

/-- The record a 201 answer carries, if any. -/
def Response.record (res : Response) : Option NewFile :=
  match res.body with
  | .created _ file => some file
  | _ => none

/-- An update of the three descriptive fields. -/
def sampleUpdate : File.UpdateData :=
  { title := some "Statuts révisés", description := some "Version adoptée en assemblée",
    theme := some "Gouvernance" }

/-- The table of `sampleLibrary` after `sampleUpdate` on the record 2. -/
def sampleUpdated : Database :=
  { rows := [sampleAudioRow,
             { samplePdfRow with title := "Statuts révisés",
                                 description := "Version adoptée en assemblée",
                                 theme := "Gouvernance" },
             sampleOrphanRow],
    seq := sampleLibrary.db.seq }

/-- A PDF of exactly `50 * 1024 * 1024` bytes as it arrives. -/
def exactLimitFile : IncomingFile :=
  { originalname := "archive.pdf", mimetype := "application/pdf",
    content := List.replicate fileSizeLimit 0 }

/-- The upload of the PDF of exactly `50 * 1024 * 1024` bytes, with valid
descriptive fields. -/
def exactLimitSubmission : Submission :=
  { file := some exactLimitFile,
    body := { title := some (.text "Archive"), description := some (.text "Archive des comptes"),
              theme := some (.text "Gestion"), extra := [] },
    userId := 1 }

/-- A body with three valid descriptive fields and one more text field. -/
def unknownKeyBody : UploadBody :=
  { title := some (.text "Statuts"), description := some (.text "Statuts de la coopérative"),
    theme := some (.text "Gestion"), extra := ["auteur"] }

/-- The upload of the 10-byte PDF with `unknownKeyBody`. -/
def unknownKeySubmission : Submission :=
  { file := some scenarioFile, body := unknownKeyBody, userId := 1 }

/-- An answer of the elevated-rights gate to a caller without the role. -/
def sampleForbidden : Response :=
  Response.fresh.json 403 (.json false "Droits administrateur requis")

/-- An answer of the authentication gate to a request without token. -/
def sampleRefusal : Response :=
  Response.fresh.json 401 (.json false "Authentification requise")

/-- The query string `?sortBy=title`. -/
def sortByTitle : Filters :=
  { type := none, theme := none, search := none, sortBy := some "title", sortOrder := none,
    limit := none, offset := none }

/-- The query string `?sortBy=file_size`: the same fields set as in
`sortByTitle`, with another value. -/
def sortBySize : Filters :=
  { type := none, theme := none, search := none, sortBy := some "file_size", sortOrder := none,
    limit := none, offset := none }

/-- A query string whose `sortBy` is not the name of a column. -/
def sortByExpression : Filters :=
  { type := none, theme := none, search := none,
    sortBy := some "id IN (SELECT id FROM users)", sortOrder := none,
    limit := none, offset := none }

end Bibliotheque

/-! # Theorems -/

namespace Bibliotheque

open FileController

/-! ## File system and table lemmas -/

theorem write_same (fs : FileSystem) (p : String) (c : Content) : (fs.write p c) p = some c := by
  simp [FileSystem.write]

theorem write_other (fs : FileSystem) (p q : String) (c : Content) (h : q ≠ p) :
    (fs.write p c) q = fs q := by
  simp [FileSystem.write, h]

theorem erase_same (fs : FileSystem) (p : String) : (fs.erase p) p = none := by
  simp [FileSystem.erase]

theorem erase_other (fs : FileSystem) (p q : String) (h : q ≠ p) : (fs.erase p) q = fs q := by
  simp [FileSystem.erase, h]

/-- A successful `fs.move` had a source, no destination, and leaves exactly
the moved content at the destination. -/
theorem move_ok {fails : Bool} {src dest : String} {fs fs1 : FileSystem}
    (h : move fails src dest fs = .ok fs1) :
    fails = false ∧ ∃ c, fs src = some c ∧ fs dest = none ∧
      fs1 = (fs.erase src).write dest c := by
  unfold move at h
  cases fails with
  | true => simp at h
  | false =>
    refine ⟨rfl, ?_⟩
    cases hs : fs src with
    | none => simp [hs] at h
    | some c =>
      cases hd : fs dest with
      | some d => simp [hs, hd] at h
      | none =>
        simp only [hs, hd, Option.isSome_none, Bool.false_eq_true, if_false] at h
        exact ⟨c, rfl, rfl, (Except.ok.inj h).symm⟩

/-- With a source, a free destination and no injected failure, `fs.move`
succeeds. -/
theorem move_ok_of {src dest : String} {fs : FileSystem} {c : Content}
    (hs : fs src = some c) (hd : fs dest = none) :
    move false src dest fs = .ok ((fs.erase src).write dest c) := by
  simp [move, hs, hd]

/-- A successful INSERT appends one row carrying the next id. -/
theorem File.create_ok {fails : Bool} {now : String} {fd : FileData} {db db1 : Database}
    {nf : NewFile} (h : File.create fails now fd db = .ok (db1, nf)) :
    fails = false ∧ typeCheck fd.type = true ∧ nf = { id := db.seq + 1, data := fd } ∧
    db1 = File.inserted now fd db := by
  unfold File.create at h
  cases fails with
  | true => simp at h
  | false =>
    cases ht : typeCheck fd.type with
    | false => simp [ht] at h
    | true =>
      simp only [ht, Bool.false_eq_true, if_false, Bool.not_true, Except.ok.injEq,
        Prod.mk.injEq] at h
      exact ⟨rfl, rfl, h.2.symm, h.1.symm⟩

/-- In a well-formed table no row carries the next id. -/
theorem find_next_id_none {db : Database} (hv : db.Valid) :
    db.rows.find? (fun r => decide (r.id = db.seq + 1)) = none := by
  rw [List.find?_eq_none]
  intro r hr
  have := hv.1 r hr
  simp only [decide_eq_true_eq]
  omega

/-- The anatomy of a successful `uploadFile`: no step failed, the staged file
existed, the destination was free, and the new state is the moved file plus
the appended row. -/
theorem uploadFile_created {env : UploadEnv} {req : UploadRequest} {w : World}
    (h : (uploadFile env req w).2.status = 201) :
    ∃ file c, req.file = some file ∧ w.fs file.path = some c ∧
      w.fs (uploadsPath (relativePath req.fileType env.now file.originalname)) = none ∧
      env.moveFails = false ∧ env.insertFails = false ∧ typeCheck req.fileType = true ∧
      (uploadFile env req w).1.fs =
        (w.fs.erase file.path).write
          (uploadsPath (relativePath req.fileType env.now file.originalname)) c ∧
      (uploadFile env req w).1.db = File.inserted env.dbNow (fileDataOf env req file) w.db ∧
      (uploadFile env req w).2.body = .created "Fichier uploadé avec succès"
        { id := w.db.seq + 1, data := fileDataOf env req file } := by
  cases hf : req.file with
  | none => simp [uploadFile, hf, Response.json, Response.fresh] at h
  | some file =>
    cases hb : env.ensureDirFails with
    | true =>
      simp [uploadFile, hf, hb, ensureDir, uploadCatch, serverError, Response.json,
        Response.fresh] at h
    | false =>
      cases hm : move env.moveFails file.path
          (uploadsPath (relativePath req.fileType env.now file.originalname)) w.fs with
      | error e =>
        simp [uploadFile, hf, hb, ensureDir, hm, uploadCatch, serverError, Response.json,
          Response.fresh] at h
      | ok fs1 =>
        obtain ⟨hmf, c, hsrc, hdst, hfs1⟩ := move_ok hm
        cases hc : File.create env.insertFails env.dbNow (fileDataOf env req file) w.db with
        | error e =>
          simp [uploadFile, hf, hb, ensureDir, hm, hc, uploadCatch, serverError, Response.json,
            Response.fresh] at h
        | ok r =>
          obtain ⟨db1, nf⟩ := r
          obtain ⟨hif, htc, hnf, hdb1⟩ := File.create_ok hc
          refine ⟨file, c, rfl, hsrc, hdst, hmf, hif, htc, ?_, ?_, ?_⟩
          · simp [uploadFile, hf, hb, ensureDir, hm, hc, hfs1]
          · simp [uploadFile, hf, hb, ensureDir, hm, hc, hdb1]
          · simp [uploadFile, hf, hb, ensureDir, hm, hc, hnf, Response.json]

/-! ## C1: no rollback of the relocated file -/

/-- Whenever the relocation succeeds and the INSERT then rejects, `uploadFile`
answers 500, inserts nothing, and the relocated file is still at its
destination: the `catch` block removes `req.file.path`, the staged path the
file has already left. -/
theorem uploadFile_insert_failure {env : UploadEnv} {req : UploadRequest} {w : World}
    {file : UploadedFile} {fs1 : FileSystem} {e : String}
    (hf : req.file = some file) (hb : env.ensureDirFails = false)
    (hm : move env.moveFails file.path
      (uploadsPath (relativePath req.fileType env.now file.originalname)) w.fs = .ok fs1)
    (hc : File.create env.insertFails env.dbNow (fileDataOf env req file) w.db = .error e) :
    (uploadFile env req w).2.status = 500 ∧ (uploadFile env req w).1.db = w.db ∧
    (uploadFile env req w).1.fs
        (uploadsPath (relativePath req.fileType env.now file.originalname)) =
      w.fs file.path ∧
    (w.fs file.path).isSome = true := by
  obtain ⟨_, c, hsrc, hdst, hfs1⟩ := move_ok hm
  have hne : uploadsPath (relativePath req.fileType env.now file.originalname) ≠ file.path := by
    intro heq
    rw [heq, hsrc] at hdst
    exact Option.noConfusion hdst
  refine ⟨?_, ?_, ?_, ?_⟩
  · simp [uploadFile, hf, hb, ensureDir, hm, hc, uploadCatch, serverError, Response.json]
  · simp [uploadFile, hf, hb, ensureDir, hm, hc, uploadCatch]
  · simp only [uploadFile, hf, hb, ensureDir, hm, hc, uploadCatch, remove, Bool.false_eq_true,
      if_false]
    rw [hsrc, hfs1]
    by_cases hp : file.path = ""
    · simp [hp, write_same]
    · cases hcf : env.cleanupFails with
      | true => simp [hp, write_same]
      | false => simp [hp, erase_other _ _ _ hne, write_same]
  · simp [hsrc]

/-- C1 (the code departs from the claim): the sample upload whose INSERT is
made to fail after a successful relocation ends with status 500 and an
unchanged table, while the relocated file is still present at its
destination `uploads/pdf/1700000000001_rapport_annuel.pdf`; only the staged
path is gone. -/
theorem uploadFile_no_rollback_sample :
    (uploadFile { sampleEnv with insertFails := true } sampleRequest sampleStaged).2.status
      = 500 ∧
    (uploadFile { sampleEnv with insertFails := true } sampleRequest sampleStaged).1.db
      = Database.empty ∧
    (uploadFile { sampleEnv with insertFails := true } sampleRequest sampleStaged).1.fs
      (uploadsPath "pdf/1700000000001_rapport_annuel.pdf") = some sampleContent ∧
    (uploadFile { sampleEnv with insertFails := true } sampleRequest sampleStaged).1.fs
      sampleFile.path = none := by
  decide

/-! ## C2: a committed asset is readable at once -/

/-- C2: when `uploadFile` answers 201 for a staged file with content `c` (on a
well-formed table), the response carries the new record, `findById` on its
id returns a row, and that row's `file_path` resolves under the uploads root
to a file whose content is `c` and whose length is the row's `file_size`. -/
theorem uploadFile_committed_readable (env : UploadEnv) (req : UploadRequest) (w : World)
    (file : UploadedFile) (c : Content)
    (hfile : req.file = some file) (hst : Staged w.fs file c) (hv : w.db.Valid)
    (hok : (uploadFile env req w).2.status = 201) :
    ∃ newFile row,
      (uploadFile env req w).2.body = .created "Fichier uploadé avec succès" newFile ∧
      File.findById false newFile.id (uploadFile env req w).1.db = .ok (some row) ∧
      row.id = newFile.id ∧
      (uploadFile env req w).1.fs (uploadsPath row.file_path) = some c ∧
      c.length = row.file_size := by
  obtain ⟨file2, c2, hf2, hsrc, _, _, _, _, hfs, hdb, hbody⟩ := uploadFile_created hok
  rw [hfile] at hf2
  obtain rfl : file = file2 := Option.some.inj hf2
  have hc : c2 = c := by
    have := hst.1
    rw [hsrc] at this
    exact Option.some.inj this
  subst hc
  refine ⟨_, File.rowOf (w.db.seq + 1) env.dbNow (fileDataOf env req file), hbody, ?_, rfl, ?_, ?_⟩
  · rw [hdb]
    simp [File.findById, File.inserted, List.find?_append, find_next_id_none hv, File.rowOf]
  · rw [hfs]
    simp [File.rowOf, fileDataOf, write_same]
  · simp [File.rowOf, fileDataOf, hst.2]

/-- C2 at the sample upload. -/
theorem uploadFile_committed_readable_witness :
    ∃ newFile row,
      (uploadFile sampleEnv sampleRequest sampleStaged).2.body =
        .created "Fichier uploadé avec succès" newFile ∧
      File.findById false newFile.id (uploadFile sampleEnv sampleRequest sampleStaged).1.db =
        .ok (some row) ∧
      row.id = newFile.id ∧
      (uploadFile sampleEnv sampleRequest sampleStaged).1.fs (uploadsPath row.file_path) =
        some sampleContent ∧
      sampleContent.length = row.file_size :=
  uploadFile_committed_readable sampleEnv sampleRequest sampleStaged sampleFile sampleContent
    rfl (by decide) (by decide) (by decide)

end Bibliotheque

namespace Bibliotheque

open FileController

/-! ## C3: records and their files across commit, update and delete -/

/-- A staged path never is a path under the uploads root. -/
theorem tempPath_ne_uploadsPath (a b : String) : tempPath a ≠ uploadsPath b := by
  intro h
  have h1 : (tempPath a).data = 't' :: ("emp/".data ++ a.data) := rfl
  have h2 : (uploadsPath b).data = 'u' :: ("ploads/".data ++ b.data) := rfl
  rw [h] at h1
  rw [h1] at h2
  exact absurd (List.cons.inj h2).1 (by decide)

/-- The handler `uploadFile` never removes a file other than the staged one. -/
theorem uploadFile_fs_persist (env : UploadEnv) (req : UploadRequest) (w : World) (q : String)
    (hq : ∀ f, req.file = some f → q ≠ f.path) (h : (w.fs q).isSome = true) :
    ((uploadFile env req w).1.fs q).isSome = true := by
  cases hf : req.file with
  | none => simpa [uploadFile, hf] using h
  | some file =>
    have hne : q ≠ file.path := hq file hf
    have hcatch : ∀ fs : FileSystem, (fs q).isSome = true →
        ((uploadCatch env file fs w.db).1.fs q).isSome = true := by
      intro fs hfs
      unfold uploadCatch remove
      by_cases hp : file.path = ""
      · simpa [hp] using hfs
      · cases hcf : env.cleanupFails with
        | true => simpa [hp] using hfs
        | false => simpa [hp, erase_other _ _ _ hne] using hfs
    cases hb : env.ensureDirFails with
    | true => simpa [uploadFile, hf, hb, ensureDir] using hcatch w.fs h
    | false =>
      cases hm : move env.moveFails file.path
          (uploadsPath (relativePath req.fileType env.now file.originalname)) w.fs with
      | error e => simpa [uploadFile, hf, hb, ensureDir, hm] using hcatch w.fs h
      | ok fs1 =>
        obtain ⟨_, c, hsrc, hdst, hfs1⟩ := move_ok hm
        have h1 : (fs1 q).isSome = true := by
          rw [hfs1]
          unfold FileSystem.write
          split
          · rfl
          · rw [erase_other _ _ _ hne]; exact h
        cases hc : File.create env.insertFails env.dbNow (fileDataOf env req file) w.db with
        | error e => simpa [uploadFile, hf, hb, ensureDir, hm, hc] using hcatch fs1 h1
        | ok r => simpa [uploadFile, hf, hb, ensureDir, hm, hc] using h1

/-- Unless it answers 201, `uploadFile` leaves the table as it was. -/
theorem uploadFile_db_unchanged (env : UploadEnv) (req : UploadRequest) (w : World)
    (h : (uploadFile env req w).2.status ≠ 201) : (uploadFile env req w).1.db = w.db := by
  cases hf : req.file with
  | none => simp [uploadFile, hf]
  | some file =>
    cases hb : env.ensureDirFails with
    | true => simp [uploadFile, hf, hb, ensureDir, uploadCatch]
    | false =>
      cases hm : move env.moveFails file.path
          (uploadsPath (relativePath req.fileType env.now file.originalname)) w.fs with
      | error e => simp [uploadFile, hf, hb, ensureDir, hm, uploadCatch]
      | ok fs1 =>
        cases hc : File.create env.insertFails env.dbNow (fileDataOf env req file) w.db with
        | error e => simp [uploadFile, hf, hb, ensureDir, hm, hc, uploadCatch]
        | ok r =>
          exfalso
          apply h
          simp [uploadFile, hf, hb, ensureDir, hm, hc, Response.json]

/-- The handler `uploadFile` on a file of the temp directory keeps the store invariant. -/
theorem StoreInv.commit {w : World} (hinv : StoreInv w) (env : UploadEnv) (req : UploadRequest)
    (h : ∀ f, req.file = some f → ∃ name, f.path = tempPath name) :
    StoreInv (uploadFile env req w).1 := by
  have hkeep : ∀ r ∈ w.db.rows,
      ((uploadFile env req w).1.fs (uploadsPath r.file_path)).isSome = true := by
    intro r hr
    apply uploadFile_fs_persist
    · intro f hf heq
      obtain ⟨name, hname⟩ := h f hf
      exact tempPath_ne_uploadsPath name r.file_path (by rw [← hname, ← heq])
    · exact hinv.1 r hr
  by_cases hs : (uploadFile env req w).2.status = 201
  · obtain ⟨file, c, hf, hsrc, hdst, _, _, _, hfs, hdb, _⟩ := uploadFile_created hs
    constructor
    · intro r hr
      rw [hdb] at hr
      simp only [File.inserted, List.mem_append, List.mem_singleton] at hr
      rcases hr with hr | rfl
      · exact hkeep r hr
      · rw [hfs]
        simp [File.rowOf, fileDataOf, write_same]
    · rw [hdb]
      simp only [File.inserted, List.map_append, List.map_cons, List.map_nil]
      rw [List.nodup_append]
      refine ⟨hinv.2, List.nodup_singleton _, ?_⟩
      intro p hp hp2
      simp only [List.mem_singleton, File.rowOf, fileDataOf] at hp2
      obtain ⟨r, hr, rfl⟩ := List.mem_map.1 hp
      have := hinv.1 r hr
      rw [hp2, hdst] at this
      simp at this
  · rw [StoreInv, uploadFile_db_unchanged env req w hs]
    exact ⟨hkeep, hinv.2⟩

/-- The statement of `File.update` keeps the store invariant: it touches neither a stored path
nor a file. -/
theorem StoreInv.update {w : World} (hinv : StoreInv w) (fails : Bool) (id : Nat)
    (updateData : File.UpdateData) :
    StoreInv { w with db := match File.update fails id updateData w.db with
                            | .ok r => r.1
                            | .error _ => w.db } := by
  have hpaths : ∀ db1 n, File.update fails id updateData w.db = .ok (db1, n) →
      db1.rows.map (fun r => uploadsPath r.file_path) =
        w.db.rows.map (fun r => uploadsPath r.file_path) := by
    intro db1 n hu
    unfold File.update at hu
    cases fails with
    | true => simp at hu
    | false =>
      simp only [Bool.false_eq_true, if_false] at hu
      split at hu
      · simp only [Except.ok.injEq, Prod.mk.injEq] at hu
        rw [← hu.1]
      · split at hu
        · simp only [Except.ok.injEq, Prod.mk.injEq] at hu
          rw [← hu.1, List.map_map]
          apply List.map_congr_left
          intro r _
          simp only [Function.comp]
          split <;> rfl
        · simp at hu
  cases hu : File.update fails id updateData w.db with
  | error e => simpa [hu] using hinv
  | ok r =>
    obtain ⟨db1, n⟩ := r
    have hp := hpaths db1 n hu
    constructor
    · intro r hr
      have hmem : uploadsPath r.file_path ∈ db1.rows.map (fun r => uploadsPath r.file_path) :=
        List.mem_map.2 ⟨r, hr, rfl⟩
      rw [hp] at hmem
      obtain ⟨r0, hr0, heq⟩ := List.mem_map.1 hmem
      simp only at heq ⊢
      rw [← heq]
      exact hinv.1 r0 hr0
    · simp only
      rw [hp]
      exact hinv.2

/-- The function `File.delete` keeps the store invariant unless its DELETE statement fails
after the file has been removed. -/
theorem StoreInv.delete {w : World} (hinv : StoreInv w) (faults : File.DeleteFaults) (id : Nat)
    (hallowed : noLostDelete faults) :
    StoreInv { fs := (File.delete faults id w.fs w.db).1,
               db := (File.delete faults id w.fs w.db).2.1 } := by
  unfold File.delete
  cases hsel : faults.selectFails with
  | true => simpa using hinv
  | false =>
    cases hfind : w.db.rows.find? (fun r => decide (r.id = id)) with
    | none => simpa [hfind] using hinv
    | some row =>
      have hrow : row ∈ w.db.rows := List.mem_of_find?_eq_some hfind
      have hrowid : row.id = id := by simpa using List.find?_some hfind
      cases hdel : faults.deleteFails with
      | true =>
        have hrem : faults.removeFails = true := hallowed hdel
        simpa [hfind, hdel, hrem, remove] using hinv
      | false =>
        simp only [hfind, hdel, Bool.false_eq_true, if_false]
        constructor
        · intro r hr
          simp only [List.mem_filter, Bool.not_eq_true', decide_eq_false_iff_not] at hr
          have hne : uploadsPath r.file_path ≠ uploadsPath row.file_path := by
            intro heq
            have := List.inj_on_of_nodup_map hinv.2 hr.1 hrow heq
            exact hr.2 (by rw [this, hrowid])
          cases hrem : faults.removeFails with
          | true => simpa [remove] using hinv.1 r hr.1
          | false => simpa [remove, erase_other _ _ _ hne] using hinv.1 r hr.1
        · exact (hinv.2.sublist ((List.filter_sublist _).map _))

/-- Every allowed step keeps the store invariant. -/
theorem StoreInv.step {w w2 : World} (hinv : StoreInv w) (hstep : Step noLostDelete w w2) :
    StoreInv w2 := by
  cases hstep with
  | stage name c =>
    refine ⟨fun r hr => ?_, hinv.2⟩
    have hne : uploadsPath r.file_path ≠ tempPath name :=
      fun heq => tempPath_ne_uploadsPath name r.file_path heq.symm
    simpa [write_other _ _ _ _ hne] using hinv.1 r hr
  | commit env req h => exact hinv.commit env req h
  | update fails id updateData => exact hinv.update fails id updateData
  | delete faults id h => exact hinv.delete faults id h

/-- The store invariant holds in every state reachable without a lost
DELETE. -/
theorem StoreInv.of_reachable {w : World} (h : Reachable noLostDelete w) : StoreInv w := by
  induction h with
  | init fs0 => exact ⟨by simp [Database.empty], by simp [Database.empty]⟩
  | step _ hstep ih => exact ih.step hstep

/-- C3 as stated fails: after the sample upload, a `File.delete(1)` whose
DELETE statement fails has already removed the physical file, and `findById(1)`
still returns the record, whose stored path is now dangling. -/
theorem reachable_dangling_record : ¬ ∀ w, Reachable anyFault w → NoDangling w := by
  intro h
  have hreach : Reachable anyFault sampleLost :=
    .step (.step (.step (.init FileSystem.empty)
      (.stage _ "temp-1700000000000-123456789.pdf" sampleContent))
      (.commit sampleStaged sampleEnv sampleRequest
        (fun f hf => ⟨"temp-1700000000000-123456789.pdf", by
          cases hf; rfl⟩)))
      (.delete sampleCommitted lostDelete 1 trivial)
  have hrow : File.findById false 1 sampleLost.db =
      .ok (some (File.rowOf 1 sampleEnv.dbNow (fileDataOf sampleEnv sampleRequest sampleFile))) := by
    unfold File.findById
    exact congrArg Except.ok (by decide)
  have := h sampleLost hreach 1 _ hrow
  revert this
  decide

/-- C3 (amended): in every state reachable through staging, `uploadFile`,
`File.update` and `File.delete`, with any failure of a file-system or
metadata step except a DELETE statement failing after the physical file was
removed, every record `findById` returns has a stored path that resolves to
an existing file. -/
theorem reachable_noDangling (w : World) (h : Reachable noLostDelete w) : NoDangling w := by
  intro id row hfind
  have hinv := StoreInv.of_reachable h
  unfold File.findById at hfind
  simp only [Bool.false_eq_true, if_false, Except.ok.injEq] at hfind
  exact hinv.1 row (List.mem_of_find?_eq_some hfind)

/-- C3 (amended) at the state reached by staging and committing the sample
upload. -/
theorem reachable_noDangling_witness : NoDangling sampleCommitted :=
  reachable_noDangling sampleCommitted
    (.step (.step (.init FileSystem.empty)
      (.stage _ "temp-1700000000000-123456789.pdf" sampleContent))
      (.commit sampleStaged sampleEnv sampleRequest
        (fun f hf => ⟨"temp-1700000000000-123456789.pdf", by
          cases hf; rfl⟩)))

end Bibliotheque

namespace Bibliotheque

open FileController

/-! ## Decimal numerals, `parseInt` and `split` -/

/-- A decimal digit character is in the range `'0'..'9'`. -/
theorem isDigit_bounds {c : Char} (h : c.isDigit = true) : 48 ≤ c.toNat ∧ c.toNat ≤ 57 := by
  simp only [Char.isDigit, Bool.and_eq_true, decide_eq_true_eq] at h
  exact ⟨h.1, h.2⟩

/-- The character of a digit below ten is a decimal digit with that value. -/
theorem digitChar_spec (k : Nat) (h : k < 10) :
    (Nat.digitChar k).isDigit = true ∧ (Nat.digitChar k).toNat - 48 = k := by
  interval_cases k <;> decide

theorem digitsValue_append_single (xs : List Char) (d : Char) :
    digitsValue (xs ++ [d]) = 10 * digitsValue xs + (d.toNat - 48) := by
  simp [digitsValue, List.foldl_append]

/-- What `Nat.toDigitsCore 10` puts in front of its accumulator: a non-empty
run of decimal digits whose value is the number. -/
theorem toDigitsCore_spec (fuel : Nat) : ∀ (n : Nat) (ds : List Char), n < fuel →
    ∃ xs, Nat.toDigitsCore 10 fuel n ds = xs ++ ds ∧ xs ≠ [] ∧
      (∀ c ∈ xs, c.isDigit = true) ∧ digitsValue xs = n := by
  induction fuel with
  | zero => intro n ds h; omega
  | succ fuel ih =>
    intro n ds h
    obtain ⟨hd, hv⟩ := digitChar_spec (n % 10) (Nat.mod_lt _ (by decide))
    unfold Nat.toDigitsCore
    by_cases h0 : n / 10 = 0
    · refine ⟨[Nat.digitChar (n % 10)], by simp [h0], by simp, by simpa using hd, ?_⟩
      simp only [digitsValue, List.foldl_cons, List.foldl_nil, hv]
      omega
    · obtain ⟨xs, hxs, hne, hdig, hval⟩ :=
        ih (n / 10) (Nat.digitChar (n % 10) :: ds) (by omega)
      refine ⟨xs ++ [Nat.digitChar (n % 10)], by simp [h0, hxs], by simp, ?_, ?_⟩
      · intro c hc
        rcases List.mem_append.1 hc with hc | hc
        · exact hdig c hc
        · simpa [List.mem_singleton.1 hc] using hd
      · rw [digitsValue_append_single, hval, hv]
        omega

/-- The characters of `toString n` form a non-empty run of decimal digits
of value `n`. -/
theorem toString_nat_spec (n : Nat) :
    (toString n).data ≠ [] ∧ (∀ c ∈ (toString n).data, c.isDigit = true) ∧
    digitsValue (toString n).data = n := by
  obtain ⟨xs, hxs, hne, hdig, hval⟩ := toDigitsCore_spec (n + 1) n [] (Nat.lt_succ_self n)
  have hdata : (toString n).data = xs := by
    show (Nat.toDigits 10 n).asString.data = xs
    simp [Nat.toDigits, hxs, List.asString]
  rw [hdata]
  exact ⟨hne, hdig, hval⟩

/-- The `parseInt` of a non-empty run of decimal digits is its value. -/
theorem parseIntChars_digits (xs : List Char) (hne : xs ≠ [])
    (hdig : ∀ c ∈ xs, c.isDigit = true) : parseIntChars xs = .int (digitsValue xs) := by
  cases xs with
  | nil => exact absurd rfl hne
  | cons c rest =>
    have hc := isDigit_bounds (hdig c (List.mem_cons_self _ _))
    have hws : isJsWhitespace c = false := by
      simp only [isJsWhitespace, Bool.or_eq_false_iff, Bool.and_eq_false_iff,
        decide_eq_false_iff_not]
      omega
    have hminus : c ≠ '-' := by
      intro h; rw [h] at hc; revert hc; decide
    have hplus : c ≠ '+' := by
      intro h; rw [h] at hc; revert hc; decide
    have htake : (c :: rest).takeWhile Char.isDigit = c :: rest :=
      List.takeWhile_eq_self_iff.2 hdig
    have hdrop : (c :: rest).dropWhile isJsWhitespace = c :: rest := by
      simp [List.dropWhile, hws]
    simp [parseIntChars, hdrop, hminus, hplus, htake]

/-- The number `parseInt(String(n), 10)` is `n`. -/
theorem parseIntChars_toString (n : Nat) : parseIntChars (toString n).data = .int n := by
  obtain ⟨hne, hdig, hval⟩ := toString_nat_spec n
  rw [parseIntChars_digits _ hne hdig, hval]

/-- A decimal numeral contains no dash. -/
theorem dash_not_mem_toString (n : Nat) : '-' ∉ (toString n).data := by
  intro h
  have := isDigit_bounds ((toString_nat_spec n).2.1 _ h)
  revert this
  decide

/-- Splitting a string without separator gives the string itself. -/
theorem jsSplit_not_mem (sep : Char) (xs : List Char) (h : sep ∉ xs) :
    jsSplit sep xs = [xs] := by
  induction xs with
  | nil => rfl
  | cons c cs ih =>
    have hc : c ≠ sep := fun heq => h (by simp [heq])
    have hcs : sep ∉ cs := fun hmem => h (List.mem_cons_of_mem _ hmem)
    simp [jsSplit, hc, ih hcs]

/-- Splitting at the first separator. -/
theorem jsSplit_append (sep : Char) (xs ys : List Char) (h : sep ∉ xs) :
    jsSplit sep (xs ++ sep :: ys) = xs :: jsSplit sep ys := by
  induction xs with
  | nil => simp [jsSplit]
  | cons c cs ih =>
    have hc : c ≠ sep := fun heq => h (by simp [heq])
    have hcs : sep ∉ cs := fun hmem => h (List.mem_cons_of_mem _ hmem)
    simp [jsSplit, hc, ih hcs]

/-- Removing the leading `bytes=`. -/
theorem removeFirst_bytes (rest : List Char) :
    removeFirst "bytes=".data ("bytes=".data ++ rest) = rest := by
  show removeFirst ['b', 'y', 't', 'e', 's', '='] ('b' :: 'y' :: 't' :: 'e' :: 's' :: '=' :: rest)
    = rest
  simp [removeFirst, List.isPrefixOf]

/-- The parts of the header `bytes=<start>-<rest>`: the digits of `start` and
the parts of `rest`. -/
theorem range_parts (start : Nat) (rest : String) :
    jsSplit '-' (removeFirst "bytes=".data ("bytes=" ++ toString start ++ "-" ++ rest).data) =
      (toString start).data :: jsSplit '-' rest.data := by
  have h : ("bytes=" ++ toString start ++ "-" ++ rest).data =
      "bytes=".data ++ ((toString start).data ++ '-' :: rest.data) := by
    simp [String.data_append]
  rw [h, removeFirst_bytes, jsSplit_append _ _ _ (dash_not_mem_toString start)]

end Bibliotheque

namespace Bibliotheque

open FileController

/-! ## The range branch of `serveFile` -/

theorem toString_int_ofNat (n : Nat) : toString (n : Int) = toString n := rfl

theorem render_ofNat (n : Nat) : (JsNum.int (n : Int)).render = toString n := rfl

/-- A header that starts with `bytes=` is not the empty string. -/
theorem bytes_header_ne_empty (s : String) : "bytes=" ++ s ≠ "" := by
  intro h
  have h1 : ("bytes=" ++ s).data = 'b' :: ("ytes=".data ++ s.data) := rfl
  rw [h] at h1
  exact List.noConfusion h1

/-- For an audio or video record whose file exists, a non-empty Range header
sends `serveFile` into its range branch. -/
theorem serveFile_streamable {w : World} {id : Nat} {file : FileRow} {c : Content}
    (hfind : File.findById false id w.db = .ok (some file))
    (hty : file.type = "video" ∨ file.type = "audio")
    (hfs : w.fs (uploadsPath file.file_path) = some c) (r : String) (hr : r ≠ "") :
    serveFile false id (some r) w =
      serveRange w.fs (uploadsPath file.file_path) c.length r
        { Response.fresh with contentType := some (mimeTypeOf file.type) } := by
  simp [serveFile, hfind, pathExists, hfs, hty, statSize, Option.filter, hr]

/-- The start of `bytes=<start>-<rest>` is `start`. -/
theorem rangeStart_numeral (start : Nat) (rest : String) :
    rangeStart ("bytes=" ++ toString start ++ "-" ++ rest) = .int start := by
  unfold rangeStart rangeParts
  rw [range_parts]
  exact parseIntChars_toString start

/-- The end of `bytes=<start>-<stop>` is `stop`. -/
theorem rangeEnd_numeral (n start stop : Nat) :
    rangeEnd n ("bytes=" ++ toString start ++ "-" ++ toString stop) = .int stop := by
  have hne := (toString_nat_spec stop).1
  unfold rangeEnd rangeParts
  rw [range_parts, jsSplit_not_mem _ _ (dash_not_mem_toString stop)]
  simp [parseIntChars_toString, hne]

/-- The end of `bytes=<start>-` is the last offset of the file. -/
theorem rangeEnd_open (n start : Nat) :
    rangeEnd n ("bytes=" ++ toString start ++ "-" ++ "") = .int ((n : Int) - 1) := by
  unfold rangeEnd rangeParts
  rw [range_parts]
  simp [jsSplit]

/-- Opening the stream on offsets `s ≤ e` of an existing file yields the
bytes from `s` to `e`, as far as the file goes. -/
theorem createReadStream_ok {fs : FileSystem} {p : String} {c : Content}
    (hfs : fs p = some c) (s e : Nat) (h : s ≤ e) :
    createReadStream fs p (.int s) (.int e) = .ok ((c.drop s).take (e - s + 1)) := by
  have h1 : ¬ ((s : Int) < 0 ∨ (e : Int) < 0 ∨ (e : Int) < s) := by omega
  simp [createReadStream, hfs, h]

/-- Opening the stream with `end < start` throws. -/
theorem createReadStream_throws (fs : FileSystem) (p : String) (s e : Int) (h : e < s) :
    createReadStream fs p (.int s) (.int e) = .error "ERR_OUT_OF_RANGE" := by
  have h1 : (s < 0 ∨ e < 0 ∨ e < s) := Or.inr (Or.inr h)
  simp [createReadStream, h1]

/-- A header `bytes=<start>-<rest>` is not the empty string. -/
theorem range_header_ne_empty (start : Nat) (rest : String) :
    "bytes=" ++ toString start ++ "-" ++ rest ≠ "" := by
  intro h
  have := congrArg String.data h
  simp at this

/-- The response to `bytes=<start>-<stop>` with `start ≤ stop` on an audio or
video file: 206, the headers computed from the numbers as sent, and the
bytes of the file from `start` to `stop` as far as the file goes. -/
theorem serveFile_range_numeral {w : World} {id : Nat} {file : FileRow} {c : Content}
    (hfind : File.findById false id w.db = .ok (some file))
    (hty : file.type = "video" ∨ file.type = "audio")
    (hfs : w.fs (uploadsPath file.file_path) = some c) (start stop : Nat) (h : start ≤ stop) :
    serveFile false id (some ("bytes=" ++ toString start ++ "-" ++ toString stop)) w =
      { status := 206, contentType := some (mimeTypeOf file.type), contentDisposition := none,
        contentRange := some ("bytes " ++ toString start ++ "-" ++ toString stop ++ "/" ++
          toString c.length),
        acceptRanges := some "bytes",
        contentLength := some (toString (stop - start + 1)),
        body := .content ((c.drop start).take (stop - start + 1)) } := by
  rw [serveFile_streamable hfind hty hfs _ (range_header_ne_empty start _)]
  unfold serveRange
  rw [rangeStart_numeral, rangeEnd_numeral]
  simp only [createReadStream_ok hfs start stop h, JsNum.sub, JsNum.add, render_ofNat]
  have hlen : ((stop : Int) - start + 1) = ((stop - start + 1 : Nat) : Int) := by omega
  simp only [hlen, render_ofNat, Response.fresh]

/-- The response to `bytes=<start>-<stop>` with `stop < start`: the stream
cannot be opened and the `catch` block answers 500. -/
theorem serveFile_range_reversed {w : World} {id : Nat} {file : FileRow} {c : Content}
    (hfind : File.findById false id w.db = .ok (some file))
    (hty : file.type = "video" ∨ file.type = "audio")
    (hfs : w.fs (uploadsPath file.file_path) = some c) (start stop : Nat) (h : stop < start) :
    (serveFile false id (some ("bytes=" ++ toString start ++ "-" ++ toString stop)) w).status
      = 500 ∧
    (serveFile false id (some ("bytes=" ++ toString start ++ "-" ++ toString stop)) w).body
      = .json false "Erreur interne du serveur" := by
  rw [serveFile_streamable hfind hty hfs _ (range_header_ne_empty start _)]
  unfold serveRange
  rw [rangeStart_numeral, rangeEnd_numeral]
  simp [createReadStream_throws _ _ _ _ (by omega : (stop : Int) < start), serverError,
    Response.json]

/-- The response to `bytes=<start>-` (no end): the end is the last offset of
the file. -/
theorem serveFile_range_open {w : World} {id : Nat} {file : FileRow} {c : Content}
    (hfind : File.findById false id w.db = .ok (some file))
    (hty : file.type = "video" ∨ file.type = "audio")
    (hfs : w.fs (uploadsPath file.file_path) = some c) (start : Nat) :
    serveFile false id (some ("bytes=" ++ toString start ++ "-" ++ "")) w =
      serveRange w.fs (uploadsPath file.file_path) c.length
        ("bytes=" ++ toString start ++ "-" ++ "")
        { Response.fresh with contentType := some (mimeTypeOf file.type) } ∧
    rangeStart ("bytes=" ++ toString start ++ "-" ++ "") = .int start ∧
    rangeEnd c.length ("bytes=" ++ toString start ++ "-" ++ "") = .int ((c.length : Int) - 1) :=
  ⟨serveFile_streamable hfind hty hfs _ (range_header_ne_empty start _),
   rangeStart_numeral start "", rangeEnd_open c.length start⟩

/-! ## C4: satisfiable ranges -/

/-- C4: for an audio or video asset of size `N` and `0 ≤ start ≤ stop < N`,
`serveFile` with the header `bytes=start-stop` answers 206 with Content-Range
`bytes start-stop/N`, Accept-Ranges `bytes`, Content-Length `stop-start+1`,
and a body of exactly `stop-start+1` bytes, byte `i` of the body being byte
`start+i` of the file. -/
theorem serveFile_range_satisfiable (w : World) (id : Nat) (file : FileRow) (bytes : Content)
    (start stop : Nat)
    (hfind : File.findById false id w.db = .ok (some file))
    (hty : file.type = "video" ∨ file.type = "audio")
    (hfs : w.fs (uploadsPath file.file_path) = some bytes)
    (h1 : start ≤ stop) (h2 : stop < bytes.length) :
    (serveFile false id (some ("bytes=" ++ toString start ++ "-" ++ toString stop)) w).status
      = 206 ∧
    (serveFile false id (some ("bytes=" ++ toString start ++ "-" ++ toString stop)) w).contentRange
      = some ("bytes " ++ toString start ++ "-" ++ toString stop ++ "/" ++ toString bytes.length) ∧
    (serveFile false id (some ("bytes=" ++ toString start ++ "-" ++ toString stop)) w).acceptRanges
      = some "bytes" ∧
    (serveFile false id (some ("bytes=" ++ toString start ++ "-" ++ toString stop)) w).contentLength
      = some (toString (stop - start + 1)) ∧
    (serveFile false id (some ("bytes=" ++ toString start ++ "-" ++ toString stop)) w).body
      = .content ((bytes.drop start).take (stop - start + 1)) ∧
    ((bytes.drop start).take (stop - start + 1)).length = stop - start + 1 ∧
    ∀ i, i < stop - start + 1 →
      ((bytes.drop start).take (stop - start + 1))[i]? = bytes[start + i]? := by
  rw [serveFile_range_numeral hfind hty hfs start stop h1]
  refine ⟨rfl, rfl, rfl, rfl, rfl, ?_, ?_⟩
  · rw [List.length_take, List.length_drop]
    omega
  · intro i hi
    rw [List.getElem?_take_of_lt hi, List.getElem?_drop]

end Bibliotheque

namespace Bibliotheque

open FileController

set_option maxRecDepth 8000 in
/-- C4 at the sample audio file of 120 bytes: `bytes=0-99` is answered 206
with `bytes 0-99/120` and exactly the first 100 bytes. -/
theorem serveFile_range_satisfiable_witness :
    (serveFile false 1 (some "bytes=0-99") sampleLibrary).status = 206 ∧
    (serveFile false 1 (some "bytes=0-99") sampleLibrary).contentRange
      = some "bytes 0-99/120" ∧
    (serveFile false 1 (some "bytes=0-99") sampleLibrary).contentLength = some "100" ∧
    (serveFile false 1 (some "bytes=0-99") sampleLibrary).body = .content (List.range 100) :=
  have h := serveFile_range_satisfiable sampleLibrary 1 sampleAudioRow sampleAudioContent 0 99
    rfl (Or.inr rfl) (by decide) (by decide) (by decide)
  ⟨h.1, h.2.1, h.2.2.2.1, h.2.2.2.2.1⟩

/-! ## C5: ranges that cannot be satisfied -/

/-- The response to `bytes=<start>-` on an audio or video file of size `N`
when `start < N`. -/
theorem serveFile_range_open_numeral {w : World} {id : Nat} {file : FileRow} {c : Content}
    (hfind : File.findById false id w.db = .ok (some file))
    (hty : file.type = "video" ∨ file.type = "audio")
    (hfs : w.fs (uploadsPath file.file_path) = some c) (start : Nat) (h : start < c.length) :
    serveFile false id (some ("bytes=" ++ toString start ++ "-")) w =
      { status := 206, contentType := some (mimeTypeOf file.type), contentDisposition := none,
        contentRange := some ("bytes " ++ toString start ++ "-" ++ toString (c.length - 1) ++
          "/" ++ toString c.length),
        acceptRanges := some "bytes",
        contentLength := some (toString (c.length - start)),
        body := .content (c.drop start) } := by
  obtain ⟨h1, h2, h3⟩ := serveFile_range_open hfind hty hfs start
  rw [String.append_empty] at h1 h2 h3
  rw [h1]
  unfold serveRange
  rw [h2, h3]
  have hlast : ((c.length : Int) - 1) = ((c.length - 1 : Nat) : Int) := by omega
  rw [hlast]
  simp only [createReadStream_ok hfs start (c.length - 1) (by omega), JsNum.sub, JsNum.add,
    render_ofNat]
  have hlen : (((c.length - 1 : Nat) : Int) - start + 1) = ((c.length - start : Nat) : Int) := by
    omega
  have htake : (c.drop start).take (c.length - 1 - start + 1) = c.drop start :=
    List.take_of_length_le (by rw [List.length_drop]; omega)
  simp only [hlen, htake, render_ofNat, Response.fresh]

/-- The response to `bytes=<start>-` when `start` is at or past the end of
the file: the computed end `N - 1` is below `start`, the stream cannot be
opened, and the `catch` block answers 500. -/
theorem serveFile_range_open_past_end {w : World} {id : Nat} {file : FileRow} {c : Content}
    (hfind : File.findById false id w.db = .ok (some file))
    (hty : file.type = "video" ∨ file.type = "audio")
    (hfs : w.fs (uploadsPath file.file_path) = some c) (start : Nat) (h : c.length ≤ start) :
    (serveFile false id (some ("bytes=" ++ toString start ++ "-")) w).status = 500 ∧
    (serveFile false id (some ("bytes=" ++ toString start ++ "-")) w).body
      = .json false "Erreur interne du serveur" := by
  obtain ⟨h1, h2, h3⟩ := serveFile_range_open hfind hty hfs start
  rw [String.append_empty] at h1 h2 h3
  rw [h1]
  unfold serveRange
  rw [h2, h3]
  simp [createReadStream_throws _ _ _ _ (by omega : (c.length : Int) - 1 < start), serverError,
    Response.json]

set_option maxRecDepth 8000 in
/-- C5 as stated fails: on the sample audio file of 120 bytes, `bytes=120-`
(start equal to the size) and `bytes=50-10` (start after end) are answered
with the generic status 500, not 416, and `bytes=120-130` is answered 206. -/
theorem serveFile_unsatisfiable_not_416 :
    (serveFile false 1 (some "bytes=120-") sampleLibrary).status = 500 ∧
    (serveFile false 1 (some "bytes=120-") sampleLibrary).status ≠ 416 ∧
    (serveFile false 1 (some "bytes=50-10") sampleLibrary).status = 500 ∧
    (serveFile false 1 (some "bytes=120-130") sampleLibrary).status = 206 ∧
    (serveFile false 1 (some "bytes=120-130") sampleLibrary).contentRange
      = some "bytes 120-130/120" := by
  decide

/-- C5 (amended): for an audio or video asset of size `N`, `serveFile` has no
range check and never signals RangeNotSatisfiable.  A request `bytes=start-end`
with `start > end`, and a request `bytes=start-` with `start ≥ N`, end with the
generic server error 500 and no file content; a request `bytes=start-end` with
`N ≤ start ≤ end ≤ 2^53 - 1` (the offsets Node accepts) is answered 206 with
Content-Range `bytes start-end/N` and an empty body. -/
theorem serveFile_range_unsatisfiable (w : World) (id : Nat) (file : FileRow) (c : Content)
    (hfind : File.findById false id w.db = .ok (some file))
    (hty : file.type = "video" ∨ file.type = "audio")
    (hfs : w.fs (uploadsPath file.file_path) = some c) :
    (∀ start stop : Nat, stop < start →
      (serveFile false id (some ("bytes=" ++ toString start ++ "-" ++ toString stop)) w).status
        = 500 ∧
      (serveFile false id (some ("bytes=" ++ toString start ++ "-" ++ toString stop)) w).body
        = .json false "Erreur interne du serveur") ∧
    (∀ start : Nat, c.length ≤ start →
      (serveFile false id (some ("bytes=" ++ toString start ++ "-")) w).status = 500 ∧
      (serveFile false id (some ("bytes=" ++ toString start ++ "-")) w).body
        = .json false "Erreur interne du serveur") ∧
    (∀ start stop : Nat, c.length ≤ start → start ≤ stop → stop ≤ 9007199254740991 →
      (serveFile false id (some ("bytes=" ++ toString start ++ "-" ++ toString stop)) w).status
        = 206 ∧
      (serveFile false id
          (some ("bytes=" ++ toString start ++ "-" ++ toString stop)) w).contentRange
        = some ("bytes " ++ toString start ++ "-" ++ toString stop ++ "/" ++
            toString c.length) ∧
      (serveFile false id (some ("bytes=" ++ toString start ++ "-" ++ toString stop)) w).body
        = .content []) := by
  refine ⟨fun start stop h => serveFile_range_reversed hfind hty hfs start stop h,
    fun start h => serveFile_range_open_past_end hfind hty hfs start h, ?_⟩
  intro start stop h1 h2 _
  rw [serveFile_range_numeral hfind hty hfs start stop h2]
  refine ⟨rfl, rfl, ?_⟩
  simp [List.drop_of_length_le h1]

set_option maxRecDepth 8000 in
/-- C5 (amended) at the sample audio file of 120 bytes. -/
theorem serveFile_range_unsatisfiable_witness :
    (serveFile false 1 (some "bytes=50-10") sampleLibrary).status = 500 ∧
    (serveFile false 1 (some "bytes=120-") sampleLibrary).status = 500 ∧
    (serveFile false 1 (some "bytes=120-130") sampleLibrary).body = .content [] :=
  have h := serveFile_range_unsatisfiable sampleLibrary 1 sampleAudioRow sampleAudioContent
    rfl (Or.inr rfl) (by decide)
  ⟨(h.1 50 10 (by decide)).1, (h.2.1 120 (by decide)).1,
   (h.2.2 120 130 (by decide) (by decide) (by decide)).2.2⟩

/-! ## C6: a start that is absent or not a number -/

/-- Opening the stream on a start that is `NaN` throws. -/
theorem createReadStream_nan (fs : FileSystem) (p : String) (stop : JsNum) :
    createReadStream fs p .nan stop = .error "ERR_OUT_OF_RANGE" := by
  cases stop <;> rfl

set_option maxRecDepth 8000 in
/-- C6 as stated fails: on the sample audio file, `bytes=-500`, `bytes=abc-10`
and `bytes=-` are answered with the generic status 500, not 416; and
`bytes=5x-9`, whose start only begins with a digit, is answered 206. -/
theorem serveFile_malformed_start_not_416 :
    (serveFile false 1 (some "bytes=-500") sampleLibrary).status = 500 ∧
    (serveFile false 1 (some "bytes=-500") sampleLibrary).status ≠ 416 ∧
    (serveFile false 1 (some "bytes=abc-10") sampleLibrary).status = 500 ∧
    (serveFile false 1 (some "bytes=-") sampleLibrary).status = 500 ∧
    (serveFile false 1 (some "bytes=5x-9") sampleLibrary).status = 206 := by
  decide

/-- C6 (amended): for an audio or video asset and a Range header whose start
part (the text before the first `-`, `bytes=` removed) is empty or does not
begin with a decimal number, so that `parseInt` yields `NaN`, `serveFile`
ends with the generic server error 500: it emits neither 206 nor a
RangeNotSatisfiable signal, and no file content. -/
theorem serveFile_range_start_nan (w : World) (id : Nat) (file : FileRow) (c : Content)
    (range : String)
    (hfind : File.findById false id w.db = .ok (some file))
    (hty : file.type = "video" ∨ file.type = "audio")
    (hfs : w.fs (uploadsPath file.file_path) = some c)
    (hrange : range ≠ "") (hnan : rangeStart range = .nan) :
    (serveFile false id (some range) w).status = 500 ∧
    (serveFile false id (some range) w).body = .json false "Erreur interne du serveur" := by
  rw [serveFile_streamable hfind hty hfs range hrange]
  unfold serveRange
  rw [hnan]
  simp [createReadStream_nan, serverError, Response.json]

set_option maxRecDepth 8000 in
/-- C6 (amended) at the header `bytes=-500` on the sample audio file. -/
theorem serveFile_range_start_nan_witness :
    rangeStart "bytes=-500" = .nan ∧
    (serveFile false 1 (some "bytes=-500") sampleLibrary).status = 500 ∧
    (serveFile false 1 (some "bytes=-500") sampleLibrary).body
      = .json false "Erreur interne du serveur" :=
  ⟨by decide,
   serveFile_range_start_nan sampleLibrary 1 sampleAudioRow sampleAudioContent "bytes=-500"
    rfl (Or.inr rfl) (by decide) (by decide) (by decide)⟩

/-! ## C7: an end past the end of the file -/

set_option maxRecDepth 8000 in
/-- C7 as stated fails: on the sample audio file of 120 bytes, `bytes=100-200`
is answered with Content-Range `bytes 100-200/120` and Content-Length `101`,
the end not being limited to 119, while 20 bytes are delivered. -/
theorem serveFile_end_not_clamped :
    (serveFile false 1 (some "bytes=100-200") sampleLibrary).contentRange
      = some "bytes 100-200/120" ∧
    (serveFile false 1 (some "bytes=100-200") sampleLibrary).contentRange
      ≠ some "bytes 100-119/120" ∧
    (serveFile false 1 (some "bytes=100-200") sampleLibrary).contentLength = some "101" ∧
    (serveFile false 1 (some "bytes=100-200") sampleLibrary).body
      = .content (List.range' 100 20) := by
  decide

/-- C7 (amended): for an audio or video asset of size `N` and a request
`bytes=start-end` with `0 ≤ start < N ≤ end ≤ 2^53 - 1` (the offsets Node
accepts), `serveFile` answers 206 and
delivers the `N - start` bytes from `start` to the end of the file, but the
headers are computed from the requested end as sent: Content-Range is
`bytes start-end/N` and Content-Length is `end - start + 1`. -/
theorem serveFile_range_past_end (w : World) (id : Nat) (file : FileRow) (c : Content)
    (start stop : Nat)
    (hfind : File.findById false id w.db = .ok (some file))
    (hty : file.type = "video" ∨ file.type = "audio")
    (hfs : w.fs (uploadsPath file.file_path) = some c)
    (h1 : start < c.length) (h2 : c.length ≤ stop) (_h3 : stop ≤ 9007199254740991) :
    (serveFile false id (some ("bytes=" ++ toString start ++ "-" ++ toString stop)) w).status
      = 206 ∧
    (serveFile false id (some ("bytes=" ++ toString start ++ "-" ++ toString stop)) w).contentRange
      = some ("bytes " ++ toString start ++ "-" ++ toString stop ++ "/" ++ toString c.length) ∧
    (serveFile false id (some ("bytes=" ++ toString start ++ "-" ++ toString stop)) w).contentLength
      = some (toString (stop - start + 1)) ∧
    (serveFile false id (some ("bytes=" ++ toString start ++ "-" ++ toString stop)) w).body
      = .content (c.drop start) ∧
    (c.drop start).length = c.length - start := by
  rw [serveFile_range_numeral hfind hty hfs start stop (by omega)]
  refine ⟨rfl, rfl, rfl, ?_, List.length_drop _ _⟩
  have htake : (c.drop start).take (stop - start + 1) = c.drop start :=
    List.take_of_length_le (by rw [List.length_drop]; omega)
  simp only [htake]

set_option maxRecDepth 8000 in
/-- C7 (amended) at `bytes=100-200` on the sample audio file of 120 bytes. -/
theorem serveFile_range_past_end_witness :
    (serveFile false 1 (some "bytes=100-200") sampleLibrary).status = 206 ∧
    (serveFile false 1 (some "bytes=100-200") sampleLibrary).contentRange
      = some "bytes 100-200/120" ∧
    (serveFile false 1 (some "bytes=100-200") sampleLibrary).contentLength = some "101" ∧
    (serveFile false 1 (some "bytes=100-200") sampleLibrary).body
      = .content (sampleAudioContent.drop 100) ∧
    (sampleAudioContent.drop 100).length = 120 - 100 :=
  serveFile_range_past_end sampleLibrary 1 sampleAudioRow sampleAudioContent 100 200
    rfl (Or.inr rfl) (by decide) (by decide) (by decide) (by decide)

/-! ## C8: a range without end -/

/-- C8: for an audio or video asset of size `N` and `0 ≤ start < N`, the
request `bytes=start-` is served as the range from `start` to `N - 1`: status
206, Content-Range `bytes start-(N-1)/N`, Accept-Ranges `bytes`,
Content-Length `N - start`, and the `N - start` bytes from `start` on. -/
theorem serveFile_range_open_end (w : World) (id : Nat) (file : FileRow) (c : Content)
    (start : Nat)
    (hfind : File.findById false id w.db = .ok (some file))
    (hty : file.type = "video" ∨ file.type = "audio")
    (hfs : w.fs (uploadsPath file.file_path) = some c)
    (h : start < c.length) :
    (serveFile false id (some ("bytes=" ++ toString start ++ "-")) w).status = 206 ∧
    (serveFile false id (some ("bytes=" ++ toString start ++ "-")) w).contentRange
      = some ("bytes " ++ toString start ++ "-" ++ toString (c.length - 1) ++ "/" ++
          toString c.length) ∧
    (serveFile false id (some ("bytes=" ++ toString start ++ "-")) w).acceptRanges
      = some "bytes" ∧
    (serveFile false id (some ("bytes=" ++ toString start ++ "-")) w).contentLength
      = some (toString (c.length - start)) ∧
    (serveFile false id (some ("bytes=" ++ toString start ++ "-")) w).body
      = .content (c.drop start) ∧
    (c.drop start).length = c.length - start := by
  rw [serveFile_range_open_numeral hfind hty hfs start h]
  exact ⟨rfl, rfl, rfl, rfl, rfl, List.length_drop _ _⟩

set_option maxRecDepth 8000 in
/-- C8 at `bytes=100-` on the sample audio file of 120 bytes. -/
theorem serveFile_range_open_end_witness :
    (serveFile false 1 (some "bytes=100-") sampleLibrary).status = 206 ∧
    (serveFile false 1 (some "bytes=100-") sampleLibrary).contentRange
      = some "bytes 100-119/120" ∧
    (serveFile false 1 (some "bytes=100-") sampleLibrary).contentLength = some "20" ∧
    (serveFile false 1 (some "bytes=100-") sampleLibrary).body
      = .content (List.range' 100 20) :=
  have h := serveFile_range_open_end sampleLibrary 1 sampleAudioRow sampleAudioContent 100
    rfl (Or.inr rfl) (by decide) (by decide)
  ⟨h.1, h.2.1, h.2.2.2.1, h.2.2.2.2.1⟩

end Bibliotheque

namespace Bibliotheque

open FileController

/-! ## C9: full responses -/

set_option maxRecDepth 8000 in
/-- C9 as stated fails: the sample PDF of 10 bytes requested with the header
`bytes=0-4` is handed to `res.sendFile`, which honours the range: status 206,
Content-Range `bytes 0-4/10` and the first five bytes only. -/
theorem serveFile_pdf_range_served :
    (serveFile false 2 (some "bytes=0-4") sampleLibrary).status = 206 ∧
    (serveFile false 2 (some "bytes=0-4") sampleLibrary).contentRange = some "bytes 0-4/10" ∧
    (serveFile false 2 (some "bytes=0-4") sampleLibrary).body = .content [37, 80, 68, 70, 45] := by
  decide

/-- C9 (amended): for every asset, whatever its category, requested without a
Range header (or with an empty one), `serveFile` returns the full file content
with status 200 and Content-Length equal to the size of the file in bytes;
it does not return a partial response. -/
theorem serveFile_whole (w : World) (id : Nat) (file : FileRow) (c : Content)
    (range : Option String)
    (hfind : File.findById false id w.db = .ok (some file))
    (hfs : w.fs (uploadsPath file.file_path) = some c)
    (hrange : range = none ∨ range = some "") :
    (serveFile false id range w).status = 200 ∧
    (serveFile false id range w).contentLength = some (toString c.length) ∧
    (serveFile false id range w).contentRange = none ∧
    (serveFile false id range w).body = .content c := by
  by_cases hty : file.type = "video" ∨ file.type = "audio"
  · rcases hrange with rfl | rfl <;>
      simp [serveFile, hfind, pathExists, hfs, hty, statSize, Option.filter, serveWhole,
        Response.fresh]
  · rcases hrange with rfl | rfl <;>
      simp [serveFile, hfind, pathExists, hfs, hty, sendFile, bytesRangeHeader,
        List.isPrefixOf, Response.fresh]

set_option maxRecDepth 8000 in
/-- C9 (amended) at the sample PDF and the sample audio file requested
without a Range header. -/
theorem serveFile_whole_witness :
    ((serveFile false 2 none sampleLibrary).status = 200 ∧
     (serveFile false 2 none sampleLibrary).contentLength = some "10" ∧
     (serveFile false 2 none sampleLibrary).contentRange = none ∧
     (serveFile false 2 none sampleLibrary).body
       = .content [37, 80, 68, 70, 45, 49, 46, 52, 10, 37]) ∧
    (serveFile false 1 none sampleLibrary).status = 200 :=
  ⟨serveFile_whole sampleLibrary 2 samplePdfRow [37, 80, 68, 70, 45, 49, 46, 52, 10, 37] none
      rfl (by decide) (Or.inl rfl),
   by decide⟩

/-! ## C10: NotFound -/

/-- On an existing file `res.sendFile` answers 200, 206 or 416. -/
theorem sendFile_status {fs : FileSystem} {p : String} {c : Content} (hfs : fs p = some c)
    (range : Option String) (res : Response) (hres : res.status = 200) :
    (sendFile fs p range res).status = 200 ∨ (sendFile fs p range res).status = 206 ∨
    (sendFile fs p range res).status = 416 := by
  unfold sendFile
  simp only [hfs]
  split
  · exact Or.inl hres
  · split
    · split
      · exact Or.inr (Or.inr rfl)
      · exact Or.inr (Or.inl rfl)
      · exact Or.inl hres
    · exact Or.inl hres

/-- The range branch of `serveFile` answers 206 or 500. -/
theorem serveRange_status (fs : FileSystem) (p : String) (n : Nat) (range : String)
    (res : Response) :
    (serveRange fs p n range res).status = 206 ∨ (serveRange fs p n range res).status = 500 := by
  unfold serveRange
  simp only
  split
  · exact Or.inr rfl
  · exact Or.inl rfl

/-- For an audio or video record whose file exists, `serveFile` streams the
file itself. -/
theorem serveFile_eq_stream {w : World} {id : Nat} {file : FileRow} {c : Content}
    (hfind : File.findById false id w.db = .ok (some file))
    (hty : file.type = "video" ∨ file.type = "audio")
    (hfs : w.fs (uploadsPath file.file_path) = some c) (range : Option String) :
    serveFile false id range w =
      match range.filter (fun r => r ≠ "") with
      | some r => serveRange w.fs (uploadsPath file.file_path) c.length r
          { Response.fresh with contentType := some (mimeTypeOf file.type) }
      | none => serveWhole w.fs (uploadsPath file.file_path) c.length
          { Response.fresh with contentType := some (mimeTypeOf file.type) } := by
  simp [serveFile, hfind, pathExists, hfs, hty, statSize]

/-- For any other record whose file exists, `serveFile` hands the file to
`res.sendFile`. -/
theorem serveFile_eq_sendFile {w : World} {id : Nat} {file : FileRow} {c : Content}
    (hfind : File.findById false id w.db = .ok (some file))
    (hty : ¬ (file.type = "video" ∨ file.type = "audio"))
    (hfs : w.fs (uploadsPath file.file_path) = some c) (range : Option String) :
    serveFile false id range w =
      sendFile w.fs (uploadsPath file.file_path) range
        { Response.fresh with contentType := some (mimeTypeOf file.type) } := by
  simp [serveFile, hfind, pathExists, hfs, hty]

/-- For a record whose file exists, `downloadFile` hands the file to
`res.sendFile`. -/
theorem downloadFile_eq_sendFile {w : World} {id : Nat} {file : FileRow} {c : Content}
    (hfind : File.findById false id w.db = .ok (some file))
    (hfs : w.fs (uploadsPath file.file_path) = some c) (range : Option String) :
    downloadFile false id range w =
      sendFile w.fs (uploadsPath file.file_path) range
        { Response.fresh with
          contentDisposition := some ("attachment; filename=\"" ++ file.original_name ++ "\""),
          contentType := some "application/octet-stream" } := by
  simp [downloadFile, hfind, pathExists, hfs]

/-- When the record and its file exist, `serveFile` does not answer 404. -/
theorem serveFile_found {w : World} {id : Nat} {file : FileRow} {c : Content}
    (hfind : File.findById false id w.db = .ok (some file))
    (hfs : w.fs (uploadsPath file.file_path) = some c) (range : Option String) :
    (serveFile false id range w).status ≠ 404 := by
  by_cases hty : file.type = "video" ∨ file.type = "audio"
  · rw [serveFile_eq_stream hfind hty hfs]
    split
    · rename_i r _
      rcases serveRange_status w.fs (uploadsPath file.file_path) c.length r
        { Response.fresh with contentType := some (mimeTypeOf file.type) } with h | h <;>
      rw [h] <;> decide
    · simp [serveWhole, Response.fresh]
  · rw [serveFile_eq_sendFile hfind hty hfs]
    rcases sendFile_status hfs range
      { Response.fresh with contentType := some (mimeTypeOf file.type) } rfl with h | h | h <;>
    rw [h] <;> decide

/-- When the record and its file exist, `downloadFile` does not answer 404. -/
theorem downloadFile_found {w : World} {id : Nat} {file : FileRow} {c : Content}
    (hfind : File.findById false id w.db = .ok (some file))
    (hfs : w.fs (uploadsPath file.file_path) = some c) (range : Option String) :
    (downloadFile false id range w).status ≠ 404 := by
  rw [downloadFile_eq_sendFile hfind hfs]
  rcases sendFile_status hfs range
    { Response.fresh with
      contentDisposition := some ("attachment; filename=\"" ++ file.original_name ++ "\""),
      contentType := some "application/octet-stream" } rfl with h | h | h <;>
  rw [h] <;> decide

/-- C10: `serveFile` and `downloadFile` answer 404 exactly when the lookup
finds no record for the id, or finds a record whose stored path holds no
file; in particular a failing lookup is answered 500, and when record and
file both exist the answer is not 404. -/
theorem notFound_iff (dbFails : Bool) (id : Nat) (range : Option String) (w : World) :
    ((serveFile dbFails id range w).status = 404 ↔
      (File.findById dbFails id w.db = .ok none ∨
       ∃ file, File.findById dbFails id w.db = .ok (some file) ∧
         pathExists w.fs (uploadsPath file.file_path) = false)) ∧
    ((downloadFile dbFails id range w).status = 404 ↔
      (File.findById dbFails id w.db = .ok none ∨
       ∃ file, File.findById dbFails id w.db = .ok (some file) ∧
         pathExists w.fs (uploadsPath file.file_path) = false)) := by
  cases dbFails with
  | true =>
    simp [serveFile, downloadFile, File.findById, serverError, Response.json, Response.fresh]
  | false =>
    cases hfind : File.findById false id w.db with
    | error e => simp [File.findById] at hfind
    | ok found =>
      cases found with
      | none => simp [serveFile, downloadFile, hfind, Response.json, Response.fresh]
      | some file =>
        cases hfs : w.fs (uploadsPath file.file_path) with
        | none =>
          simp [serveFile, downloadFile, hfind, pathExists, hfs, Response.json, Response.fresh]
        | some c =>
          have h1 := serveFile_found hfind hfs range
          have h2 := downloadFile_found hfind hfs range
          simp [h1, h2, pathExists, hfs]

end Bibliotheque

namespace Bibliotheque

open FileController

/-! ## The upload route -/

/-- Staging touches the temp directory only. -/
theorem multerSingle_uploads (stage : StageEnv) (file : Option IncomingFile) (fs : FileSystem)
    (rel : String) : (multerSingle stage file fs).1 (uploadsPath rel) = fs (uploadsPath rel) := by
  unfold multerSingle
  cases file with
  | none => rfl
  | some f =>
    simp only
    split
    · rfl
    · split
      · rfl
      · split
        · exact erase_other fs _ _ (fun h => tempPath_ne_uploadsPath
            (tempFileName stage.now stage.random f.originalname) rel h.symm)
        · exact write_other fs _ _ f.content (fun h => tempPath_ne_uploadsPath
            (tempFileName stage.now stage.random f.originalname) rel h.symm)

/-- The answers of `handleUploadError` are client or server errors. -/
theorem handleUploadError_status (err : UploadError) :
    (handleUploadError err).status = 400 ∨ (handleUploadError err).status = 500 := by
  cases err <;> simp [handleUploadError, Response.json]

/-- A rejection by `validateFileType` is a 400. -/
theorem validateFileType_error {file : Option UploadedFile} {res : Response}
    (h : validateFileType file = .error res) : res.status = 400 := by
  unfold validateFileType at h
  split at h
  · cases h; rfl
  · split at h
    · cases h; rfl
    · split at h
      · cases h; rfl
      · cases h

/-- A rejection by `validateFileSize` is a 400. -/
theorem validateFileSize_error {file : Option UploadedFile} {res : Response}
    (h : validateFileSize file = .error res) : res.status = 400 := by
  unfold validateFileSize at h
  split at h
  · split at h
    · cases h; rfl
    · cases h
  · cases h

/-- A rejection by `validate` is a 400 that lists the errors of the schema. -/
theorem validate_error {body : UploadBody} {res : Response} (h : validate body = .error res) :
    res = Response.fresh.json 400 (.invalid "Données invalides" (fileUploadErrors body)) ∧
    fileUploadErrors body ≠ [] := by
  unfold validate at h
  split at h
  · cases h
  · rename_i hne
    cases h
    exact ⟨rfl, hne⟩

/-- The file `req.file` describes once multer has staged `f`. -/
theorem multerSingle_ok {stage : StageEnv} {file : Option IncomingFile} {fs fs1 : FileSystem}
    {staged : UploadedFile} (h : multerSingle stage file fs = (fs1, .ok (some staged))) :
    ∃ f, file = some f ∧ fileFilter f.mimetype = true ∧ stage.writeFails = false ∧
      limitReached stage.limitAtBound f.content.length = false ∧
      staged = { path := tempPath (tempFileName stage.now stage.random f.originalname),
                 originalname := f.originalname, mimetype := f.mimetype,
                 size := f.content.length } ∧
      fs1 = fs.write (tempPath (tempFileName stage.now stage.random f.originalname))
        f.content := by
  unfold multerSingle at h
  cases file with
  | none => simp at h
  | some f =>
    simp only at h
    split at h
    · simp at h
    · rename_i hfilter
      split at h
      · simp at h
      · rename_i hwrite
        split at h
        · simp at h
        · rename_i hsize
          simp only [Prod.mk.injEq, Except.ok.injEq, Option.some.injEq] at h
          exact ⟨f, rfl, by simpa using hfilter, by simpa using hwrite, by simpa using hsize,
            h.2.symm, h.1.symm⟩

/-- The two ways through the upload route: some middleware answers with a
400 or 500 and only the temp directory may have changed, or every middleware
hands over and `uploadFile` runs on the staged file. -/
theorem uploadPipeline_cases (stage : StageEnv) (env : UploadEnv) (sub : Submission)
    (w : World) :
    (((uploadPipeline stage env sub w).2.status = 400 ∨
        (uploadPipeline stage env sub w).2.status = 500) ∧
      (uploadPipeline stage env sub w).1.db = w.db ∧
      (uploadPipeline stage env sub w).1.fs = (multerSingle stage sub.file w.fs).1 ∧
      ((∃ err, (multerSingle stage sub.file w.fs).2 = .error err) ∨
       (∃ file res, (multerSingle stage sub.file w.fs).2 = .ok file ∧
          validateFileType file = .error res) ∨
       (∃ file res, (multerSingle stage sub.file w.fs).2 = .ok file ∧
          validateFileSize file = .error res) ∨
       (∃ res, validate sub.body = .error res ∧ (uploadPipeline stage env sub w).2 = res))) ∨
    (∃ f fileType validatedData,
      sub.file = some f ∧ fileFilter f.mimetype = true ∧
      validateFileType (some
        { path := tempPath (tempFileName stage.now stage.random f.originalname),
          originalname := f.originalname, mimetype := f.mimetype,
          size := f.content.length }) = .ok fileType ∧
      validate sub.body = .ok validatedData ∧
      uploadPipeline stage env sub w =
        uploadFile env
          { validatedData := validatedData,
            file := some
              { path := tempPath (tempFileName stage.now stage.random f.originalname),
                originalname := f.originalname, mimetype := f.mimetype,
                size := f.content.length },
            fileType := fileType, userId := sub.userId }
          { fs := FileSystem.write w.fs
                    (tempPath (tempFileName stage.now stage.random f.originalname)) f.content,
            db := w.db }) := by
  unfold uploadPipeline
  rcases hm : multerSingle stage sub.file w.fs with ⟨fs1, r⟩
  cases r with
  | error err =>
    left
    exact ⟨handleUploadError_status err, rfl, rfl, Or.inl ⟨err, rfl⟩⟩
  | ok file =>
    simp only
    cases ht : validateFileType file with
    | error res =>
      left
      exact ⟨Or.inl (validateFileType_error ht), rfl, rfl, Or.inr (Or.inl ⟨file, res, rfl, ht⟩)⟩
    | ok fileType =>
      simp only
      cases hs : validateFileSize file with
      | error res =>
        left
        exact ⟨Or.inl (validateFileSize_error hs), rfl, rfl,
          Or.inr (Or.inr (Or.inl ⟨file, res, rfl, hs⟩))⟩
      | ok u =>
        simp only
        cases hv : validate sub.body with
        | error res =>
          left
          refine ⟨Or.inl ?_, rfl, rfl, Or.inr (Or.inr (Or.inr ⟨res, rfl, rfl⟩))⟩
          rw [(validate_error hv).1]
          rfl
        | ok validatedData =>
          right
          cases file with
          | none => simp [validateFileType] at ht
          | some staged =>
            obtain ⟨f, hf, hfilter, _, _, hstaged, hfs1⟩ := multerSingle_ok hm
            subst hstaged
            subst hfs1
            exact ⟨f, fileType, validatedData, hf, hfilter, ht, rfl, rfl⟩

end Bibliotheque

namespace Bibliotheque

open FileController

/-! ## C13: the classifier -/

/-- The allow-list of `fileFilter` spelled out. -/
theorem fileFilter_iff (m : String) :
    fileFilter m = true ↔
      m = "application/pdf" ∨ m = "image/jpeg" ∨ m = "image/jpg" ∨ m = "image/png" ∨
      m = "image/gif" ∨ m = "audio/mpeg" ∨ m = "audio/mp3" ∨ m = "audio/wav" ∨
      m = "audio/ogg" ∨ m = "video/mp4" ∨ m = "video/avi" ∨ m = "video/mov" ∨
      m = "video/wmv" := by
  simp [fileFilter, allowedMimeTypes]

/-- What `allowedTypes[m]` is for a type `fileFilter` lets through: its
category, one of the four. -/
theorem readProperty_of_filter {m : String} (h : fileFilter m = true) :
    ∃ t, readProperty allowedTypes m = some t ∧ allowedTypes.lookup m = some t ∧
      typeCheck t = true := by
  rw [fileFilter_iff] at h
  rcases h with h | h | h | h | h | h | h | h | h | h | h | h | h <;> subst h
  · exact ⟨"pdf", by decide, by decide, by decide⟩
  · exact ⟨"image", by decide, by decide, by decide⟩
  · exact ⟨"image", by decide, by decide, by decide⟩
  · exact ⟨"image", by decide, by decide, by decide⟩
  · exact ⟨"image", by decide, by decide, by decide⟩
  · exact ⟨"audio", by decide, by decide, by decide⟩
  · exact ⟨"audio", by decide, by decide, by decide⟩
  · exact ⟨"audio", by decide, by decide, by decide⟩
  · exact ⟨"audio", by decide, by decide, by decide⟩
  · exact ⟨"video", by decide, by decide, by decide⟩
  · exact ⟨"video", by decide, by decide, by decide⟩
  · exact ⟨"video", by decide, by decide, by decide⟩
  · exact ⟨"video", by decide, by decide, by decide⟩

/-- After `fileFilter`, `validateFileType` sets `req.fileType` to the category
of the declared type. -/
theorem validateFileType_of_filter (file : UploadedFile) (h : fileFilter file.mimetype = true) :
    ∃ t, validateFileType (some file) = .ok t ∧ allowedTypes.lookup file.mimetype = some t ∧
      typeCheck t = true := by
  obtain ⟨t, hread, hlookup, hcheck⟩ := readProperty_of_filter h
  refine ⟨t, ?_, hlookup, hcheck⟩
  have hne : t ≠ "" := by
    intro h0
    rw [h0] at hcheck
    revert hcheck
    decide
  simp [validateFileType, hread, hne]

/-- On the route a type `fileFilter` refuses never reaches `validateFileType`:
the answer is the 400 of `handleUploadError` and nothing at all is written. -/
theorem uploadPipeline_type_rejected (stage : StageEnv) (env : UploadEnv) (sub : Submission)
    (w : World) (f : IncomingFile) (hf : sub.file = some f)
    (hfilter : fileFilter f.mimetype = false) :
    uploadPipeline stage env sub w =
      (w, Response.fresh.json 400 (.json false unsupportedTypeMessage)) := by
  simp [uploadPipeline, multerSingle, hf, hfilter, handleUploadError]

/-- C13: the classifier of the upload route (`fileFilter`, then
`validateFileType`) accepts a declared MIME type exactly when it is one of
the 13 allow-listed types and maps it to its category: `application/pdf` to
`pdf`; the four image types to `image`; the four audio types to `audio`; the
four video types to `video`.  Every other string is rejected with the
unsupported-type answer, status 400. -/
theorem classify_allow_list (file : UploadedFile) :
    (∀ t, classify file = .ok t ↔
      (file.mimetype = "application/pdf" ∧ t = "pdf") ∨
      ((file.mimetype = "image/jpeg" ∨ file.mimetype = "image/jpg" ∨
        file.mimetype = "image/png" ∨ file.mimetype = "image/gif") ∧ t = "image") ∨
      ((file.mimetype = "audio/mpeg" ∨ file.mimetype = "audio/mp3" ∨
        file.mimetype = "audio/wav" ∨ file.mimetype = "audio/ogg") ∧ t = "audio") ∨
      ((file.mimetype = "video/mp4" ∨ file.mimetype = "video/avi" ∨
        file.mimetype = "video/mov" ∨ file.mimetype = "video/wmv") ∧ t = "video")) ∧
    (file.mimetype ∉
        ["application/pdf", "image/jpeg", "image/jpg", "image/png", "image/gif",
         "audio/mpeg", "audio/mp3", "audio/wav", "audio/ogg",
         "video/mp4", "video/avi", "video/mov", "video/wmv"] →
      classify file = .error (Response.fresh.json 400 (.json false unsupportedTypeMessage)) ∧
      (Response.fresh.json 400 (.json false unsupportedTypeMessage)).status = 400) := by
  obtain ⟨path, originalname, mimetype, size⟩ := file
  constructor
  · intro t
    by_cases hfil : fileFilter mimetype = true
    · have h13 := (fileFilter_iff mimetype).1 hfil
      rcases h13 with h | h | h | h | h | h | h | h | h | h | h | h | h <;> subst h <;>
        simp [classify, fileFilter, allowedMimeTypes, validateFileType, readProperty,
          allowedTypes, List.lookup, eq_comm]
    · have hnot := hfil
      rw [fileFilter_iff] at hnot
      simp only [not_or] at hnot
      obtain ⟨h1, h2, h3, h4, h5, h6, h7, h8, h9, h10, h11, h12, h13⟩ := hnot
      simp [classify, hfil, h1, h2, h3, h4, h5, h6, h7, h8, h9, h10, h11, h12, h13]
  · intro hnot
    have hfil : fileFilter mimetype = false := by
      simpa [fileFilter, allowedMimeTypes] using hnot
    simp [classify, hfil, handleUploadError, Response.json]

end Bibliotheque

namespace Bibliotheque

open FileController

/-! ## C11: a rejected upload changes nothing durable -/

/-- When `validate` hands over, the schema reported no error. -/
theorem validate_ok {body : UploadBody} {validatedData : ValidatedData}
    (h : validate body = .ok validatedData) : fileUploadErrors body = [] := by
  unfold validate at h
  split at h
  · assumption
  · cases h

/-- C11: when an upload is rejected because its declared MIME type is not on
the allow-list, or because its descriptive fields fail validation, the table
is unchanged and every path under the uploads root holds what it held before
(no new file, no record); the answer is a 400, or the 500 of a staging write
that failed. -/
theorem rejected_upload_changes_nothing (stage : StageEnv) (env : UploadEnv) (sub : Submission)
    (w : World)
    (h : (∃ f, sub.file = some f ∧ fileFilter f.mimetype = false) ∨
         fileUploadErrors sub.body ≠ []) :
    (uploadPipeline stage env sub w).1.db = w.db ∧
    (∀ rel, (uploadPipeline stage env sub w).1.fs (uploadsPath rel) = w.fs (uploadsPath rel)) ∧
    ((uploadPipeline stage env sub w).2.status = 400 ∨
     (uploadPipeline stage env sub w).2.status = 500) := by
  rcases uploadPipeline_cases stage env sub w with ⟨hstatus, hdb, hfs, _⟩ | hrun
  · refine ⟨hdb, fun rel => ?_, hstatus⟩
    rw [hfs]
    exact multerSingle_uploads stage sub.file w.fs rel
  · obtain ⟨f, fileType, validatedData, hf, hfilter, _, hvalid, _⟩ := hrun
    exfalso
    rcases h with ⟨f2, hf2, hfilter2⟩ | herr
    · rw [hf] at hf2
      cases hf2
      rw [hfilter] at hfilter2
      exact Bool.noConfusion hfilter2
    · exact herr (validate_ok hvalid)

/-- C11 at an upload of type `application/x-msdownload` into the sample
library, and at the scenario upload, whose title and theme are too short. -/
theorem rejected_upload_changes_nothing_witness :
    (uploadPipeline sampleStage sampleEnv rejectedSubmission sampleLibrary).1.db
      = sampleLibrary.db ∧
    (uploadPipeline sampleStage sampleEnv rejectedSubmission sampleLibrary).1.fs
        (uploadsPath "pdf/1700000000003_statuts.pdf")
      = some [37, 80, 68, 70, 45, 49, 46, 52, 10, 37] ∧
    (uploadPipeline sampleStage sampleEnv scenarioSubmission sampleLibrary).1.db
      = sampleLibrary.db ∧
    (uploadPipeline sampleStage sampleEnv scenarioSubmission sampleLibrary).1.fs
        (uploadsPath "pdf/1700000000001_statuts.pdf") = none :=
  have h1 := rejected_upload_changes_nothing sampleStage sampleEnv rejectedSubmission
    sampleLibrary (Or.inl ⟨_, rfl, by decide⟩)
  have h2 := rejected_upload_changes_nothing sampleStage sampleEnv scenarioSubmission
    sampleLibrary (Or.inr (by decide))
  ⟨h1.1, (h1.2.1 _).trans (by decide), h2.1, (h2.2.1 _).trans (by decide)⟩

/-! ## C12: the staged file after a failed validation -/

/-- Whenever a file has been staged and the descriptive fields then fail
validation, the route answers 400 and the staged file is still in the temp
directory with its content: no middleware of the route removes it. -/
theorem staged_file_kept (stage : StageEnv) (env : UploadEnv) (sub : Submission) (w : World)
    (f : IncomingFile) (hf : sub.file = some f) (hfilter : fileFilter f.mimetype = true)
    (hwrite : stage.writeFails = false)
    (hsize : limitReached stage.limitAtBound f.content.length = false)
    (herr : fileUploadErrors sub.body ≠ []) :
    (uploadPipeline stage env sub w).2 =
      Response.fresh.json 400 (.invalid "Données invalides" (fileUploadErrors sub.body)) ∧
    (uploadPipeline stage env sub w).1.fs
        (tempPath (tempFileName stage.now stage.random f.originalname)) = some f.content := by
  have hm : multerSingle stage sub.file w.fs =
      (w.fs.write (tempPath (tempFileName stage.now stage.random f.originalname)) f.content,
       .ok (some { path := tempPath (tempFileName stage.now stage.random f.originalname),
                   originalname := f.originalname, mimetype := f.mimetype,
                   size := f.content.length })) := by
    simp [multerSingle, hf, hfilter, hwrite, hsize]
  obtain ⟨t, ht, _, _⟩ := validateFileType_of_filter
    { path := tempPath (tempFileName stage.now stage.random f.originalname),
      originalname := f.originalname, mimetype := f.mimetype,
      size := f.content.length } hfilter
  have hsz : validateFileSize (some
      { path := tempPath (tempFileName stage.now stage.random f.originalname),
        originalname := f.originalname, mimetype := f.mimetype,
        size := f.content.length }) = .ok () := by
    have hs : ¬ 50 * 1024 * 1024 < f.content.length := by
      simp only [limitReached, fileSizeLimit, Bool.or_eq_false_iff,
        decide_eq_false_iff_not] at hsize
      exact hsize.1
    simp [validateFileSize, hs]
  have hv : validate sub.body =
      .error (Response.fresh.json 400 (.invalid "Données invalides" (fileUploadErrors sub.body))) := by
    simp [validate, herr]
  simp [uploadPipeline, hm, ht, hsz, hv, write_same]

/-- C12 (the code departs from the claim): the scenario upload, a valid
10-byte PDF whose title `T` and theme `X` are too short, is answered 400 by
`validate`, and afterwards the staged file
`temp/temp-1700000000000-123456789.pdf` still exists with its ten bytes. -/
theorem staged_file_kept_sample :
    (uploadPipeline sampleStage sampleEnv scenarioSubmission sampleInit).2.status = 400 ∧
    (uploadPipeline sampleStage sampleEnv scenarioSubmission sampleInit).2.body =
      .invalid "Données invalides"
        [("title", "Le titre doit contenir au moins 2 caractères"),
         ("theme", "La thématique doit contenir au moins 2 caractères")] ∧
    (uploadPipeline sampleStage sampleEnv scenarioSubmission sampleInit).1.fs
      (tempPath "temp-1700000000000-123456789.pdf") = some scenarioContent := by
  decide

end Bibliotheque

namespace Bibliotheque

open FileController

/-! ## C14: deleting an id without record -/

/-- C14: when no record exists for the id, `deleteFile` answers 404 and
leaves the table and the file system as they were; `File.delete` itself, if
called, rejects with `Fichier non trouvé` and changes nothing either. -/
theorem deleteFile_missing (faults : File.DeleteFaults) (id : Nat) (w : World)
    (h : File.findById false id w.db = .ok none) :
    (deleteFile false faults id w).2.status = 404 ∧
    (deleteFile false faults id w).2.body = .json false "Fichier non trouvé" ∧
    (deleteFile false faults id w).1.db = w.db ∧
    (deleteFile false faults id w).1.fs = w.fs ∧
    (File.delete faults id w.fs w.db).1 = w.fs ∧
    (File.delete faults id w.fs w.db).2.1 = w.db ∧
    (faults.selectFails = false →
      (File.delete faults id w.fs w.db).2.2 = .error "Fichier non trouvé") := by
  have hnone : w.db.rows.find? (fun r => decide (r.id = id)) = none := by
    simpa [File.findById] using h
  refine ⟨?_, ?_, ?_, ?_, ?_, ?_, ?_⟩
  · simp [deleteFile, h, Response.json]
  · simp [deleteFile, h, Response.json]
  · simp [deleteFile, h]
  · simp [deleteFile, h]
  · cases hs : faults.selectFails <;> simp [File.delete, hs, hnone]
  · cases hs : faults.selectFails <;> simp [File.delete, hs, hnone]
  · intro hs
    simp [File.delete, hs, hnone]

/-- C14 at the id 99, which the sample library does not hold. -/
theorem deleteFile_missing_witness :
    (deleteFile false lostDelete 99 sampleLibrary).2.status = 404 ∧
    (deleteFile false lostDelete 99 sampleLibrary).1.db = sampleLibrary.db ∧
    (deleteFile false lostDelete 99 sampleLibrary).1.fs = sampleLibrary.fs :=
  have h := deleteFile_missing lostDelete 99 sampleLibrary rfl
  ⟨h.1, h.2.2.1, h.2.2.2.1⟩

/-! ## C15: deletion does not depend on the physical removal -/

/-- What `File.delete` does once the SELECT has found a row and the database
statements work: the file is erased unless its removal fails, every row with
the id is deleted, and the promise resolves with the number of deleted
rows. -/
theorem File.delete_found {fs : FileSystem} {db : Database} {id : Nat} {row : FileRow}
    (removeFails : Bool) (h : File.findById false id db = .ok (some row)) :
    File.delete { selectFails := false, removeFails := removeFails, deleteFails := false }
        id fs db =
      (if removeFails then fs else fs.erase (uploadsPath row.file_path),
       { db with rows := db.rows.filter (fun r => !(r.id = id)) },
       .ok (db.rows.length - (db.rows.filter (fun r => !(r.id = id))).length)) := by
  have hsome : db.rows.find? (fun r => decide (r.id = id)) = some row := by
    simpa [File.findById] using h
  cases removeFails <;> simp [File.delete, hsome, remove]

/-- After the DELETE no row carries the id. -/
theorem find_after_delete (rows : List FileRow) (id : Nat) :
    (rows.filter (fun r => !(r.id = id))).find? (fun r => decide (r.id = id)) = none := by
  rw [List.find?_eq_none]
  intro r hr
  simp only [List.mem_filter, Bool.not_eq_true', decide_eq_false_iff_not] at hr
  simpa using hr.2

/-- The DELETE removes at least the row the SELECT found. -/
theorem delete_changes_pos {rows : List FileRow} {id : Nat} {row : FileRow}
    (h : rows.find? (fun r => decide (r.id = id)) = some row) :
    0 < rows.length - (rows.filter (fun r => !(r.id = id))).length := by
  have hmem : row ∈ rows := List.mem_of_find?_eq_some h
  have hid : row.id = id := by simpa using List.find?_some h
  have hlt : (rows.filter (fun r => !(r.id = id))).length < rows.length := by
    apply List.length_filter_lt_length_iff_exists.2
    exact ⟨row, hmem, by simp [hid]⟩
  omega

/-- C15: for an existing record and working database statements,
`File.delete` resolves (with at least one deleted row) and the record is gone,
whether the file was there or not and whether its removal fails or not; the
controller answers 200. -/
theorem delete_tolerates_removal_failure (fs : FileSystem) (db : Database) (id : Nat)
    (row : FileRow) (removeFails : Bool)
    (h : File.findById false id db = .ok (some row)) :
    (∃ n, 0 < n ∧
      (File.delete { selectFails := false, removeFails := removeFails, deleteFails := false }
        id fs db).2.2 = .ok n) ∧
    File.findById false id
      (File.delete { selectFails := false, removeFails := removeFails, deleteFails := false }
        id fs db).2.1 = .ok none ∧
    (deleteFile false { selectFails := false, removeFails := removeFails, deleteFails := false }
      id { fs := fs, db := db }).2.status = 200 := by
  have hsome : db.rows.find? (fun r => decide (r.id = id)) = some row := by
    simpa [File.findById] using h
  rw [File.delete_found removeFails h]
  refine ⟨⟨_, delete_changes_pos hsome, rfl⟩, ?_, ?_⟩
  · simp [File.findById, find_after_delete]
  · simp [deleteFile, h, File.delete_found removeFails h, Response.json]

/-- C15 at the record 3 of the sample library, whose file is missing and
whose removal is made to fail as well. -/
theorem delete_tolerates_removal_failure_witness :
    File.findById false 3
      (File.delete { selectFails := false, removeFails := true, deleteFails := false }
        3 sampleLibrary.fs sampleLibrary.db).2.1 = .ok none ∧
    (deleteFile false { selectFails := false, removeFails := true, deleteFails := false }
      3 { fs := sampleLibrary.fs, db := sampleLibrary.db }).2.status = 200 :=
  (delete_tolerates_removal_failure sampleLibrary.fs sampleLibrary.db 3 sampleOrphanRow true
    rfl).2

end Bibliotheque

namespace Bibliotheque

open FileController

/-! ## C16: what a successful delete leaves -/

/-- The DELETE does not change what a lookup of another id finds. -/
theorem find_filter_other (rows : List FileRow) (id other : Nat) (h : other ≠ id) :
    (rows.filter (fun r => !(r.id = id))).find? (fun r => decide (r.id = other)) =
      rows.find? (fun r => decide (r.id = other)) := by
  induction rows with
  | nil => rfl
  | cons r rs ih =>
    by_cases hr : r.id = id
    · have hne : ¬ r.id = other := fun h2 => h (h2 ▸ hr)
      rw [List.filter_cons_of_neg (by simp [hr]), List.find?_cons_of_neg _ (by simp [hne])]
      exact ih
    · rw [List.filter_cons_of_pos (by simp [hr])]
      by_cases ho : r.id = other
      · rw [List.find?_cons_of_pos _ (by simp [ho]), List.find?_cons_of_pos _ (by simp [ho])]
      · rw [List.find?_cons_of_neg _ (by simp [ho]), List.find?_cons_of_neg _ (by simp [ho])]
        exact ih

/-- A `File.delete` that resolves had no failing database statement. -/
theorem File.delete_ok {faults : File.DeleteFaults} {id : Nat} {fs : FileSystem} {db : Database}
    {n : Nat} (h : (File.delete faults id fs db).2.2 = .ok n) :
    faults.selectFails = false ∧ faults.deleteFails = false := by
  unfold File.delete at h
  cases hs : faults.selectFails with
  | true => simp [hs] at h
  | false =>
    refine ⟨rfl, ?_⟩
    cases hd : faults.deleteFails with
    | false => rfl
    | true =>
      simp only [hs, Bool.false_eq_true, if_false] at h
      split at h
      · simp at h
      · simp [hd] at h

/-- C16: after a `File.delete` of an existing id that resolves, with a working
file system, `findById` of the id finds nothing, no file is left at the stored
path of the record, `serveFile` of the id answers 404, every lookup of
another id finds what it found before, the rows are the former rows with
another id, and every other path holds what it held. -/
theorem delete_effects (w : World) (id : Nat) (row : FileRow) (faults : File.DeleteFaults)
    (range : Option String)
    (hfind : File.findById false id w.db = .ok (some row))
    (hremove : faults.removeFails = false)
    (hok : ∃ n, (File.delete faults id w.fs w.db).2.2 = .ok n) :
    File.findById false id (File.delete faults id w.fs w.db).2.1 = .ok none ∧
    (File.delete faults id w.fs w.db).1 (uploadsPath row.file_path) = none ∧
    (serveFile false id range
      { fs := (File.delete faults id w.fs w.db).1,
        db := (File.delete faults id w.fs w.db).2.1 }).status = 404 ∧
    (∀ other, other ≠ id →
      File.findById false other (File.delete faults id w.fs w.db).2.1 =
        File.findById false other w.db) ∧
    (∀ r, r ∈ (File.delete faults id w.fs w.db).2.1.rows ↔ r ∈ w.db.rows ∧ r.id ≠ id) ∧
    (∀ p, p ≠ uploadsPath row.file_path → (File.delete faults id w.fs w.db).1 p = w.fs p) := by
  obtain ⟨n, hn⟩ := hok
  obtain ⟨hs, hd⟩ := File.delete_ok hn
  have hfaults : faults = { selectFails := false, removeFails := false, deleteFails := false } := by
    cases faults
    simp only at hs hd hremove
    simp [hs, hd, hremove]
  rw [hfaults, File.delete_found false hfind]
  have hnone : File.findById false id
      { w.db with rows := w.db.rows.filter (fun r => !(r.id = id)) } = .ok none := by
    simp [File.findById, find_after_delete]
  refine ⟨hnone, ?_, ?_, ?_, ?_, ?_⟩
  · simp [erase_same]
  · simp [serveFile, hnone, Response.json]
  · intro other hne
    simp [File.findById, find_filter_other _ _ _ hne]
  · intro r
    simp [List.mem_filter]
  · intro p hp
    simp [erase_other _ _ _ hp]

set_option maxRecDepth 8000 in
/-- C16 at the deletion of the audio record 1 of the sample library: the
record and its file are gone, a read answers 404, and the PDF record 2 and its
file are as before. -/
theorem delete_effects_witness :
    File.findById false 1
      (File.delete { selectFails := false, removeFails := false, deleteFails := false }
        1 sampleLibrary.fs sampleLibrary.db).2.1 = .ok none ∧
    (File.delete { selectFails := false, removeFails := false, deleteFails := false }
        1 sampleLibrary.fs sampleLibrary.db).1 (uploadsPath sampleAudioRow.file_path) = none ∧
    (serveFile false 1 none
      { fs := (File.delete { selectFails := false, removeFails := false, deleteFails := false }
                1 sampleLibrary.fs sampleLibrary.db).1,
        db := (File.delete { selectFails := false, removeFails := false, deleteFails := false }
                1 sampleLibrary.fs sampleLibrary.db).2.1 }).status = 404 ∧
    File.findById false 2
      (File.delete { selectFails := false, removeFails := false, deleteFails := false }
        1 sampleLibrary.fs sampleLibrary.db).2.1 = .ok (some samplePdfRow) :=
  have h := delete_effects sampleLibrary 1 sampleAudioRow
    { selectFails := false, removeFails := false, deleteFails := false } none rfl rfl
    ⟨1, rfl⟩
  ⟨h.1, h.2.1, h.2.2.1, (h.2.2.2.1 2 (by decide)).trans rfl⟩

end Bibliotheque

namespace Bibliotheque

open FileController

/-! ## C17: when two stored paths coincide -/

/-- Two strings cut at the first separator agree part by part. -/
theorem append_sep_inj {sep : Char} {xs ys a b : List Char} (hx : sep ∉ xs) (hy : sep ∉ ys)
    (h : xs ++ sep :: a = ys ++ sep :: b) : xs = ys ∧ a = b := by
  have hsplit := congrArg (jsSplit sep) h
  rw [jsSplit_append _ _ _ hx, jsSplit_append _ _ _ hy] at hsplit
  have hxy : xs = ys := (List.cons.inj hsplit).1
  subst hxy
  exact ⟨rfl, List.cons.inj (List.append_cancel_left h) |>.2⟩

/-- A category of the table contains no slash. -/
theorem slash_not_mem_type {t : String} (h : typeCheck t = true) : '/' ∉ t.data := by
  simp only [typeCheck, Bool.or_eq_true, decide_eq_true_eq] at h
  rcases h with ((h | h) | h) | h <;> subst h <;> decide

/-- A decimal numeral contains no given character that is not a digit. -/
theorem not_mem_toString (n : Nat) (c : Char) (hc : c.isDigit = false) :
    c ∉ (toString n).data := by
  intro h
  have := (toString_nat_spec n).2.1 c h
  rw [hc] at this
  exact Bool.noConfusion this

/-- Different numbers have different decimal numerals. -/
theorem toString_nat_injective {m n : Nat} (h : (toString m).data = (toString n).data) :
    m = n := by
  have hm := (toString_nat_spec m).2.2
  have hn := (toString_nat_spec n).2.2
  rw [h] at hm
  omega

/-- The characters of a relative path. -/
theorem relativePath_data (t : String) (ts : Nat) (name : String) :
    (relativePath t ts name).data =
      t.data ++ '/' :: ((toString ts).data ++ '_' :: (sanitizeName name).data) := by
  simp [relativePath, String.data_append]

/-- C17 fails: two uploads of the same millisecond and category whose
original names `rapport annuel.pdf` and `rapport_annuel.pdf` differ are given
the same relative path, although the code means the generated name to be
unique. -/
theorem relativePath_collision :
    "rapport annuel.pdf" ≠ "rapport_annuel.pdf" ∧
    relativePath "pdf" 1700000000001 "rapport annuel.pdf" =
      relativePath "pdf" 1700000000001 "rapport_annuel.pdf" := by
  decide

/-- The relative paths `uploadFile` generates for two uploads are equal
exactly when the two uploads have the same category, the same commit
timestamp (in milliseconds) and original names with the same sanitized form;
two commits that differ in one of the three get different stored paths. -/
theorem relativePath_eq_iff (t1 t2 : String) (ts1 ts2 : Nat) (name1 name2 : String)
    (h1 : typeCheck t1 = true) (h2 : typeCheck t2 = true) :
    relativePath t1 ts1 name1 = relativePath t2 ts2 name2 ↔
      t1 = t2 ∧ ts1 = ts2 ∧ sanitizeName name1 = sanitizeName name2 := by
  constructor
  · intro h
    have hdata := congrArg String.data h
    rw [relativePath_data, relativePath_data] at hdata
    obtain ⟨ht, hrest⟩ :=
      append_sep_inj (slash_not_mem_type h1) (slash_not_mem_type h2) hdata
    obtain ⟨hts, hname⟩ :=
      append_sep_inj (not_mem_toString ts1 '_' (by decide)) (not_mem_toString ts2 '_' (by decide))
        hrest
    exact ⟨String.ext ht, toString_nat_injective hts, String.ext hname⟩
  · rintro ⟨rfl, rfl, hname⟩
    simp [relativePath, hname]

/-- Two uploads of the same name in different milliseconds get different
paths. -/
theorem relativePath_eq_iff_witness :
    relativePath "pdf" 1700000000001 "rapport annuel.pdf" ≠
      relativePath "pdf" 1700000000002 "rapport annuel.pdf" :=
  fun h => absurd ((relativePath_eq_iff "pdf" "pdf" 1700000000001 1700000000002
    "rapport annuel.pdf" "rapport annuel.pdf" (by decide) (by decide)).1 h).2.1 (by decide)

end Bibliotheque

namespace Bibliotheque

open FileController

/-! ## C18: a relocation that fails -/

/-- C18 as stated fails: when the sample file is staged and committed a
second time in the same millisecond, `fs.move` refuses to overwrite the
destination; the commit ends with status 500 and no new record, and the file
of the first commit still exists at the destination path. -/
theorem relocation_failure_destination_exists :
    move false sampleFile.path (uploadsPath "pdf/1700000000001_rapport_annuel.pdf")
      sampleRestaged.fs = .error "dest already exists." ∧
    (uploadFile sampleEnv sampleRequest sampleRestaged).2.status = 500 ∧
    (uploadFile sampleEnv sampleRequest sampleRestaged).1.db = sampleRestaged.db ∧
    (uploadFile sampleEnv sampleRequest sampleRestaged).1.fs
      (uploadsPath "pdf/1700000000001_rapport_annuel.pdf") = some sampleContent := by
  refine ⟨rfl, ?_, ?_, ?_⟩ <;> decide

/-- The `catch` block of `uploadFile` answers 500, keeps the table, and
touches no path but the staged one. -/
theorem uploadCatch_spec (env : UploadEnv) (file : UploadedFile) (fs : FileSystem)
    (db : Database) (p : String) (hp : p ≠ file.path) :
    (uploadCatch env file fs db).2 = serverError Response.fresh ∧
    (uploadCatch env file fs db).1.db = db ∧
    (uploadCatch env file fs db).1.fs p = fs p := by
  refine ⟨rfl, rfl, ?_⟩
  unfold uploadCatch remove
  by_cases hpath : file.path = ""
  · simp [hpath]
  · cases hc : env.cleanupFails with
    | true => simp [hpath]
    | false => simp [hpath, erase_other _ _ _ hp]

/-- C18 (amended): whenever the relocation of the staged file fails (the
directory cannot be ensured, or `fs.move` fails), the commit fails with the
generic server error 500, no metadata record is inserted, and the destination
path holds what it held before the commit: nothing if it was free, and the
earlier file if the relocation failed because the destination already
existed. -/
theorem relocation_failure (env : UploadEnv) (req : UploadRequest) (w : World)
    (file : UploadedFile) (name : String)
    (hfile : req.file = some file) (hstaged : file.path = tempPath name)
    (hfail : env.ensureDirFails = true ∨
      ∃ e, move env.moveFails file.path
        (uploadsPath (relativePath req.fileType env.now file.originalname)) w.fs = .error e) :
    (uploadFile env req w).2.status = 500 ∧
    (uploadFile env req w).2.body = .json false "Erreur interne du serveur" ∧
    (uploadFile env req w).1.db = w.db ∧
    (uploadFile env req w).1.fs
        (uploadsPath (relativePath req.fileType env.now file.originalname)) =
      w.fs (uploadsPath (relativePath req.fileType env.now file.originalname)) := by
  have hne : uploadsPath (relativePath req.fileType env.now file.originalname) ≠ file.path := by
    rw [hstaged]
    exact fun h => tempPath_ne_uploadsPath _ _ h.symm
  obtain ⟨hres, hdb, hfs⟩ := uploadCatch_spec env file w.fs w.db _ hne
  have hrun : uploadFile env req w = uploadCatch env file w.fs w.db := by
    cases hb : env.ensureDirFails with
    | true => simp [uploadFile, hfile, hb, ensureDir]
    | false =>
      rcases hfail with hb2 | ⟨e, he⟩
      · rw [hb] at hb2
        exact Bool.noConfusion hb2
      · simp [uploadFile, hfile, hb, ensureDir, he]
  rw [hrun, hres, hdb, hfs]
  exact ⟨rfl, rfl, rfl, rfl⟩

/-- C18 (amended) at the sample upload whose `fs.move` is made to fail: the
free destination stays free. -/
theorem relocation_failure_witness :
    (uploadFile { sampleEnv with moveFails := true } sampleRequest sampleStaged).2.status = 500 ∧
    (uploadFile { sampleEnv with moveFails := true } sampleRequest sampleStaged).1.db
      = Database.empty ∧
    (uploadFile { sampleEnv with moveFails := true } sampleRequest sampleStaged).1.fs
      (uploadsPath "pdf/1700000000001_rapport_annuel.pdf") = none :=
  have h := relocation_failure { sampleEnv with moveFails := true } sampleRequest sampleStaged
    sampleFile "temp-1700000000000-123456789.pdf" rfl rfl (Or.inr ⟨"EIO", rfl⟩)
  ⟨h.1, h.2.2.1, h.2.2.2.trans (by decide)⟩

/-! ## C19: the record a commit returns -/

/-- C19: when the upload route answers 201, the record in the answer has as
`type` the category of the declared MIME type, as `file_path` the string
`<type>/<Date.now()>_<sanitized original name>`, under which the uploaded
content is now stored, as `file_size` the byte count of the staged content,
as `original_name` the file name sent, and as `uploaded_by` the id of the
caller. -/
theorem committed_record_fields (stage : StageEnv) (env : UploadEnv) (sub : Submission)
    (w : World) (h : (uploadPipeline stage env sub w).2.status = 201) :
    ∃ f newFile, sub.file = some f ∧
      (uploadPipeline stage env sub w).2.body = .created "Fichier uploadé avec succès" newFile ∧
      allowedTypes.lookup f.mimetype = some newFile.data.type ∧
      newFile.data.file_path =
        newFile.data.type ++ "/" ++ toString env.now ++ "_" ++ sanitizeName f.originalname ∧
      (uploadPipeline stage env sub w).1.fs (uploadsPath newFile.data.file_path)
        = some f.content ∧
      newFile.data.file_size = f.content.length ∧
      newFile.data.original_name = f.originalname ∧
      newFile.data.uploaded_by = sub.userId := by
  rcases uploadPipeline_cases stage env sub w with ⟨hstatus, _⟩ | hrun
  · rw [h] at hstatus
    rcases hstatus with h0 | h0 <;> exact absurd h0 (by decide)
  · obtain ⟨f, fileType, validatedData, hf, hfilter, htype, _, hrun⟩ := hrun
    rw [hrun] at h ⊢
    obtain ⟨file2, c, hfile2, hsrc, _, _, _, _, hfs, _, hbody⟩ := uploadFile_created h
    simp only [Option.some.injEq] at hfile2
    subst hfile2
    simp only [write_same, Option.some.injEq] at hsrc
    subst hsrc
    obtain ⟨t, ht, hlookup, _⟩ := validateFileType_of_filter
      { path := tempPath (tempFileName stage.now stage.random f.originalname),
        originalname := f.originalname, mimetype := f.mimetype,
        size := f.content.length } hfilter
    rw [htype] at ht
    cases ht
    refine ⟨f, _, hf, hbody, ?_, ?_, ?_, rfl, rfl, rfl⟩
    · simpa [fileDataOf] using hlookup
    · simp [fileDataOf, relativePath, String.append_assoc]
    · rw [hfs]
      simp [fileDataOf, write_same]

/-- C19 at the commit of the 10-byte PDF with a title and a theme of two
characters. -/
theorem committed_record_fields_witness :
    ∃ f newFile, longerSubmission.file = some f ∧
      (uploadPipeline sampleStage sampleEnv longerSubmission sampleInit).2.body
        = .created "Fichier uploadé avec succès" newFile ∧
      allowedTypes.lookup f.mimetype = some newFile.data.type ∧
      newFile.data.file_path =
        newFile.data.type ++ "/" ++ toString sampleEnv.now ++ "_" ++ sanitizeName f.originalname ∧
      (uploadPipeline sampleStage sampleEnv longerSubmission sampleInit).1.fs
          (uploadsPath newFile.data.file_path) = some f.content ∧
      newFile.data.file_size = f.content.length ∧
      newFile.data.original_name = f.originalname ∧
      newFile.data.uploaded_by = longerSubmission.userId :=
  committed_record_fields sampleStage sampleEnv longerSubmission sampleInit (by decide)

/-! ## C20: the scenario commit -/

/-- C20 as stated fails: the 10-byte PDF with title `T`, description
`0123456789` and theme `X` is answered 400 by the metadata validation; no
record is returned and the table stays empty. -/
theorem scenario_rejected :
    (uploadPipeline sampleStage sampleEnv scenarioSubmission sampleInit).2.status = 400 ∧
    (uploadPipeline sampleStage sampleEnv scenarioSubmission sampleInit).2.record = none ∧
    (uploadPipeline sampleStage sampleEnv scenarioSubmission sampleInit).1.db
      = Database.empty := by
  decide

/-- C20 (amended): committing the 10-byte PDF with title `T`, description
`0123456789` and theme `X` through the upload route is rejected by
`validate('fileUpload')`, because the title and the theme are shorter than two
characters; with the title `Ti` and the theme `Xy` the same commit answers 201
and returns a record of 10 bytes in the category `pdf`. -/
theorem scenario_needs_two_characters :
    fileUploadErrors scenarioBody =
      [("title", "Le titre doit contenir au moins 2 caractères"),
       ("theme", "La thématique doit contenir au moins 2 caractères")] ∧
    (uploadPipeline sampleStage sampleEnv longerSubmission sampleInit).2.status = 201 ∧
    ((uploadPipeline sampleStage sampleEnv longerSubmission sampleInit).2.record.map
      (fun file => (file.data.file_size, file.data.type))) = some (10, "pdf") ∧
    File.findById false 1 (uploadPipeline sampleStage sampleEnv longerSubmission sampleInit).1.db
      = .ok (some (File.rowOf 1 sampleEnv.dbNow
          { title := "Ti", description := "0123456789", type := "pdf", theme := "Xy",
            file_path := "pdf/1700000000001_statuts.pdf", original_name := "statuts.pdf",
            file_size := 10, uploaded_by := 1 })) := by
  refine ⟨by decide, by decide, by decide, ?_⟩
  unfold File.findById
  exact congrArg Except.ok (by decide)

end Bibliotheque

namespace Bibliotheque

open FileController

/-! ## C21: what an update leaves untouched -/

/-- The relation between a row before and after an UPDATE on `id`: the
columns outside the three descriptive ones are the same, and a row with
another id is the same row. -/
theorem update_rows_frame (id : Nat) (title description theme : String) (rows : List FileRow) :
    List.Forall₂
      (fun r r' => r'.id = r.id ∧ r'.type = r.type ∧ r'.file_path = r.file_path ∧
        r'.original_name = r.original_name ∧ r'.file_size = r.file_size ∧
        r'.uploaded_by = r.uploaded_by ∧ r'.date_added = r.date_added ∧ (r.id ≠ id → r' = r))
      rows
      (rows.map (fun r =>
        if r.id = id then { r with title := title, description := description, theme := theme }
        else r)) := by
  induction rows with
  | nil => exact List.Forall₂.nil
  | cons r rows ih =>
    refine List.Forall₂.cons ?_ ih
    by_cases h : r.id = id
    · simp [h]
    · simp [h]

/-- Every row is related to itself by the frame relation. -/
theorem same_rows_frame (id : Nat) (rows : List FileRow) :
    List.Forall₂
      (fun r r' => r'.id = r.id ∧ r'.type = r.type ∧ r'.file_path = r.file_path ∧
        r'.original_name = r.original_name ∧ r'.file_size = r.file_size ∧
        r'.uploaded_by = r.uploaded_by ∧ r'.date_added = r.date_added ∧ (r.id ≠ id → r' = r))
      rows rows := by
  induction rows with
  | nil => exact List.Forall₂.nil
  | cons r rows ih => exact List.Forall₂.cons (by simp) ih

/-- C21: when `File.update` on `id` resolves, the table keeps its sequence
and its rows one for one: each row keeps its id, type, file_path,
original_name, file_size, uploaded_by and date_added, and a row with another
id is the same row; and `updateFile`, the only caller, leaves the file system
as it was, whatever fails. -/
theorem update_frame (fails : Bool) (id : Nat) (updateData : File.UpdateData)
    (db db' : Database) (n : Nat)
    (h : File.update fails id updateData db = .ok (db', n)) :
    db'.seq = db.seq ∧
    List.Forall₂
      (fun r r' => r'.id = r.id ∧ r'.type = r.type ∧ r'.file_path = r.file_path ∧
        r'.original_name = r.original_name ∧ r'.file_size = r.file_size ∧
        r'.uploaded_by = r.uploaded_by ∧ r'.date_added = r.date_added ∧ (r.id ≠ id → r' = r))
      db.rows db'.rows ∧
    ∀ (faults : UpdateFaults) (fs : FileSystem),
      (updateFile faults id updateData { fs := fs, db := db }).1.fs = fs := by
  refine ⟨?_, ?_, ?_⟩
  · unfold File.update at h
    split at h
    · cases h
    · simp only at h
      split at h
      · cases h; rfl
      · split at h
        · cases h; rfl
        · cases h
  · unfold File.update at h
    split at h
    · cases h
    · simp only at h
      split at h
      · cases h; exact same_rows_frame id _
      · split at h
        · cases h; exact update_rows_frame id _ _ _ _
        · cases h
  · intro faults fs
    unfold updateFile
    split
    · rfl
    · rfl
    · split
      · rfl
      · split <;> rfl

/-- C21 at the update of the record 2 of the sample library. -/
theorem update_frame_witness :
    File.update false 2 sampleUpdate sampleLibrary.db = .ok (sampleUpdated, 1) ∧
    sampleUpdated.seq = sampleLibrary.db.seq ∧
    List.Forall₂
      (fun r r' => r'.id = r.id ∧ r'.type = r.type ∧ r'.file_path = r.file_path ∧
        r'.original_name = r.original_name ∧ r'.file_size = r.file_size ∧
        r'.uploaded_by = r.uploaded_by ∧ r'.date_added = r.date_added ∧ (r.id ≠ 2 → r' = r))
      sampleLibrary.db.rows sampleUpdated.rows :=
  have h := update_frame false 2 sampleUpdate sampleLibrary.db sampleUpdated 1 rfl
  ⟨rfl, h.1, h.2.1⟩

end Bibliotheque

namespace Bibliotheque

open FileController

/-! ## C22: the size bound -/

/-- The three answers `uploadFile` can give. -/
theorem uploadFile_response (env : UploadEnv) (req : UploadRequest) (w : World) :
    (uploadFile env req w).2 = Response.fresh.json 400 (.json false "Aucun fichier fourni") ∨
    (uploadFile env req w).2 = serverError Response.fresh ∨
    ∃ newFile, (uploadFile env req w).2 =
      Response.fresh.json 201 (.created "Fichier uploadé avec succès" newFile) := by
  unfold uploadFile
  split
  · exact Or.inl rfl
  · simp only
    split
    · exact Or.inr (Or.inl rfl)
    · split
      · exact Or.inr (Or.inl rfl)
      · split
        · exact Or.inr (Or.inl rfl)
        · exact Or.inr (Or.inr ⟨_, rfl⟩)

/-- The test of `validateFileSize`: a file passes exactly when its size is at
most `50 * 1024 * 1024`. -/
theorem validateFileSize_ok_iff (file : UploadedFile) :
    validateFileSize (some file) = .ok () ↔ file.size ≤ 52428800 := by
  unfold validateFileSize
  simp only
  split
  · rename_i h
    constructor
    · intro h2; cases h2
    · intro h2; omega
  · rename_i h
    constructor
    · intro _; omega
    · intro _; rfl

/-- When the parser signals the limit for a file that passed `fileFilter`, the
route answers with the too-large 400. -/
theorem uploadPipeline_limit (stage : StageEnv) (env : UploadEnv) (sub : Submission)
    (w : World) (f : IncomingFile) (hf : sub.file = some f)
    (hfilter : fileFilter f.mimetype = true) (hwrite : stage.writeFails = false)
    (hlimit : limitReached stage.limitAtBound f.content.length = true) :
    (uploadPipeline stage env sub w).2 =
      Response.fresh.json 400 (.json false tooLargeMessage) := by
  unfold uploadPipeline multerSingle
  simp [hf, hfilter, hwrite, hlimit, handleUploadError]

/-- The content of the sample file at the bound. -/
theorem exactLimit_content : exactLimitFile.content = List.replicate fileSizeLimit 0 := rfl

/-- The sample file at the bound has exactly `50 * 1024 * 1024` bytes. -/
theorem exactLimit_length : exactLimitFile.content.length = 52428800 := by
  rw [exactLimit_content, List.length_replicate]
  rfl

/-- C22 fails with the multipart parser of multer 1.4.5-lts and later, which
signals the limit when the byte count reaches it (`limitAtBound`): a PDF of
exactly 52,428,800 bytes, which `validateFileSize` lets through, is answered
with the too-large 400 by the staging step. -/
theorem exact_limit_rejected :
    exactLimitFile.content.length = 52428800 ∧
    (uploadPipeline
        { now := 1700000000000, random := 123456789, writeFails := false, limitAtBound := true }
        sampleEnv exactLimitSubmission sampleInit).2 =
      Response.fresh.json 400 (.json false tooLargeMessage) ∧
    validateFileSize (some { path := "temp/temp-1700000000000-123456789.pdf",
                             originalname := "archive.pdf", mimetype := "application/pdf",
                             size := 52428800 }) = .ok () := by
  refine ⟨exactLimit_length, ?_, ?_⟩
  · refine uploadPipeline_limit
      { now := 1700000000000, random := 123456789, writeFails := false, limitAtBound := true }
      sampleEnv exactLimitSubmission sampleInit exactLimitFile rfl (by decide) rfl ?_
    show limitReached true exactLimitFile.content.length = true
    rw [exactLimit_length]
    decide
  · rw [validateFileSize_ok_iff]

/-- An upload of an allowed type whose temp write succeeds is answered with
the too-large 400 exactly when the multipart parser signals the
`fileSize` limit of multer: when the file has more than 52,428,800 bytes, and,
with a parser that signals the limit at the bound, also when it has exactly
52,428,800 bytes.  `validateFileSize` lets a file through exactly when it has
at most 52,428,800 bytes, so a file admitted by staging is never rejected by
`validateFileSize`. -/
theorem too_large_iff (stage : StageEnv) (env : UploadEnv) (sub : Submission) (w : World)
    (f : IncomingFile) (hf : sub.file = some f) (hfilter : fileFilter f.mimetype = true)
    (hwrite : stage.writeFails = false) :
    ((uploadPipeline stage env sub w).2 = Response.fresh.json 400 (.json false tooLargeMessage) ↔
      (52428800 < f.content.length ∨
        (stage.limitAtBound = true ∧ f.content.length = 52428800))) ∧
    (∀ file : UploadedFile, validateFileSize (some file) = .ok () ↔ file.size ≤ 52428800) ∧
    (∀ fs fs1 file, multerSingle stage (some f) fs = (fs1, .ok file) →
      validateFileSize file = .ok ()) := by
  have hsize : ∀ fs fs1 file, multerSingle stage (some f) fs = (fs1, .ok file) →
      validateFileSize file = .ok () := by
    intro fs fs1 file h
    cases file with
    | none => rfl
    | some staged =>
      obtain ⟨f2, hf2, _, _, hlimit, hstaged, _⟩ := multerSingle_ok h
      cases hf2
      rw [validateFileSize_ok_iff, hstaged]
      simp [limitReached, fileSizeLimit] at hlimit
      simp only
      omega
  refine ⟨?_, validateFileSize_ok_iff, hsize⟩
  by_cases hlimit : limitReached stage.limitAtBound f.content.length = true
  · have hrun := uploadPipeline_limit stage env sub w f hf hfilter hwrite hlimit
    simp only [hrun, true_iff]
    simp [limitReached, fileSizeLimit] at hlimit
    rcases hlimit with h | h
    · exact Or.inl h
    · exact Or.inr h
  · have hno : ¬ (52428800 < f.content.length ∨
        (stage.limitAtBound = true ∧ f.content.length = 52428800)) := by
      intro h
      apply hlimit
      simp [limitReached, fileSizeLimit]
      exact h
    simp only [hno, iff_false]
    rcases uploadPipeline_cases stage env sub w with ⟨_, _, _, hcase⟩ | hrun
    · have hstage : multerSingle stage sub.file w.fs =
          (w.fs.write (tempPath (tempFileName stage.now stage.random f.originalname)) f.content,
           .ok (some { path := tempPath (tempFileName stage.now stage.random f.originalname),
                       originalname := f.originalname, mimetype := f.mimetype,
                       size := f.content.length })) := by
        unfold multerSingle
        simp [hf, hfilter, hwrite, hlimit]
      rcases hcase with ⟨err, h⟩ | ⟨file, res, h, htype⟩ | ⟨file, res, h, hsz⟩ | ⟨res, h, heq⟩
      · rw [hstage] at h; cases h
      · rw [hstage] at h
        cases h
        obtain ⟨t, ht, _⟩ := validateFileType_of_filter
          { path := tempPath (tempFileName stage.now stage.random f.originalname),
            originalname := f.originalname, mimetype := f.mimetype,
            size := f.content.length } hfilter
        rw [ht] at htype
        cases htype
      · rw [hstage] at h
        cases h
        rw [hf] at hstage
        rw [hsize _ _ _ hstage] at hsz
        cases hsz
      · rw [heq, (validate_error h).1]
        intro h2
        have := congrArg Response.body h2
        simp [Response.json] at this
    · obtain ⟨f2, fileType, validatedData, _, _, _, _, hrun⟩ := hrun
      rw [hrun]
      rcases uploadFile_response env
        { validatedData := validatedData,
          file := some
            { path := tempPath (tempFileName stage.now stage.random f2.originalname),
              originalname := f2.originalname, mimetype := f2.mimetype,
              size := f2.content.length },
          fileType := fileType, userId := sub.userId }
        { fs := FileSystem.write w.fs
                  (tempPath (tempFileName stage.now stage.random f2.originalname)) f2.content,
          db := w.db } with h | h | ⟨newFile, h⟩
      · rw [h]; decide
      · rw [h]; decide
      · rw [h]
        intro h2
        have := congrArg Response.status h2
        simp [Response.json] at this

/-- The too-large test at the commit of the 10-byte PDF. -/
theorem too_large_iff_witness :
    ((uploadPipeline sampleStage sampleEnv longerSubmission sampleInit).2 =
        Response.fresh.json 400 (.json false tooLargeMessage) ↔
      (52428800 < scenarioFile.content.length ∨
        (sampleStage.limitAtBound = true ∧ scenarioFile.content.length = 52428800))) ∧
    (∀ file : UploadedFile, validateFileSize (some file) = .ok () ↔ file.size ≤ 52428800) ∧
    (∀ fs fs1 file, multerSingle sampleStage (some scenarioFile) fs = (fs1, .ok file) →
      validateFileSize file = .ok ()) :=
  too_large_iff sampleStage sampleEnv longerSubmission sampleInit scenarioFile rfl (by decide) rfl

end Bibliotheque

namespace Bibliotheque

open FileController

/-! ## C23: the content type of the read path -/

/-- The call `res.sendFile` on an existing file and a fresh status: either it
sends content (200 or 206) under the Content-Type the handler has set, or it
answers 416 as JSON. -/
theorem sendFile_contentType (fs : FileSystem) (filePath : String) (range : Option String)
    (res : Response) (bytes : Content) (hfs : fs filePath = some bytes)
    (hstatus : res.status = 200) :
    (((sendFile fs filePath range res).status = 200 ∨
        (sendFile fs filePath range res).status = 206) ∧
      (sendFile fs filePath range res).contentType = res.contentType) ∨
    ((sendFile fs filePath range res).status = 416 ∧
      (sendFile fs filePath range res).contentType =
        some (jsonContentType res.contentType)) := by
  unfold sendFile
  rw [hfs]
  simp only
  split
  · exact Or.inl ⟨Or.inl hstatus, rfl⟩
  · split
    · split
      · exact Or.inr ⟨rfl, rfl⟩
      · exact Or.inl ⟨Or.inr rfl, rfl⟩
      · exact Or.inl ⟨Or.inl hstatus, rfl⟩
    · exact Or.inl ⟨Or.inl hstatus, rfl⟩

/-- The range branch of `serveFile`: either it sends content with status 206
under the Content-Type the handler has set, or it answers 500 as JSON. -/
theorem serveRange_contentType (fs : FileSystem) (filePath : String) (fileSize : Nat)
    (range : String) (res : Response) :
    ((serveRange fs filePath fileSize range res).status = 206 ∧
      (serveRange fs filePath fileSize range res).contentType = res.contentType) ∨
    ((serveRange fs filePath fileSize range res).status = 500 ∧
      (serveRange fs filePath fileSize range res).contentType =
        some (jsonContentType res.contentType)) := by
  unfold serveRange
  simp only
  split
  · exact Or.inr ⟨rfl, rfl⟩
  · exact Or.inl ⟨rfl, rfl⟩

/-- A category the CHECK constraint admits has its own entry in `mimeTypes`. -/
theorem mimeTypes_of_typeCheck {t : String} (h : typeCheck t = true) :
    mimeTypes.lookup t = some (mimeTypeOf t) ∧ mimeTypeOf t ≠ "application/octet-stream" := by
  simp only [typeCheck, Bool.or_eq_true, decide_eq_true_eq] at h
  rcases h with ((h | h) | h) | h <;> subst h <;> decide

/-- C23: for a record whose file exists, every answer of `serveFile` that
delivers content (status 200 or 206, whatever the branch and the Range
header) carries as Content-Type the entry of `mimeTypes` for the record's
`type`: `application/pdf` for `pdf`, `image/jpeg` for `image`, `audio/mpeg`
for `audio`, `video/mp4` for `video`.  The only other answers are the JSON
error answers 416 and 500, on which Express puts `; charset=utf-8` after that
same entry.  Every category the classification of the upload route assigns,
and every category the CHECK constraint of the table admits, has its own
entry, so the fallback `application/octet-stream` is not used for it. -/
theorem content_type_of_category (dbFails : Bool) (id : Nat) (range : Option String)
    (w : World) (row : FileRow)
    (hrow : File.findById dbFails id w.db = .ok (some row))
    (hfile : pathExists w.fs (uploadsPath row.file_path) = true) :
    ((((serveFile dbFails id range w).status = 200 ∨
          (serveFile dbFails id range w).status = 206) ∧
        (serveFile dbFails id range w).contentType = some (mimeTypeOf row.type)) ∨
      (((serveFile dbFails id range w).status = 416 ∨
          (serveFile dbFails id range w).status = 500) ∧
        (serveFile dbFails id range w).contentType =
          some (mimeTypeOf row.type ++ "; charset=utf-8"))) ∧
    mimeTypeOf "pdf" = "application/pdf" ∧ mimeTypeOf "image" = "image/jpeg" ∧
    mimeTypeOf "audio" = "audio/mpeg" ∧ mimeTypeOf "video" = "video/mp4" ∧
    (∀ file t, classify file = .ok t →
      mimeTypes.lookup t = some (mimeTypeOf t) ∧ mimeTypeOf t ≠ "application/octet-stream") ∧
    (∀ t, typeCheck t = true →
      mimeTypes.lookup t = some (mimeTypeOf t) ∧ mimeTypeOf t ≠ "application/octet-stream") := by
  refine ⟨?_, by decide, by decide, by decide, by decide, ?_, fun t h => mimeTypes_of_typeCheck h⟩
  · obtain ⟨bytes, hfs⟩ : ∃ bytes, w.fs (uploadsPath row.file_path) = some bytes :=
      Option.isSome_iff_exists.1 hfile
    unfold serveFile
    rw [hrow]
    simp only [hfile, Bool.not_true, Bool.false_eq_true, if_false]
    split
    · split
      · exact Or.inr ⟨Or.inr rfl, rfl⟩
      · split
        · rcases serveRange_contentType w.fs (uploadsPath row.file_path) _ _
            { Response.fresh with contentType := some (mimeTypeOf row.type) } with h | h
          · exact Or.inl ⟨Or.inr h.1, h.2⟩
          · exact Or.inr ⟨Or.inr h.1, h.2⟩
        · exact Or.inl ⟨Or.inl rfl, rfl⟩
    · rcases sendFile_contentType w.fs (uploadsPath row.file_path) range
        { Response.fresh with contentType := some (mimeTypeOf row.type) } bytes hfs rfl
        with h | h
      · exact Or.inl h
      · exact Or.inr ⟨Or.inl h.1, h.2⟩
  · intro file t h
    unfold classify at h
    split at h
    · cases h
    · rename_i hfilter
      obtain ⟨t2, ht2, _, hcheck⟩ := validateFileType_of_filter file (by simpa using hfilter)
      rw [ht2] at h
      cases h
      exact mimeTypes_of_typeCheck hcheck

set_option maxRecDepth 8000 in
/-- C23 at the audio file of the sample library: served whole it carries
`audio/mpeg`, and the 500 answer to `bytes=50-10` carries
`audio/mpeg; charset=utf-8`. -/
theorem content_type_of_category_witness :
    (serveFile false 1 none sampleLibrary).status = 200 ∧
    (serveFile false 1 none sampleLibrary).contentType = some "audio/mpeg" ∧
    (serveFile false 1 (some "bytes=50-10") sampleLibrary).status = 500 ∧
    (serveFile false 1 (some "bytes=50-10") sampleLibrary).contentType
      = some "audio/mpeg; charset=utf-8" :=
  have h1 := (content_type_of_category false 1 none sampleLibrary sampleAudioRow rfl
    (by decide)).1
  have h2 := (content_type_of_category false 1 (some "bytes=50-10") sampleLibrary sampleAudioRow
    rfl (by decide)).1
  have s1 : (serveFile false 1 none sampleLibrary).status = 200 := by decide
  have s2 : (serveFile false 1 (some "bytes=50-10") sampleLibrary).status = 500 := by decide
  ⟨s1,
   (h1.resolve_right (fun h => by
      rcases h.1 with h | h <;> rw [s1] at h <;> exact absurd h (by decide))).2.trans (by decide),
   s2,
   (h2.resolve_left (fun h => by
      rcases h.1 with h | h <;> rw [s2] at h <;> exact absurd h (by decide))).2.trans (by decide)⟩

end Bibliotheque

namespace Bibliotheque

open FileController

/-! ## C24: the validation of the descriptive fields -/

/-- A required key of the schema reports no error exactly when the field is
a present string within its bounds. -/
theorem checkField_none_iff (key : String) (lo hi : Nat) (m1 m2 m3 : String)
    (value : Option BodyField) (hlo : 0 < lo) :
    checkField key lo hi m1 m2 m3 value = none ↔ fieldValid lo hi value = true := by
  unfold checkField fieldValid
  cases value with
  | none => simp
  | some v =>
    cases v with
    | nonText => simp
    | text s =>
      simp only
      by_cases hs : s = ""
      · subst hs
        have h0 : jsLength "" = 0 := by decide
        simp [h0]
        omega
      · simp only [hs, if_false]
        by_cases h1 : jsLength s < lo
        · simp [h1]
        · by_cases h2 : hi < jsLength s
          · simp [h1, h2]
          · simp [h1, h2]
            omega

/-- A required key of the schema reports at most one error. -/
theorem checkField_length (key : String) (lo hi : Nat) (m1 m2 m3 : String)
    (value : Option BodyField) (hlo : 0 < lo) :
    (checkField key lo hi m1 m2 m3 value).toList.length =
      if fieldValid lo hi value = true then 0 else 1 := by
  by_cases h : fieldValid lo hi value = true
  · rw [(checkField_none_iff key lo hi m1 m2 m3 value hlo).2 h]
    simp [h]
  · have hne : checkField key lo hi m1 m2 m3 value ≠ none :=
      fun hc => h ((checkField_none_iff key lo hi m1 m2 m3 value hlo).1 hc)
    cases hc : checkField key lo hi m1 m2 m3 value with
    | none => exact absurd hc hne
    | some e => simp [h]

/-- C24 as stated fails: a body whose title, description and theme are
present strings within the bounds, sent with one more text field, is answered
400 by `validate('fileUpload')`. -/
theorem unknown_field_rejected :
    fieldValid 2 100 unknownKeyBody.title = true ∧
    fieldValid 10 500 unknownKeyBody.description = true ∧
    fieldValid 2 50 unknownKeyBody.theme = true ∧
    fileUploadErrors unknownKeyBody = [("auteur", "\"auteur\" is not allowed")] ∧
    (uploadPipeline sampleStage sampleEnv unknownKeySubmission sampleInit).2 =
      Response.fresh.json 400
        (.invalid "Données invalides" [("auteur", "\"auteur\" is not allowed")]) := by
  decide

/-- C24 (amended): `validate('fileUpload')` accepts a body if and only if
title, description and theme are present strings of 2 to 100, 10 to 500 and
2 to 50 characters (UTF-16 code units) and the body carries no other field;
it then hands over the three strings.  Otherwise it answers 400 with the
message `Données invalides` and one error entry per violated field and per
unknown field, and on the upload route nothing after it runs: the answer of
the route is that 400 and the state is the one staging left. -/
theorem fileUpload_accepts_iff (body : UploadBody) :
    ((∃ validatedData, validate body = .ok validatedData) ↔
      (fieldValid 2 100 body.title = true ∧ fieldValid 10 500 body.description = true ∧
        fieldValid 2 50 body.theme = true ∧ body.extra = [])) ∧
    (validate body = .ok { title := BodyField.get body.title,
                           description := BodyField.get body.description,
                           theme := BodyField.get body.theme } ∨
      (validate body = .error
          (Response.fresh.json 400 (.invalid "Données invalides" (fileUploadErrors body))) ∧
        fileUploadErrors body ≠ [])) ∧
    (fileUploadErrors body).length =
      (if fieldValid 2 100 body.title = true then 0 else 1) +
      (if fieldValid 10 500 body.description = true then 0 else 1) +
      (if fieldValid 2 50 body.theme = true then 0 else 1) + body.extra.length ∧
    (∀ (stage : StageEnv) (env : UploadEnv) (file : Option IncomingFile) (userId : Nat)
        (w : World) (fs1 : FileSystem) (staged : Option UploadedFile) (fileType : String),
      multerSingle stage file w.fs = (fs1, .ok staged) →
      validateFileType staged = .ok fileType →
      validateFileSize staged = .ok () →
      fileUploadErrors body ≠ [] →
      (uploadPipeline stage env { file := file, body := body, userId := userId } w).2 =
        Response.fresh.json 400 (.invalid "Données invalides" (fileUploadErrors body)) ∧
      (uploadPipeline stage env { file := file, body := body, userId := userId } w).1.fs = fs1 ∧
      (uploadPipeline stage env { file := file, body := body, userId := userId } w).1.db
        = w.db) := by
  have hlen : (fileUploadErrors body).length =
      (if fieldValid 2 100 body.title = true then 0 else 1) +
      (if fieldValid 10 500 body.description = true then 0 else 1) +
      (if fieldValid 2 50 body.theme = true then 0 else 1) + body.extra.length := by
    unfold fileUploadErrors
    simp only [List.length_append, List.length_map]
    rw [checkField_length _ _ _ _ _ _ _ (by decide), checkField_length _ _ _ _ _ _ _ (by decide),
      checkField_length _ _ _ _ _ _ _ (by decide)]
  have hnil : fileUploadErrors body = [] ↔
      (fieldValid 2 100 body.title = true ∧ fieldValid 10 500 body.description = true ∧
        fieldValid 2 50 body.theme = true ∧ body.extra = []) := by
    rw [← List.length_eq_zero, hlen]
    constructor
    · intro h
      refine ⟨?_, ?_, ?_, ?_⟩
      · by_contra hc; simp [hc] at h
      · by_contra hc; simp [hc] at h
      · by_contra hc; simp [hc] at h
      · apply List.length_eq_zero.1; omega
    · rintro ⟨h1, h2, h3, h4⟩
      simp [h1, h2, h3, h4]
  refine ⟨?_, ?_, hlen, ?_⟩
  · rw [← hnil]
    constructor
    · rintro ⟨v, hv⟩
      exact validate_ok hv
    · intro h
      exact ⟨_, by unfold validate; rw [if_pos h]⟩
  · by_cases h : fileUploadErrors body = []
    · left
      unfold validate
      rw [if_pos h]
    · right
      refine ⟨?_, h⟩
      unfold validate
      rw [if_neg h]
  · intro stage env file userId w fs1 staged fileType hstage htype hsize herr
    have hval : validate body = .error
        (Response.fresh.json 400 (.invalid "Données invalides" (fileUploadErrors body))) := by
      unfold validate
      rw [if_neg herr]
    unfold uploadPipeline
    simp [hstage, htype, hsize, hval]

end Bibliotheque

namespace Bibliotheque

open FileController

/-! ## C25: who can read stored content -/

/-- The static mount sends any file that exists under the uploads root,
whole, whatever the authentication gate would have answered. -/
theorem deliver_uploads (auth : Except Response Nat) (dbFails : Bool) (rel : String)
    (w : World) (bytes : Content) (h : w.fs (uploadsPath rel) = some bytes) :
    (deliver auth dbFails (.uploads rel) w).status = 200 ∧
    (deliver auth dbFails (.uploads rel) w).body = .content bytes := by
  unfold deliver staticUploads sendFile
  simp [h, Response.fresh]

/-- C25 fails on the static mount: for a caller the authentication gate
refuses, the two routes of the file router answer the refusal, but
`GET /uploads/pdf/1700000000003_statuts.pdf` answers 200 with the ten bytes
of the stored PDF of record 2. -/
theorem uploads_served_without_authentication :
    deliver (.error sampleRefusal) false (.serve 2 none) sampleLibrary = sampleRefusal ∧
    deliver (.error sampleRefusal) false (.download 2 none) sampleLibrary = sampleRefusal ∧
    samplePdfRow.file_path = "pdf/1700000000003_statuts.pdf" ∧
    (deliver (.error sampleRefusal) false (.uploads "pdf/1700000000003_statuts.pdf")
      sampleLibrary).status = 200 ∧
    (deliver (.error sampleRefusal) false (.uploads "pdf/1700000000003_statuts.pdf")
      sampleLibrary).body = .content [37, 80, 68, 70, 45, 49, 46, 52, 10, 37] ∧
    (deliver (.ok 1) false (.serve 2 none) sampleLibrary).body
      = .content [37, 80, 68, 70, 45, 49, 46, 52, 10, 37] := by
  decide

/-! ## C26: the gate of the mutating routes -/

/-- C26: for a caller whose role is not `admin`, the elevated-rights gate
answers itself, and the upload, update and delete routes return that answer
and the state they were given: no file is staged, and the file system and
the table are the same.  For a caller whose role is `admin` the gate hands
over, and the routes are the chains behind it. -/
theorem admin_gate_blocks (refusal : Response) (userId : Nat) (role : String)
    (hrole : role ≠ "admin") (stage : StageEnv) (env : UploadEnv) (sub : Submission)
    (updateFaults : UpdateFaults) (findFails : Bool) (deleteFaults : File.DeleteFaults)
    (id : Nat) (body : UploadBody) (w : World) :
    requireAdmin refusal role = .error refusal ∧
    uploadRoute (.ok userId) (requireAdmin refusal role) stage env sub w = (w, refusal) ∧
    updateRoute (.ok userId) (requireAdmin refusal role) updateFaults id body w = (w, refusal) ∧
    deleteRoute (.ok userId) (requireAdmin refusal role) findFails deleteFaults id w
      = (w, refusal) ∧
    (∀ name, (uploadRoute (.ok userId) (requireAdmin refusal role) stage env sub w).1.fs
      (tempPath name) = w.fs (tempPath name)) ∧
    uploadRoute (.ok userId) (requireAdmin refusal "admin") stage env sub w =
      uploadPipeline stage env { sub with userId := userId } w ∧
    deleteRoute (.ok userId) (requireAdmin refusal "admin") findFails deleteFaults id w =
      deleteFile findFails deleteFaults id w := by
  have hgate : requireAdmin refusal role = .error refusal := by
    unfold requireAdmin
    rw [if_neg hrole]
  rw [hgate]
  exact ⟨rfl, rfl, rfl, rfl, fun _ => rfl, rfl, rfl⟩

/-- C26 at the upload of the 10-byte PDF: sent by a caller with the role
`user` it is answered by the gate and leaves the table and the temp directory
as they were; sent by an administrator it is committed. -/
theorem admin_gate_blocks_witness :
    (uploadRoute (.ok 2) (requireAdmin sampleForbidden "user") sampleStage sampleEnv
      longerSubmission sampleInit).2 = sampleForbidden ∧
    (uploadRoute (.ok 2) (requireAdmin sampleForbidden "user") sampleStage sampleEnv
      longerSubmission sampleInit).1.db = sampleInit.db ∧
    (uploadRoute (.ok 2) (requireAdmin sampleForbidden "user") sampleStage sampleEnv
      longerSubmission sampleInit).1.fs (tempPath "temp-1700000000000-123456789.pdf") = none ∧
    (uploadRoute (.ok 1) (requireAdmin sampleForbidden "admin") sampleStage sampleEnv
      longerSubmission sampleInit).2.status = 201 :=
  have h := admin_gate_blocks sampleForbidden 2 "user" (by decide) sampleStage sampleEnv
    longerSubmission { findFails := false, updateFails := false, refindFails := false } false
    { selectFails := false, removeFails := false, deleteFails := false } 1 scenarioBody
    sampleInit
  ⟨congrArg Prod.snd h.2.1, congrArg (fun r => r.1.db) h.2.1,
   (h.2.2.2.2.1 "temp-1700000000000-123456789.pdf").trans (by decide), by decide⟩

/-! ## C27: the answer to a failure inside `uploadFile` -/

/-- C27: any two runs of `uploadFile` that answer 500, whatever failed in
each of them, give the same response: status 500, the Content-Type of a JSON
answer and no other header, and the body `success: false` with the message
`Erreur interne du serveur`. -/
theorem upload_failures_same_response (env1 env2 : UploadEnv) (req1 req2 : UploadRequest)
    (w1 w2 : World)
    (h1 : (uploadFile env1 req1 w1).2.status = 500)
    (h2 : (uploadFile env2 req2 w2).2.status = 500) :
    (uploadFile env1 req1 w1).2 = (uploadFile env2 req2 w2).2 ∧
    (uploadFile env1 req1 w1).2 =
      { status := 500, contentType := some "application/json; charset=utf-8",
        contentDisposition := none, contentRange := none,
        acceptRanges := none, contentLength := none,
        body := .json false "Erreur interne du serveur" } := by
  have key : ∀ (env : UploadEnv) (req : UploadRequest) (w : World),
      (uploadFile env req w).2.status = 500 →
      (uploadFile env req w).2 = serverError Response.fresh := by
    intro env req w h
    rcases uploadFile_response env req w with h0 | h0 | ⟨newFile, h0⟩
    · rw [h0] at h; exact absurd h (by decide)
    · exact h0
    · rw [h0] at h; exact absurd h (by simp [Response.json])
  rw [key env1 req1 w1 h1, key env2 req2 w2 h2]
  exact ⟨rfl, rfl⟩

/-- C27 at a relocation that fails and an INSERT that fails. -/
theorem upload_failures_same_response_witness :
    (uploadFile { sampleEnv with moveFails := true } sampleRequest sampleStaged).2 =
      (uploadFile { sampleEnv with insertFails := true } sampleRequest sampleStaged).2 ∧
    (uploadFile { sampleEnv with moveFails := true } sampleRequest sampleStaged).2 =
      { status := 500, contentType := some "application/json; charset=utf-8",
        contentDisposition := none, contentRange := none,
        acceptRanges := none, contentLength := none,
        body := .json false "Erreur interne du serveur" } :=
  upload_failures_same_response { sampleEnv with moveFails := true }
    { sampleEnv with insertFails := true } sampleRequest sampleRequest sampleStaged sampleStaged
    (by decide) (by decide)

end Bibliotheque

namespace Bibliotheque

open FileController

/-! ## C28: the durable file name -/

/-- A decimal digit is in the class `[a-zA-Z0-9.-]`. -/
theorem isSafeChar_of_isDigit {c : Char} (h : c.isDigit = true) : isSafeChar c = true := by
  simp only [Char.isDigit, Bool.and_eq_true, decide_eq_true_eq] at h
  have h1 : '0' ≤ c := h.1
  have h2 : c ≤ '9' := h.2
  simp [isSafeChar, h1, h2]

/-- The characters `sanitizeChar` produces. -/
theorem sanitizeChar_safe {c d : Char} (h : c ∈ sanitizeChar d) :
    isSafeChar c = true ∨ c = '_' := by
  unfold sanitizeChar at h
  split at h
  · rename_i hd
    simp only [List.mem_singleton] at h
    subst h
    exact Or.inl hd
  · split at h
    · simp only [List.mem_cons, List.mem_singleton, or_self, List.not_mem_nil, or_false] at h
      exact Or.inr h
    · simp only [List.mem_singleton] at h
      exact Or.inr h

/-- The characters of a sanitized name. -/
theorem sanitizeName_safe (name : String) {c : Char} (h : c ∈ (sanitizeName name).data) :
    isSafeChar c = true ∨ c = '_' := by
  simp only [sanitizeName, List.mem_flatten, List.mem_map] at h
  obtain ⟨l, ⟨d, _, rfl⟩, hc⟩ := h
  exact sanitizeChar_safe hc

/-- The characters of the durable file name: the numeral, an underscore, the
sanitized name. -/
theorem fileName_data (timestamp : Nat) (originalname : String) :
    (fileName timestamp originalname).data =
      (toString timestamp).data ++ '_' :: (sanitizeName originalname).data := by
  simp [fileName, String.data_append]

/-- Every character of the durable file name is in `[A-Za-z0-9._-]`. -/
theorem fileName_chars (timestamp : Nat) (originalname : String) {c : Char}
    (h : c ∈ (fileName timestamp originalname).data) : isSafeChar c = true ∨ c = '_' := by
  rw [fileName_data, List.mem_append, List.mem_cons] at h
  rcases h with h | h | h
  · exact Or.inl (isSafeChar_of_isDigit ((toString_nat_spec timestamp).2.1 c h))
  · exact Or.inr h
  · exact sanitizeName_safe originalname h

/-- C28: for every original name, the durable file name of `uploadFile` is
the decimal numeral of the timestamp, an underscore, and the sanitized name;
each of its characters is in `[A-Za-z0-9.-]` or is an underscore; it contains
neither a slash nor a backslash and is neither `.` nor `..`; and for a
category the table admits, the stored path splits at the slashes into
exactly two components, the category and that file name (so a name such as
`../../etc/passwd` gives one component). -/
theorem fileName_safe (timestamp : Nat) (originalname : String) :
    (fileName timestamp originalname).data =
      (toString timestamp).data ++ '_' :: (sanitizeName originalname).data ∧
    (toString timestamp).data ≠ [] ∧
    (∀ c ∈ (toString timestamp).data, c.isDigit = true) ∧
    (∀ c ∈ (fileName timestamp originalname).data, isSafeChar c = true ∨ c = '_') ∧
    '/' ∉ (fileName timestamp originalname).data ∧
    '\\' ∉ (fileName timestamp originalname).data ∧
    fileName timestamp originalname ≠ "." ∧
    fileName timestamp originalname ≠ ".." ∧
    (∀ fileType, typeCheck fileType = true →
      relativePath fileType timestamp originalname =
        fileType ++ "/" ++ fileName timestamp originalname ∧
      jsSplit '/' (relativePath fileType timestamp originalname).data =
        [fileType.data, (fileName timestamp originalname).data]) ∧
    fileName 1700000000001 "../../etc/passwd" = "1700000000001_.._.._etc_passwd" ∧
    fileName 1700000000001 "..\\récolte 🌾.pdf" = "1700000000001_.._r_colte___.pdf" := by
  obtain ⟨hne, hdig, _⟩ := toString_nat_spec timestamp
  have hslash : '/' ∉ (fileName timestamp originalname).data := by
    intro h
    rcases fileName_chars timestamp originalname h with h | h
    · exact absurd h (by decide)
    · exact absurd h (by decide)
  have hback : '\\' ∉ (fileName timestamp originalname).data := by
    intro h
    rcases fileName_chars timestamp originalname h with h | h
    · exact absurd h (by decide)
    · exact absurd h (by decide)
  have hunder : '_' ∈ (fileName timestamp originalname).data := by
    rw [fileName_data]
    simp
  refine ⟨fileName_data timestamp originalname, hne, hdig,
    fun c h => fileName_chars timestamp originalname h, hslash, hback, ?_, ?_, ?_,
    by decide, by decide⟩
  · intro h
    rw [h] at hunder
    exact absurd hunder (by decide)
  · intro h
    rw [h] at hunder
    exact absurd hunder (by decide)
  · intro fileType ht
    refine ⟨by simp [relativePath, fileName, String.append_assoc], ?_⟩
    rw [relativePath_data, jsSplit_append _ _ _ (slash_not_mem_type ht), ← fileName_data,
      jsSplit_not_mem _ _ hslash]

end Bibliotheque

namespace Bibliotheque

open FileController

/-! ## C29: the three copies of the allow-list -/

/-- The keys of `allowedTypes` are the entries of `allowedMimeTypes`. -/
theorem allowedTypes_keys : allowedTypes.map Prod.fst = allowedMimeTypes := by decide

/-- The two object literals are the same table. -/
theorem typeMap_eq : typeMap = allowedTypes := rfl

/-- A name `fileFilter` refuses is no own key of `allowedTypes`. -/
theorem lookup_of_not_filter {m : String} (h : fileFilter m = false) :
    allowedTypes.lookup m = none := by
  rw [List.lookup_eq_none_iff]
  intro p hp
  simp only [bne_iff_ne, ne_eq]
  intro hm
  have hmem : m ∈ allowedMimeTypes := by
    rw [← allowedTypes_keys, List.mem_map]
    exact ⟨p, hp, hm.symm⟩
  have : fileFilter m = true := by
    unfold fileFilter
    simpa using hmem
  rw [h] at this
  cases this

/-- A file `fileFilter` accepts is accepted by `validateFileType`, and
`getFileTypeFromMime` gives the same category, one the CHECK constraint
admits. -/
theorem agree_of_filter (file : UploadedFile) (hf : fileFilter file.mimetype = true) :
    ∃ t, validateFileType (some file) = .ok t ∧ getFileTypeFromMime file.mimetype = t ∧
      typeCheck t = true := by
  obtain ⟨t, hread, _, hcheck⟩ := readProperty_of_filter hf
  have hne : t ≠ "" := by
    intro h0
    rw [h0] at hcheck
    exact absurd hcheck (by decide)
  refine ⟨t, ?_, ?_, hcheck⟩
  · unfold validateFileType
    simp only [hread, hne, if_false]
  · unfold getFileTypeFromMime
    rw [typeMap_eq, hread]
    simp only [hne, if_false]

/-- C29 as stated fails on the names an object literal inherits: for the MIME
string `constructor`, `fileFilter` refuses the file, but `validateFileType`
called on it accepts it and sets as category the inherited member,
`getFileTypeFromMime` returns that member and not `unknown`, and the CHECK
constraint of the table refuses that category. -/
theorem allow_lists_disagree :
    fileFilter "constructor" = false ∧
    validateFileType (some { path := "temp/temp-1700000000000-123456789", originalname := "notes",
                             mimetype := "constructor", size := 4 })
      = .ok (inheritedText "constructor") ∧
    getFileTypeFromMime "constructor" = inheritedText "constructor" ∧
    getFileTypeFromMime "constructor" ≠ "unknown" ∧
    typeCheck (inheritedText "constructor") = false := by
  refine ⟨by decide, ?_, by decide, by decide, by decide⟩
  unfold validateFileType
  exact congrArg Except.ok (by decide)

/-- C29 (amended): for a MIME string that is not a name inherited from
`Object.prototype`, the three copies of the allow-list agree: `fileFilter`
accepts it exactly when `validateFileType` does and exactly when
`getFileTypeFromMime` returns something other than `unknown`, and then both
give the same category, one the CHECK constraint admits.  For every inherited
name `fileFilter` refuses while `getFileTypeFromMime` does not return
`unknown`.  On the upload route, where `fileFilter` runs before
`validateFileType`, every category assigned is the one `getFileTypeFromMime`
gives and one the CHECK constraint admits. -/
theorem allow_lists_agree (file : UploadedFile)
    (h : objectPrototypeKeys.contains file.mimetype = false) :
    (fileFilter file.mimetype = true ↔ ∃ t, validateFileType (some file) = .ok t) ∧
    (fileFilter file.mimetype = true ↔ getFileTypeFromMime file.mimetype ≠ "unknown") ∧
    (∀ t, validateFileType (some file) = .ok t →
      getFileTypeFromMime file.mimetype = t ∧ typeCheck t = true) ∧
    (∀ m ∈ objectPrototypeKeys,
      fileFilter m = false ∧ getFileTypeFromMime m ≠ "unknown" ∧
      typeCheck (getFileTypeFromMime m) = false) ∧
    (∀ (other : UploadedFile) (t : String), classify other = .ok t →
      fileFilter other.mimetype = true ∧ validateFileType (some other) = .ok t ∧
      getFileTypeFromMime other.mimetype = t ∧ typeCheck t = true) := by
  have hroute : ∀ (other : UploadedFile) (t : String), classify other = .ok t →
      fileFilter other.mimetype = true ∧ validateFileType (some other) = .ok t ∧
      getFileTypeFromMime other.mimetype = t ∧ typeCheck t = true := by
    intro other t ht
    unfold classify at ht
    split at ht
    · cases ht
    · rename_i hfilter
      have hf : fileFilter other.mimetype = true := by simpa using hfilter
      obtain ⟨t2, hv, hg, hcheck⟩ := agree_of_filter other hf
      rw [hv] at ht
      cases ht
      exact ⟨hf, hv, hg, hcheck⟩
  have hinherited : ∀ m ∈ objectPrototypeKeys,
      fileFilter m = false ∧ getFileTypeFromMime m ≠ "unknown" ∧
      typeCheck (getFileTypeFromMime m) = false := by
    decide
  cases hf : fileFilter file.mimetype with
  | false =>
    have hread : readProperty allowedTypes file.mimetype = none := by
      unfold readProperty
      rw [lookup_of_not_filter hf]
      simp only [h, Bool.false_eq_true, if_false]
    have hv : validateFileType (some file) =
        .error (Response.fresh.json 400 (.json false unsupportedTypeMessage)) := by
      unfold validateFileType
      simp only [hread]
    have hg : getFileTypeFromMime file.mimetype = "unknown" := by
      unfold getFileTypeFromMime
      rw [typeMap_eq, hread]
    refine ⟨?_, ?_, ?_, hinherited, hroute⟩
    · simp [hv]
    · simp [hg]
    · intro t ht
      rw [hv] at ht
      cases ht
  | true =>
    obtain ⟨t, hv, hg, hcheck⟩ := agree_of_filter file hf
    refine ⟨?_, ?_, ?_, hinherited, hroute⟩
    · simp [hv]
    · rw [hg]
      simp only [true_iff]
      intro h0
      rw [h0] at hcheck
      exact absurd hcheck (by decide)
    · intro t2 ht2
      rw [hv] at ht2
      cases ht2
      exact ⟨hg, hcheck⟩

/-- C29 (amended) at a PNG image. -/
theorem allow_lists_agree_witness :
    (fileFilter "image/png" = true ↔
      ∃ t, validateFileType (some { path := "temp/temp-1700000000000-123456789.png",
                                     originalname := "photo.png", mimetype := "image/png",
                                     size := 5 }) = .ok t) ∧
    getFileTypeFromMime "image/png" = "image" ∧
    classify { path := "temp/temp-1700000000000-123456789.png", originalname := "photo.png",
               mimetype := "image/png", size := 5 } = .ok "image" :=
  have h := allow_lists_agree
    { path := "temp/temp-1700000000000-123456789.png", originalname := "photo.png",
      mimetype := "image/png", size := 5 } (by decide)
  ⟨h.1, by decide, by unfold classify validateFileType; exact congrArg Except.ok (by decide)⟩

end Bibliotheque

namespace Bibliotheque

open FileController

/-! ## C30: the statement of the listing -/

/-- The text of the statement depends on which of `type`, `theme`, `search`,
`limit` and `offset` are set, and on the values of `sortBy` and `sortOrder`. -/
theorem getAllQuery_text (f1 f2 : Filters)
    (htype : truthy f1.type = truthy f2.type) (htheme : truthy f1.theme = truthy f2.theme)
    (hsearch : truthy f1.search = truthy f2.search) (hlimit : truthy f1.limit = truthy f2.limit)
    (hoffset : truthy f1.offset = truthy f2.offset)
    (hsortBy : f1.sortBy = f2.sortBy) (hsortOrder : f1.sortOrder = f2.sortOrder) :
    (File.getAllQuery f1).1 = (File.getAllQuery f2).1 := by
  unfold File.getAllQuery
  simp only [htype, htheme, hsearch, hlimit, hoffset, hsortBy, hsortOrder]

set_option maxRecDepth 8000 in
/-- C30 fails for the sort fields: two query strings that set only `sortBy`,
to `title` and to `file_size`, give two different statement texts and no
bound parameter; and a `sortBy` that is an SQL expression is written into the
text as it is. -/
theorem getAll_text_depends_on_sort :
    (File.getAllQuery (filtersOfQuery sortByTitle)).1 =
      File.baseQuery ++ " ORDER BY f.title DESC" ∧
    (File.getAllQuery (filtersOfQuery sortBySize)).1 =
      File.baseQuery ++ " ORDER BY f.file_size DESC" ∧
    (File.getAllQuery (filtersOfQuery sortByTitle)).1 ≠
      (File.getAllQuery (filtersOfQuery sortBySize)).1 ∧
    (File.getAllQuery (filtersOfQuery sortByTitle)).2 = [] ∧
    (File.getAllQuery (filtersOfQuery sortBySize)).2 = [] ∧
    (File.getAllQuery (filtersOfQuery sortByExpression)).1 =
      File.baseQuery ++
        " ORDER BY f.id IN (SELECT id FROM users) DESC" ∧
    (File.getAllQuery (filtersOfQuery sortByExpression)).2 = [] := by
  decide

/-- The text of the statement for two searches that differ in the values of
`type`, `theme`, `search`, `limit` and `offset` only. -/
theorem getAllQuery_text_sample :
    (File.getAllQuery
      { type := some "pdf", theme := some "Gestion", search := some "statuts",
        sortBy := some "date_added", sortOrder := some "DESC", limit := some "10",
        offset := some "20" }).1 =
    (File.getAllQuery
      { type := some "audio", theme := some "Culture", search := some "chant",
        sortBy := some "date_added", sortOrder := some "DESC", limit := some "5",
        offset := some "0x10" }).1 :=
  getAllQuery_text _ _ rfl rfl rfl rfl rfl rfl rfl

end Bibliotheque
